import Mathlib

/-!
VulkanBootstrap: selection, query and frame-loop logic.

A shallow embedding of the decision logic of the repository
(`inc/config.h`, `inc/info.h`, `lib/platform.h`, `src/main.cpp`).

* Vulkan handles (`VkPhysicalDevice`, `VkSurfaceKHR`, ...) are opaque values, embedded as `Nat`.
* C enums and flag words are embedded as `Nat` with the numeric values of the Vulkan headers.
* `std::vector<T>` is embedded as `List T`.
* `uint32_t` arithmetic is embedded as `Nat` arithmetic modulo `2 ^ 32`.
* The Vulkan driver is an explicit parameter (`Driver`): every query the code makes is
  answered by one of its fields.
* Indexing an empty vector, reading outside a buffer, and reading an indeterminate value
  are undefined behaviour in C++; functions that can reach them return `Option`
  or an explicit outcome type.
-/

namespace VulkanBootstrap

/-! ## Constants of the Vulkan headers -/

/-- Value of `VK_SUCCESS` in `vulkan_core.h`. -/
def VK_SUCCESS : Int := 0

/-- Value of `VK_FORMAT_B8G8R8A8_SRGB` in `vulkan_core.h`. -/
def VK_FORMAT_B8G8R8A8_SRGB : Nat := 50

/-- Value of `VK_COLOR_SPACE_SRGB_NONLINEAR_KHR` in `vulkan_core.h`. -/
def VK_COLOR_SPACE_SRGB_NONLINEAR_KHR : Nat := 0

/-- Value of `VK_PRESENT_MODE_IMMEDIATE_KHR` in `vulkan_core.h`. -/
def VK_PRESENT_MODE_IMMEDIATE_KHR : Nat := 0

/-- Value of `VK_PRESENT_MODE_MAILBOX_KHR` in `vulkan_core.h`. -/
def VK_PRESENT_MODE_MAILBOX_KHR : Nat := 1

/-- Value of `VK_PRESENT_MODE_FIFO_KHR` in `vulkan_core.h`. -/
def VK_PRESENT_MODE_FIFO_KHR : Nat := 2

/-- Value of `VK_QUEUE_GRAPHICS_BIT` in `vulkan_core.h`. -/
def VK_QUEUE_GRAPHICS_BIT : Nat := 1

/-- Value of `VK_QUEUE_COMPUTE_BIT` in `vulkan_core.h`. -/
def VK_QUEUE_COMPUTE_BIT : Nat := 2

/-- Value of `VK_QUEUE_TRANSFER_BIT` in `vulkan_core.h`. -/
def VK_QUEUE_TRANSFER_BIT : Nat := 4

/-- Value of `VK_FALSE` in `vulkan_core.h`. -/
def VK_FALSE : Nat := 0

/-- Value of `VK_TRUE` in `vulkan_core.h`. -/
def VK_TRUE : Nat := 1

/-- Value of `VK_KHR_SWAPCHAIN_EXTENSION_NAME` in `vulkan_core.h`. -/
def VK_KHR_SWAPCHAIN_EXTENSION_NAME : String := "VK_KHR_swapchain"

/-- Number of values of a `uint32_t`. -/
def UINT32_RANGE : Nat := 4294967296

/-! ## Data model -/

/-- Opaque handle `VkPhysicalDevice`. -/
abbrev VkPhysicalDevice := Nat

/-- Opaque handle `VkSurfaceKHR`. -/
abbrev VkSurfaceKHR := Nat

/-- Enum `VkPresentModeKHR`. -/
abbrev VkPresentModeKHR := Nat

/-- The fields of `VkSurfaceFormatKHR`. -/
structure VkSurfaceFormatKHR where
  format : Nat
  colorSpace : Nat
deriving DecidableEq, Repr

/-- The fields of `VkExtensionProperties`; `extensionName` is the C string held in the
`char[256]` field. -/
structure VkExtensionProperties where
  extensionName : String
  specVersion : Nat
deriving DecidableEq, Repr

/-- The fields of `VkQueueFamilyProperties` read by the code (`queueFlags`), with `queueCount`. -/
structure VkQueueFamilyProperties where
  queueFlags : Nat
  queueCount : Nat
deriving DecidableEq, Repr

/-- The answers of the Vulkan driver to the queries made by the code.  The enumeration entry
points report their element count through a `uint32_t`, hence the bound on the number of
queue families. -/
structure Driver where
  /-- The array filled by `vkEnumerateDeviceExtensionProperties`. -/
  deviceExtensions : VkPhysicalDevice → List VkExtensionProperties
  /-- The array filled by `vkGetPhysicalDeviceSurfaceFormatsKHR`. -/
  surfaceFormats : VkPhysicalDevice → VkSurfaceKHR → List VkSurfaceFormatKHR
  /-- The array filled by `vkGetPhysicalDeviceSurfacePresentModesKHR`. -/
  surfacePresentModes : VkPhysicalDevice → VkSurfaceKHR → List VkPresentModeKHR
  /-- The array filled by `vkGetPhysicalDeviceQueueFamilyProperties`. -/
  queueFamilies : VkPhysicalDevice → List VkQueueFamilyProperties
  /-- The `VkBool32` left in `presentSupported` by `vkGetPhysicalDeviceSurfaceSupportKHR`
  for a queue family index. -/
  surfaceSupport : VkPhysicalDevice → Nat → VkSurfaceKHR → Nat
  /-- The family count is a `uint32_t`. -/
  queueFamilies_count : ∀ pd, (queueFamilies pd).length < UINT32_RANGE

/-! ## `inc/info.h`: enumeration helpers -/

/-- `api::enumerateQueueFamilies`: the vector of `count` entries filled by the driver. -/
def api.enumerateQueueFamilies (drv : Driver) (physicalDevice : VkPhysicalDevice) :
    List VkQueueFamilyProperties :=
  drv.queueFamilies physicalDevice

/-- `api::enumerateSurfaceFormats`. -/
def api.enumerateSurfaceFormats (drv : Driver) (physicalDevice : VkPhysicalDevice)
    (surface : VkSurfaceKHR) : List VkSurfaceFormatKHR :=
  drv.surfaceFormats physicalDevice surface

/-- `api::enumerateSurfacePresentModes`. -/
def api.enumerateSurfacePresentModes (drv : Driver) (physicalDevice : VkPhysicalDevice)
    (surface : VkSurfaceKHR) : List VkPresentModeKHR :=
  drv.surfacePresentModes physicalDevice surface

/-- `api::enumerateDeviceExtensionSupport`. -/
def api.enumerateDeviceExtensionSupport (drv : Driver) (physicalDevice : VkPhysicalDevice) :
    List VkExtensionProperties :=
  drv.deviceExtensions physicalDevice

/-! ## `inc/config.h`: `selectSurfaceFormat` -/

/-- The range-for loop of `api::selectSurfaceFormat`; the first branch is
`result = surfaceFormat; break;`. -/
def api.selectSurfaceFormat.loop :
    List VkSurfaceFormatKHR → VkSurfaceFormatKHR → VkSurfaceFormatKHR
  | [], result => result
  | surfaceFormat :: rest, result =>
    let isFormatSufficient := surfaceFormat.format == VK_FORMAT_B8G8R8A8_SRGB
    let isColorSpaceSufficient := surfaceFormat.colorSpace == VK_COLOR_SPACE_SRGB_NONLINEAR_KHR
    if isFormatSufficient && isColorSpaceSufficient then
      surfaceFormat
    else
      api.selectSurfaceFormat.loop rest result

/-- `api::selectSurfaceFormat`.  `surfaceFormats[0]` on an empty vector is undefined
behaviour: `none`. -/
def api.selectSurfaceFormat (surfaceFormats : List VkSurfaceFormatKHR) :
    Option VkSurfaceFormatKHR :=
  match surfaceFormats with
  | [] => none
  | first :: _ => some (api.selectSurfaceFormat.loop surfaceFormats first)

/-- The condition tested by `selectSurfaceFormat`, as a predicate. -/
def isPreferredSurfaceFormat (f : VkSurfaceFormatKHR) : Prop :=
  f.format = VK_FORMAT_B8G8R8A8_SRGB ∧ f.colorSpace = VK_COLOR_SPACE_SRGB_NONLINEAR_KHR

instance (f : VkSurfaceFormatKHR) : Decidable (isPreferredSurfaceFormat f) := by
  unfold isPreferredSurfaceFormat; infer_instance

/-! ## `inc/info.h` and `lib/platform.h`: `queryFullDeviceExtensionSupport` -/

/-- The inner range-for loop of `api::queryFullDeviceExtensionSupport` for one `required`
name: at the first supported extension of that name, `count--; break;` (on a `uint32_t`). -/
def api.queryFullDeviceExtensionSupport.inner (required : String) :
    List VkExtensionProperties → Nat → Nat
  | [], count => count
  | supported :: rest, count =>
    if required = supported.extensionName then
      (count + (UINT32_RANGE - 1)) % UINT32_RANGE
    else
      api.queryFullDeviceExtensionSupport.inner required rest count

/-- The outer range-for loop of `api::queryFullDeviceExtensionSupport`. -/
def api.queryFullDeviceExtensionSupport.outer (supportedExtensions : List VkExtensionProperties) :
    List String → Nat → Nat
  | [], count => count
  | required :: rest, count =>
    api.queryFullDeviceExtensionSupport.outer supportedExtensions rest
      (api.queryFullDeviceExtensionSupport.inner required supportedExtensions count)

/-- `api::queryFullDeviceExtensionSupport`; `uint32_t count = requiredExtensions.size()`
keeps the low 32 bits of the size. -/
def api.queryFullDeviceExtensionSupport (drv : Driver) (physicalDevice : VkPhysicalDevice)
    (requiredExtensions : List String) : Bool :=
  let supportedExtensions := api.enumerateDeviceExtensionSupport drv physicalDevice
  let count := requiredExtensions.length % UINT32_RANGE
  if count = 0 then
    true
  else
    let count := api.queryFullDeviceExtensionSupport.outer supportedExtensions
      requiredExtensions count
    count == 0

/-- `platform::enumerateDeviceExtensionSupport`. -/
def platform.enumerateDeviceExtensionSupport (drv : Driver)
    (physicalDevice : VkPhysicalDevice) : List VkExtensionProperties :=
  drv.deviceExtensions physicalDevice

/-- The inner range-for loop of `platform::queryFullDeviceExtensionSupport`. -/
def platform.queryFullDeviceExtensionSupport.inner (required : String) :
    List VkExtensionProperties → Nat → Nat
  | [], count => count
  | supported :: rest, count =>
    if required = supported.extensionName then
      (count + (UINT32_RANGE - 1)) % UINT32_RANGE
    else
      platform.queryFullDeviceExtensionSupport.inner required rest count

/-- The outer range-for loop of `platform::queryFullDeviceExtensionSupport`. -/
def platform.queryFullDeviceExtensionSupport.outer
    (supportedExtensions : List VkExtensionProperties) : List String → Nat → Nat
  | [], count => count
  | required :: rest, count =>
    platform.queryFullDeviceExtensionSupport.outer supportedExtensions rest
      (platform.queryFullDeviceExtensionSupport.inner required supportedExtensions count)

/-- `platform::queryFullDeviceExtensionSupport`. -/
def platform.queryFullDeviceExtensionSupport (drv : Driver) (physicalDevice : VkPhysicalDevice)
    (requiredExtensions : List String) : Bool :=
  let supportedExtensions := platform.enumerateDeviceExtensionSupport drv physicalDevice
  let count := requiredExtensions.length % UINT32_RANGE
  if count = 0 then
    true
  else
    let count := platform.queryFullDeviceExtensionSupport.outer supportedExtensions
      requiredExtensions count
    count == 0

/-- A required name is supported when it equals the `extensionName` of a supported extension. -/
def isSupportedName (supportedExtensions : List VkExtensionProperties) (required : String) :
    Prop :=
  ∃ s ∈ supportedExtensions, required = s.extensionName

instance (supportedExtensions : List VkExtensionProperties) (required : String) :
    Decidable (isSupportedName supportedExtensions required) := by
  unfold isSupportedName; infer_instance

/-! ## `inc/config.h`: `isDeviceAdequate`, `selectPhysicalDevice`, `selectSurfacePresentMode` -/

/-- `api::isDeviceAdequate`. -/
def api.isDeviceAdequate (drv : Driver) (physicalDevice : VkPhysicalDevice)
    (surface : VkSurfaceKHR) : Bool :=
  let supported := api.queryFullDeviceExtensionSupport drv physicalDevice
    [VK_KHR_SWAPCHAIN_EXTENSION_NAME]
  let formats := api.enumerateSurfaceFormats drv physicalDevice surface
  let modes := api.enumerateSurfacePresentModes drv physicalDevice surface
  let result := (supported && !formats.isEmpty && !modes.isEmpty)
  result

/-- The range-for loop of `api::selectPhysicalDevice`: `result = physicalDevice;` on every
adequate device, with no `break`. -/
def api.selectPhysicalDevice.loop (drv : Driver) (surface : VkSurfaceKHR) :
    List VkPhysicalDevice → VkPhysicalDevice → VkPhysicalDevice
  | [], result => result
  | physicalDevice :: rest, result =>
    if api.isDeviceAdequate drv physicalDevice surface then
      api.selectPhysicalDevice.loop drv surface rest physicalDevice
    else
      api.selectPhysicalDevice.loop drv surface rest result

/-- `api::selectPhysicalDevice`.  `physicalDevices[0]` on an empty vector is undefined
behaviour: `none`. -/
def api.selectPhysicalDevice (drv : Driver) (physicalDevices : List VkPhysicalDevice)
    (surface : VkSurfaceKHR) : Option VkPhysicalDevice :=
  match physicalDevices with
  | [] => none
  | first :: _ => some (api.selectPhysicalDevice.loop drv surface physicalDevices first)

/-- The range-for loop of `api::selectSurfacePresentMode`; the first branch is
`result = presentMode; break;`. -/
def api.selectSurfacePresentMode.loop :
    List VkPresentModeKHR → VkPresentModeKHR → VkPresentModeKHR
  | [], result => result
  | presentMode :: rest, result =>
    let isPresentModeSufficient := presentMode == VK_PRESENT_MODE_MAILBOX_KHR
    if isPresentModeSufficient then
      presentMode
    else
      api.selectSurfacePresentMode.loop rest result

/-- `api::selectSurfacePresentMode`: `result` starts as `VK_PRESENT_MODE_FIFO_KHR`. -/
def api.selectSurfacePresentMode (presentModes : List VkPresentModeKHR) : VkPresentModeKHR :=
  api.selectSurfacePresentMode.loop presentModes VK_PRESENT_MODE_FIFO_KHR

/-- What the specification of `isDeviceAdequate` says: the device supports `VK_KHR_swapchain`
and has at least one surface format and at least one present mode for the surface. -/
def isAdequateSpec (drv : Driver) (physicalDevice : VkPhysicalDevice) (surface : VkSurfaceKHR) :
    Prop :=
  isSupportedName (drv.deviceExtensions physicalDevice) VK_KHR_SWAPCHAIN_EXTENSION_NAME ∧
    drv.surfaceFormats physicalDevice surface ≠ [] ∧
    drv.surfacePresentModes physicalDevice surface ≠ []

instance (drv : Driver) (physicalDevice : VkPhysicalDevice) (surface : VkSurfaceKHR) :
    Decidable (isAdequateSpec drv physicalDevice surface) := by
  unfold isAdequateSpec; infer_instance

/-- A driver with two devices (handles 0 and 1), both offering `VK_KHR_swapchain`, one
surface format and one present mode, and a third device (handle 2) offering nothing. -/
def twoAdequateDriver : Driver where
  deviceExtensions := fun pd => if pd < 2 then [⟨"VK_KHR_swapchain", 70⟩] else []
  surfaceFormats := fun pd _ => if pd < 2 then [⟨50, 0⟩] else []
  surfacePresentModes := fun pd _ => if pd < 2 then [2] else []
  queueFamilies := fun _ => [⟨7, 1⟩]
  surfaceSupport := fun _ _ _ => 1
  queueFamilies_count := fun _ => by simp [UINT32_RANGE]

/-! ## `lib/platform.h` and `inc/info.h`: `queryQueueFamilyIndices` -/

/-- `platform::QueueFamilyIndices`. -/
structure platform.QueueFamilyIndices where
  graphicsFamily : Nat
  computeFamily : Nat
  transferFamily : Nat
  presentFamily : Nat
deriving DecidableEq, Repr

/-- `platform::enumerateQueueFamilies`. -/
def platform.enumerateQueueFamilies (drv : Driver) (physicalDevice : VkPhysicalDevice) :
    List VkQueueFamilyProperties :=
  drv.queueFamilies physicalDevice

/-- The range-for loop of `platform::queryQueueFamilyIndices`, with the running `uint32_t
index`.  A `VkBool32` is true in a condition when it is not zero. -/
def platform.queryQueueFamilyIndices.loop (drv : Driver) (physicalDevice : VkPhysicalDevice)
    (surface : VkSurfaceKHR) :
    List VkQueueFamilyProperties → Nat → platform.QueueFamilyIndices →
      platform.QueueFamilyIndices
  | [], _, result => result
  | queueFamily :: rest, index, result =>
    let graphicsSupported := queueFamily.queueFlags &&& VK_QUEUE_GRAPHICS_BIT
    let computeSupported := queueFamily.queueFlags &&& VK_QUEUE_COMPUTE_BIT
    let transferSupported := queueFamily.queueFlags &&& VK_QUEUE_TRANSFER_BIT
    let presentSupported := drv.surfaceSupport physicalDevice index surface
    let result := if graphicsSupported ≠ 0 then { result with graphicsFamily := index } else result
    let result := if computeSupported ≠ 0 then { result with computeFamily := index } else result
    let result := if transferSupported ≠ 0 then { result with transferFamily := index } else result
    let result := if presentSupported ≠ 0 then { result with presentFamily := index } else result
    platform.queryQueueFamilyIndices.loop drv physicalDevice surface rest
      ((index + 1) % UINT32_RANGE) result

/-- `platform::queryQueueFamilyIndices`.  The aggregate initialiser
`QueueFamilyIndices result = {0xFFFFFFFF};` gives the first member the value `0xFFFFFFFF`
and value-initialises the three remaining members to zero. -/
def platform.queryQueueFamilyIndices (drv : Driver) (physicalDevice : VkPhysicalDevice)
    (surface : VkSurfaceKHR) : platform.QueueFamilyIndices :=
  let queueFamilies := platform.enumerateQueueFamilies drv physicalDevice
  let result : platform.QueueFamilyIndices :=
    { graphicsFamily := 0xFFFFFFFF, computeFamily := 0, transferFamily := 0, presentFamily := 0 }
  platform.queryQueueFamilyIndices.loop drv physicalDevice surface queueFamilies 0 result

/-- The four `uint32_t*` output parameters of `api::queryQueueFamilyIndices` and the cells
they point to: `none` is `nullptr`, `some v` points to a cell that currently holds `v`. -/
structure api.QueueFamilyPointers where
  graphicsFamily : Option Nat
  computeFamily : Option Nat
  transferFamily : Option Nat
  presentFamily : Option Nat
deriving DecidableEq, Repr

/-- The range-for loop of `api::queryQueueFamilyIndices`: a cell is written only through a
non-null pointer. -/
def api.queryQueueFamilyIndices.loop (drv : Driver) (physicalDevice : VkPhysicalDevice)
    (surface : VkSurfaceKHR) :
    List VkQueueFamilyProperties → Nat → api.QueueFamilyPointers → api.QueueFamilyPointers
  | [], _, out => out
  | queueFamily :: rest, index, out =>
    let graphicsSupported := queueFamily.queueFlags &&& VK_QUEUE_GRAPHICS_BIT
    let computeSupported := queueFamily.queueFlags &&& VK_QUEUE_COMPUTE_BIT
    let transferSupported := queueFamily.queueFlags &&& VK_QUEUE_TRANSFER_BIT
    let presentSupported := drv.surfaceSupport physicalDevice index surface
    let out := if graphicsSupported ≠ 0 ∧ out.graphicsFamily.isSome then
      { out with graphicsFamily := some index } else out
    let out := if computeSupported ≠ 0 ∧ out.computeFamily.isSome then
      { out with computeFamily := some index } else out
    let out := if transferSupported ≠ 0 ∧ out.transferFamily.isSome then
      { out with transferFamily := some index } else out
    let out := if presentSupported ≠ 0 ∧ out.presentFamily.isSome then
      { out with presentFamily := some index } else out
    api.queryQueueFamilyIndices.loop drv physicalDevice surface rest
      ((index + 1) % UINT32_RANGE) out

/-- `api::queryQueueFamilyIndices`: the state of the four output cells after the call. -/
def api.queryQueueFamilyIndices (drv : Driver) (physicalDevice : VkPhysicalDevice)
    (surface : VkSurfaceKHR) (out : api.QueueFamilyPointers) : api.QueueFamilyPointers :=
  let queueFamilies := api.enumerateQueueFamilies drv physicalDevice
  api.queryQueueFamilyIndices.loop drv physicalDevice surface queueFamilies 0 out

/-- The four capabilities reported by `queryQueueFamilyIndices`. -/
inductive Capability where
  | graphics
  | compute
  | transfer
  | present
deriving DecidableEq, Repr

/-- Whether the queue family `family`, at index `index` of the device, supports a
capability: the `queueFlags` bit for graphics, compute and transfer, the per-index
surface-support query for present. -/
def Capability.supportedBy (drv : Driver) (physicalDevice : VkPhysicalDevice)
    (surface : VkSurfaceKHR) (c : Capability) (index : Nat)
    (family : VkQueueFamilyProperties) : Bool :=
  match c with
  | .graphics => family.queueFlags &&& VK_QUEUE_GRAPHICS_BIT != 0
  | .compute => family.queueFlags &&& VK_QUEUE_COMPUTE_BIT != 0
  | .transfer => family.queueFlags &&& VK_QUEUE_TRANSFER_BIT != 0
  | .present => drv.surfaceSupport physicalDevice index surface != 0

/-- The field of a `platform::QueueFamilyIndices` for a capability. -/
def platform.QueueFamilyIndices.field (r : platform.QueueFamilyIndices) :
    Capability → Nat
  | .graphics => r.graphicsFamily
  | .compute => r.computeFamily
  | .transfer => r.transferFamily
  | .present => r.presentFamily

/-- The output cell of `api::queryQueueFamilyIndices` for a capability. -/
def api.QueueFamilyPointers.field (r : api.QueueFamilyPointers) : Capability → Option Nat
  | .graphics => r.graphicsFamily
  | .compute => r.computeFamily
  | .transfer => r.transferFamily
  | .present => r.presentFamily

/-- The value left in one cell by a scan that stores the running `uint32_t` index at every
supporting element: the common shape of the eight conditional stores of the two
`queryQueueFamilyIndices` loops. -/
def lastSupported {α : Type} (sup : Nat → α → Bool) : List α → Nat → Nat → Nat
  | [], _, cur => cur
  | a :: rest, index, cur =>
    lastSupported sup rest ((index + 1) % UINT32_RANGE) (if sup index a then index else cur)

/-- A driver without extensions and without present support.  Device 0 has a single queue
family offering graphics, compute and transfer (`queueFlags = 7`); device 1 has a single
graphics-only family (`queueFlags = 1`); every other device reports no queue family. -/
def headlessDriver : Driver where
  deviceExtensions := fun _ => []
  surfaceFormats := fun _ _ => []
  surfacePresentModes := fun _ _ => []
  queueFamilies := fun pd => if pd = 0 then [⟨7, 1⟩] else if pd = 1 then [⟨1, 1⟩] else []
  surfaceSupport := fun _ _ _ => 0
  queueFamilies_count := fun pd => by
    by_cases h0 : pd = 0
    · simp [h0, UINT32_RANGE]
    · by_cases h1 : pd = 1
      · simp [h1, UINT32_RANGE]
      · simp [h0, h1, UINT32_RANGE]

/-- A driver for one device with three queue families: graphics+compute+transfer,
compute+transfer, transfer only; only families 0 and 1 can present. -/
def threeFamilyDriver : Driver where
  deviceExtensions := fun _ => [⟨"VK_KHR_swapchain", 70⟩]
  surfaceFormats := fun _ _ => [⟨50, 0⟩]
  surfacePresentModes := fun _ _ => [2]
  queueFamilies := fun _ => [⟨7, 16⟩, ⟨6, 2⟩, ⟨4, 1⟩]
  surfaceSupport := fun _ index _ => if index < 2 then 1 else 0
  queueFamilies_count := fun _ => by simp [UINT32_RANGE]

/-! ## `lib/platform.h` and `inc/info.h`: `loadBytecodeSPV` -/

/-- One byte of a file or of memory. -/
abbrev Byte := Fin 256

/-- The byte order of the object representation of a `uint32_t` on the platform. -/
inductive ByteOrder where
  | little
  | big
deriving DecidableEq, Repr

/-- The `uint32_t` whose object representation is the bytes `b0 b1 b2 b3`, in address
order. -/
def wordOfBytes (order : ByteOrder) (b0 b1 b2 b3 : Byte) : Nat :=
  match order with
  | .little => b0.val + 256 * b1.val + 65536 * b2.val + 16777216 * b3.val
  | .big => b3.val + 256 * b2.val + 65536 * b1.val + 16777216 * b0.val

/-- The object representation of a `uint32_t`: its four bytes in address order. -/
def bytesOfWord (order : ByteOrder) (w : Nat) : List Byte :=
  let d0 : Byte := ⟨w % 256, Nat.mod_lt _ (by decide)⟩
  let d1 : Byte := ⟨w / 256 % 256, Nat.mod_lt _ (by decide)⟩
  let d2 : Byte := ⟨w / 65536 % 256, Nat.mod_lt _ (by decide)⟩
  let d3 : Byte := ⟨w / 16777216 % 256, Nat.mod_lt _ (by decide)⟩
  match order with
  | .little => [d0, d1, d2, d3]
  | .big => [d3, d2, d1, d0]

/-- The bytes underlying a `std::vector<uint32_t>`: the object representations of its
elements, in order. -/
def bytesOfWords (order : ByteOrder) : List Nat → List Byte
  | [] => []
  | w :: rest => bytesOfWord order w ++ bytesOfWords order rest

/-- The `uint32_t` elements read back from a buffer of bytes. -/
def wordsOfBytes (order : ByteOrder) : List Byte → List Nat
  | b0 :: b1 :: b2 :: b3 :: rest => wordOfBytes order b0 b1 b2 b3 :: wordsOfBytes order rest
  | _ => []

/-- The files that `std::ifstream` can open, with their contents; `none` when the file
cannot be opened. -/
abbrev FileSystem := String → Option (List Byte)

/-- How a call of `loadBytecodeSPV` ends. -/
inductive LoadResult where
  /-- The function returns `buffer`. -/
  | returned (buffer : List Nat)
  /-- The function throws `std::runtime_error(what)`. -/
  | thrown (what : String)
  /-- `file.read` writes past the end of the buffer: undefined behaviour. -/
  | undefined
deriving DecidableEq, Repr

/-- `platform::loadBytecodeSPV`.  The stream is opened at its end, so `tellg` is the file
length; the buffer holds `length / sizeof(uint32_t)` zero words; `file.read` copies
`length` bytes of the file over the memory of the buffer. -/
def platform.loadBytecodeSPV (fs : FileSystem) (order : ByteOrder) (filename : String) :
    LoadResult :=
  match fs filename with
  | none => .thrown "failed to open file!"
  | some contents =>
    let length := contents.length
    let buffer : List Nat := List.replicate (length / 4) 0
    let memory := bytesOfWords order buffer
    if length ≤ memory.length then
      .returned (wordsOfBytes order (contents ++ memory.drop length))
    else
      .undefined

/-- `api::loadBytecodeSPV`. -/
def api.loadBytecodeSPV (fs : FileSystem) (order : ByteOrder) (filename : String) :
    LoadResult :=
  match fs filename with
  | none => .thrown "failed to open file!"
  | some contents =>
    let length := contents.length
    let buffer : List Nat := List.replicate (length / 4) 0
    let memory := bytesOfWords order buffer
    if length ≤ memory.length then
      .returned (wordsOfBytes order (contents ++ memory.drop length))
    else
      .undefined

/-- A file system with one eight-byte file, `shader.spv`. -/
def sampleFileSystem : FileSystem := fun filename =>
  if filename = "shader.spv" then some [3, 2, 35, 7, 0, 0, 1, 0] else none

/-! ## `inc/config.h`: `createFence` -/

/-- Opaque Vulkan or GLFW handle. -/
abbrev Handle := Nat

/-- Value of `VK_NULL_HANDLE`. -/
def VK_NULL_HANDLE : Handle := 0

/-- Value of `UINT64_MAX`. -/
def UINT64_MAX : Nat := 18446744073709551615

/-- Value of `VK_FENCE_CREATE_SIGNALED_BIT` in `vulkan_core.h`. -/
def VK_FENCE_CREATE_SIGNALED_BIT : Nat := 1

/-- Value of `VK_PIPELINE_STAGE_COLOR_ATTACHMENT_OUTPUT_BIT` in `vulkan_core.h`. -/
def VK_PIPELINE_STAGE_COLOR_ATTACHMENT_OUTPUT_BIT : Nat := 1024

/-- Value of `VK_SUBPASS_CONTENTS_INLINE` in `vulkan_core.h`. -/
def VK_SUBPASS_CONTENTS_INLINE : Nat := 0

/-- Value of `VK_PIPELINE_BIND_POINT_GRAPHICS` in `vulkan_core.h`. -/
def VK_PIPELINE_BIND_POINT_GRAPHICS : Nat := 0

/-- The fields of `VkFenceCreateInfo` set by the code (`sType` is fixed by the type). -/
structure VkFenceCreateInfo where
  flags : Nat
deriving DecidableEq, Repr

/-- The `fenceInfo` that `api::createFence` fills in. -/
def api.createFence.fenceInfo : VkFenceCreateInfo :=
  { flags := VK_FENCE_CREATE_SIGNALED_BIT }

/-- `api::createFence`; `vkCreateFence` answers with a result code and the handle it wrote. -/
def api.createFence (vkCreateFence : Handle → VkFenceCreateInfo → Int × Handle)
    (logicalDevice : Handle) : Except String Handle :=
  let fenceInfo := api.createFence.fenceInfo
  let (code, result) := vkCreateFence logicalDevice fenceInfo
  if code ≠ VK_SUCCESS then
    .error "failed to create fence!"
  else
    .ok result

/-! ## `src/main.cpp`: the frame loop -/

/-- The fields of `VkExtent2D`. -/
structure VkExtent2D where
  width : Nat
  height : Nat
deriving DecidableEq, Repr

/-- The fields of `VkOffset2D`. -/
structure VkOffset2D where
  x : Int
  y : Int
deriving DecidableEq, Repr

/-- The fields of `VkRect2D`. -/
structure VkRect2D where
  offset : VkOffset2D
  extent : VkExtent2D
deriving DecidableEq, Repr

/-- The `float` expressions that occur in `main`. -/
inductive CFloat where
  /-- The literal `0.0f`. -/
  | zero
  /-- The literal `1.0f`. -/
  | one
  /-- The conversion `static_cast<float>(n)` of a `uint32_t`. -/
  | ofUInt32 (n : Nat)
deriving DecidableEq, Repr

/-- The fields of `VkViewport`. -/
structure VkViewport where
  x : CFloat
  y : CFloat
  width : CFloat
  height : CFloat
  minDepth : CFloat
  maxDepth : CFloat
deriving DecidableEq, Repr

/-- The `float32[4]` colour of a `VkClearValue`. -/
structure VkClearValue where
  r : CFloat
  g : CFloat
  b : CFloat
  a : CFloat
deriving DecidableEq, Repr

/-- The fields of `VkCommandBufferBeginInfo` set by the code; `pInheritanceInfo` is
`nullptr`. -/
structure VkCommandBufferBeginInfo where
  flags : Nat
deriving DecidableEq, Repr

/-- The fields of `VkRenderPassBeginInfo`; `clearValues` is the array of `clearValueCount`
elements at `pClearValues`. -/
structure VkRenderPassBeginInfo where
  renderPass : Handle
  framebuffer : Handle
  renderArea : VkRect2D
  clearValues : List VkClearValue
deriving DecidableEq, Repr

/-- The fields of `VkSubmitInfo`; each list is the array of the stated count at the stated
pointer. -/
structure VkSubmitInfo where
  waitSemaphores : List Handle
  waitDstStageMask : List Nat
  commandBuffers : List Handle
  signalSemaphores : List Handle
deriving DecidableEq, Repr

/-- The fields of `VkPresentInfoKHR`; `pResults` is `nullptr`. -/
structure VkPresentInfoKHR where
  waitSemaphores : List Handle
  swapchains : List Handle
  imageIndices : List Nat
deriving DecidableEq, Repr

/-- A call made by the frame loop, with its arguments. -/
inductive Call where
  | glfwWindowShouldClose (window : Handle)
  | glfwPollEvents
  | vkWaitForFences (device : Handle) (fences : List Handle) (waitAll : Nat) (timeout : Nat)
  | vkResetFences (device : Handle) (fences : List Handle)
  | vkAcquireNextImageKHR (device swapchain : Handle) (timeout : Nat)
      (semaphore fence : Handle)
  | vkResetCommandBuffer (commandBuffer : Handle) (flags : Nat)
  | vkBeginCommandBuffer (commandBuffer : Handle) (beginInfo : VkCommandBufferBeginInfo)
  | vkCmdBeginRenderPass (commandBuffer : Handle) (renderPassBegin : VkRenderPassBeginInfo)
      (contents : Nat)
  | vkCmdBindPipeline (commandBuffer : Handle) (pipelineBindPoint : Nat) (pipeline : Handle)
  | vkCmdSetViewport (commandBuffer : Handle) (firstViewport : Nat)
      (viewports : List VkViewport)
  | vkCmdSetScissor (commandBuffer : Handle) (firstScissor : Nat) (scissors : List VkRect2D)
  | vkCmdDraw (commandBuffer : Handle)
      (vertexCount instanceCount firstVertex firstInstance : Nat)
  | vkCmdEndRenderPass (commandBuffer : Handle)
  | vkEndCommandBuffer (commandBuffer : Handle)
  | vkQueueSubmit (queue : Handle) (submits : List VkSubmitInfo) (fence : Handle)
  | vkQueuePresentKHR (queue : Handle) (presentInfo : VkPresentInfoKHR)
deriving DecidableEq, Repr

/-- The local variables of `main` that the frame loop reads, as set before the loop. -/
structure FrameContext where
  window : Handle
  logicalDevice : Handle
  swapchain : Handle
  graphicsQueue : Handle
  presentQueue : Handle
  renderPass : Handle
  pipeline : Handle
  commandBuffer : Handle
  framebuffers : List Handle
  extents : VkExtent2D
  imageAvailableSemaphore : Handle
  renderFinishedSemaphore : Handle
  inFlightFence : Handle
deriving DecidableEq, Repr

/-- The array `waitSemaphores` of `main`. -/
def main.waitSemaphores (c : FrameContext) : List Handle := [c.imageAvailableSemaphore]

/-- The array `waitStages` of `main`. -/
def main.waitStages : List Nat := [VK_PIPELINE_STAGE_COLOR_ATTACHMENT_OUTPUT_BIT]

/-- The array `signalSemaphores` of `main`. -/
def main.signalSemaphores (c : FrameContext) : List Handle := [c.renderFinishedSemaphore]

/-- The `submitInfo` of `main`: each count is 1, so each array is taken whole. -/
def main.submitInfo (c : FrameContext) : VkSubmitInfo :=
  { waitSemaphores := (main.waitSemaphores c).take 1
    waitDstStageMask := main.waitStages.take 1
    commandBuffers := [c.commandBuffer]
    signalSemaphores := (main.signalSemaphores c).take 1 }

/-- The `viewport` of `main`. -/
def main.viewport (c : FrameContext) : VkViewport :=
  { x := .zero, y := .zero
    width := .ofUInt32 c.extents.width, height := .ofUInt32 c.extents.height
    minDepth := .zero, maxDepth := .one }

/-- The `scissor` of `main`. -/
def main.scissor (c : FrameContext) : VkRect2D :=
  { offset := { x := 0, y := 0 }, extent := c.extents }

/-- The `beginInfo` of `main`. -/
def main.beginInfo : VkCommandBufferBeginInfo := { flags := 0 }

/-- The `clearColor` of `main`. -/
def main.clearColor : VkClearValue := { r := .zero, g := .zero, b := .zero, a := .one }

/-- The answers of the driver to the calls of one iteration of the frame loop: the
`VkResult` of each call and, for `vkAcquireNextImageKHR`, the value it writes to
`imageIndex` (`none` when it writes nothing). -/
structure FrameResponses where
  waitForFences : Int
  resetFences : Int
  acquireNextImage : Int
  acquiredImageIndex : Option Nat
  resetCommandBuffer : Int
  beginCommandBuffer : Int
  endCommandBuffer : Int
  queueSubmit : Int
  queuePresent : Int
deriving DecidableEq, Repr

/-- How one iteration of the frame loop ends. -/
inductive FrameOutcome where
  /-- The body ran to its end; `imageIndex` holds the given value. -/
  | completed (imageIndex : Nat)
  /-- The body threw `std::runtime_error(what)`. -/
  | thrown (what : String)
  /-- `framebuffers[imageIndex]` was evaluated with an indeterminate or out-of-range
  `imageIndex`: undefined behaviour. -/
  | undefined
deriving DecidableEq, Repr

/-- The body of the `while` loop of `main`: the calls made, in order, and how the iteration
ends.  `imageIndex` is the content of the variable on entry (`none`: indeterminate). -/
def main.frameIteration (c : FrameContext) (imageIndex : Option Nat) (r : FrameResponses) :
    List Call × FrameOutcome :=
  let calls : List Call :=
    [ .glfwPollEvents,
      .vkWaitForFences c.logicalDevice [c.inFlightFence] VK_TRUE UINT64_MAX,
      .vkResetFences c.logicalDevice [c.inFlightFence],
      .vkAcquireNextImageKHR c.logicalDevice c.swapchain UINT64_MAX
        c.imageAvailableSemaphore VK_NULL_HANDLE,
      .vkResetCommandBuffer c.commandBuffer 0 ]
  let imageIndex : Option Nat :=
    match r.acquiredImageIndex with
    | some written => some written
    | none => imageIndex
  match imageIndex with
  | none => (calls, .undefined)
  | some imageIndex =>
    match c.framebuffers.get? imageIndex with
    | none => (calls, .undefined)
    | some framebuffer =>
      let renderPassInfo : VkRenderPassBeginInfo :=
        { renderPass := c.renderPass
          framebuffer := framebuffer
          renderArea := { offset := { x := 0, y := 0 }, extent := c.extents }
          clearValues := [main.clearColor] }
      let calls := calls ++ [.vkBeginCommandBuffer c.commandBuffer main.beginInfo]
      if r.beginCommandBuffer ≠ VK_SUCCESS then
        (calls, .thrown "failed to begin recording command buffer!")
      else
        let calls := calls ++
          [ .vkCmdBeginRenderPass c.commandBuffer renderPassInfo VK_SUBPASS_CONTENTS_INLINE,
            .vkCmdBindPipeline c.commandBuffer VK_PIPELINE_BIND_POINT_GRAPHICS c.pipeline,
            .vkCmdSetViewport c.commandBuffer 0 [main.viewport c],
            .vkCmdSetScissor c.commandBuffer 0 [main.scissor c],
            .vkCmdDraw c.commandBuffer 3 1 0 0,
            .vkCmdEndRenderPass c.commandBuffer,
            .vkEndCommandBuffer c.commandBuffer ]
        if r.endCommandBuffer ≠ VK_SUCCESS then
          (calls, .thrown "failed to record command buffer!")
        else
          let calls := calls ++
            [.vkQueueSubmit c.graphicsQueue [main.submitInfo c] c.inFlightFence]
          if r.queueSubmit ≠ VK_SUCCESS then
            (calls, .thrown "failed to submit draw command buffer!")
          else
            let presentInfo : VkPresentInfoKHR :=
              { waitSemaphores := (main.signalSemaphores c).take 1
                swapchains := [c.swapchain]
                imageIndices := [imageIndex] }
            (calls ++ [.vkQueuePresentKHR c.presentQueue presentInfo],
              .completed imageIndex)

/-- What the environment answers around one iteration: the value of
`glfwWindowShouldClose(window)` tested before it, and the answers of the driver in it. -/
structure LoopStep where
  shouldClose : Bool
  responses : FrameResponses
deriving DecidableEq, Repr

/-- How the run of the frame loop over a finite list of answers ends. -/
inductive LoopExit where
  /-- `glfwWindowShouldClose` returned true: the loop is left normally. -/
  | closed
  /-- An iteration threw. -/
  | thrown (what : String)
  /-- An iteration hit undefined behaviour. -/
  | undefined
  /-- The answers are used up and the loop is still running. -/
  | running
deriving DecidableEq, Repr

/-- The `while (!glfwWindowShouldClose(window))` loop of `main` over a list of answers:
the calls made, in order, and how the run ends. -/
def main.frameLoop (c : FrameContext) : Option Nat → List LoopStep → List Call × LoopExit
  | _, [] => ([], .running)
  | imageIndex, step :: rest =>
    if step.shouldClose then
      ([.glfwWindowShouldClose c.window], .closed)
    else
      match main.frameIteration c imageIndex step.responses with
      | (calls, .completed imageIndex) =>
        let (later, exit) := main.frameLoop c (some imageIndex) rest
        (.glfwWindowShouldClose c.window :: calls ++ later, exit)
      | (calls, .thrown what) => (.glfwWindowShouldClose c.window :: calls, .thrown what)
      | (calls, .undefined) => (.glfwWindowShouldClose c.window :: calls, .undefined)

/-- The calls of one full iteration in the order the specification states: wait on the
fence, reset the fence, acquire, reset the command buffer, begin, record, end, submit with
the fence, present. -/
def specFrameCalls (c : FrameContext) (imageIndex : Nat) (framebuffer : Handle) : List Call :=
  [ .glfwPollEvents,
    .vkWaitForFences c.logicalDevice [c.inFlightFence] 1 18446744073709551615,
    .vkResetFences c.logicalDevice [c.inFlightFence],
    .vkAcquireNextImageKHR c.logicalDevice c.swapchain 18446744073709551615
      c.imageAvailableSemaphore 0,
    .vkResetCommandBuffer c.commandBuffer 0,
    .vkBeginCommandBuffer c.commandBuffer { flags := 0 },
    .vkCmdBeginRenderPass c.commandBuffer
      { renderPass := c.renderPass
        framebuffer := framebuffer
        renderArea := { offset := { x := 0, y := 0 }, extent := c.extents }
        clearValues := [{ r := .zero, g := .zero, b := .zero, a := .one }] } 0,
    .vkCmdBindPipeline c.commandBuffer 0 c.pipeline,
    .vkCmdSetViewport c.commandBuffer 0
      [{ x := .zero, y := .zero, width := .ofUInt32 c.extents.width,
         height := .ofUInt32 c.extents.height, minDepth := .zero, maxDepth := .one }],
    .vkCmdSetScissor c.commandBuffer 0 [{ offset := { x := 0, y := 0 }, extent := c.extents }],
    .vkCmdDraw c.commandBuffer 3 1 0 0,
    .vkCmdEndRenderPass c.commandBuffer,
    .vkEndCommandBuffer c.commandBuffer,
    .vkQueueSubmit c.graphicsQueue
      [{ waitSemaphores := [c.imageAvailableSemaphore]
         waitDstStageMask := [1024]
         commandBuffers := [c.commandBuffer]
         signalSemaphores := [c.renderFinishedSemaphore] }] c.inFlightFence,
    .vkQueuePresentKHR c.presentQueue
      { waitSemaphores := [c.renderFinishedSemaphore]
        swapchains := [c.swapchain]
        imageIndices := [imageIndex] } ]

/-! ### Synchronisation state along a trace

The definitions of this part are not code of the repository: they are the meaning, after
the Vulkan specification of fences, of the words in which the single-frame-in-flight
discipline is stated (a fence is signaled or not, a submission is outstanding until the
fence it signals has been waited on).  They are evaluated on the traces of the code. -/

/-- The state of a fence: signaled, unsignaled, or unsignaled with an outstanding queue
submission that will signal it. -/
inductive FenceState where
  | signaled
  | unsignaled
  | pending
deriving DecidableEq, Repr

/-- The state in which `vkCreateFence` creates a fence. -/
def FenceState.created (info : VkFenceCreateInfo) : FenceState :=
  if info.flags &&& VK_FENCE_CREATE_SIGNALED_BIT ≠ 0 then .signaled else .unsignaled

/-- The call waits on the fence. -/
def Call.waitsOn (fence : Handle) : Call → Bool
  | .vkWaitForFences _ fences _ _ => decide (fence ∈ fences)
  | _ => false

/-- The call resets the fence. -/
def Call.resetsFence (fence : Handle) : Call → Bool
  | .vkResetFences _ fences => decide (fence ∈ fences)
  | _ => false

/-- The call is a queue submission that signals the fence. -/
def Call.submitsWith (fence : Handle) : Call → Bool
  | .vkQueueSubmit _ _ f => decide (f = fence)
  | _ => false

/-- The call resets the command buffer or records into it (begin, commands, end). -/
def Call.recordsInto (commandBuffer : Handle) : Call → Bool
  | .vkResetCommandBuffer cb _ => decide (cb = commandBuffer)
  | .vkBeginCommandBuffer cb _ => decide (cb = commandBuffer)
  | .vkCmdBeginRenderPass cb _ _ => decide (cb = commandBuffer)
  | .vkCmdBindPipeline cb _ _ => decide (cb = commandBuffer)
  | .vkCmdSetViewport cb _ _ => decide (cb = commandBuffer)
  | .vkCmdSetScissor cb _ _ => decide (cb = commandBuffer)
  | .vkCmdDraw cb _ _ _ _ => decide (cb = commandBuffer)
  | .vkCmdEndRenderPass cb => decide (cb = commandBuffer)
  | .vkEndCommandBuffer cb => decide (cb = commandBuffer)
  | _ => false

/-- What a trace has done to the in-flight fence: the state of the fence, the number of
submissions made since the last wait on it, and whether it has been waited on at all. -/
structure SyncState where
  fence : FenceState
  outstanding : Nat
  waited : Bool
deriving DecidableEq, Repr

/-- The state when the loop is entered: the fence is as `createFence` created it. -/
def SyncState.initial : SyncState :=
  { fence := FenceState.created api.createFence.fenceInfo, outstanding := 0, waited := false }

/-- The effect of one call: a wait returns once the fence is signaled and every submission
that signals it has completed; a reset unsignals the fence; a submission with the fence is
outstanding until the next wait. -/
def SyncState.step (c : FrameContext) (s : SyncState) (x : Call) : SyncState :=
  if x.waitsOn c.inFlightFence then
    { fence := .signaled, outstanding := 0, waited := true }
  else if x.resetsFence c.inFlightFence then
    { s with fence := .unsignaled }
  else if x.submitsWith c.inFlightFence then
    { s with fence := .pending, outstanding := s.outstanding + 1 }
  else
    s

/-- The synchronisation state after a sequence of calls. -/
def SyncState.after (c : FrameContext) (s : SyncState) (calls : List Call) : SyncState :=
  calls.foldl (SyncState.step c) s

/-- The single-frame-in-flight discipline at one call `x` made in state `s`: at most one
submission is outstanding; none is when `x` resets or records the command buffer; a wait
is not made on an unsignaled fence nothing will signal; the first wait finds the fence
signaled. -/
def SyncState.admits (c : FrameContext) (s : SyncState) (x : Call) : Prop :=
  s.outstanding ≤ 1 ∧
    (x.recordsInto c.commandBuffer = true → s.outstanding = 0) ∧
    (x.waitsOn c.inFlightFence = true → s.fence ≠ .unsignaled) ∧
    (x.waitsOn c.inFlightFence = true → s.waited = false → s.fence = .signaled)

/-- The discipline along a whole sequence of calls, and at its end. -/
def SyncState.admitsAll (c : FrameContext) : SyncState → List Call → Prop
  | s, [] => s.outstanding ≤ 1
  | s, x :: rest => s.admits c x ∧ SyncState.admitsAll c (s.step c x) rest

/-- The states in which an iteration of the loop starts: the fence as created and never
waited on, or one submission outstanding. -/
def SyncState.atLoopHead (s : SyncState) : Prop :=
  s = { fence := .signaled, outstanding := 0, waited := false } ∨
    s = { fence := .pending, outstanding := 1, waited := true }

/-- A context with three framebuffers and pairwise distinct handles. -/
def sampleContext : FrameContext :=
  { window := 1, logicalDevice := 2, swapchain := 3, graphicsQueue := 4, presentQueue := 5
    renderPass := 6, pipeline := 7, commandBuffer := 8, framebuffers := [20, 21, 22]
    extents := { width := 600, height := 400 }
    imageAvailableSemaphore := 9, renderFinishedSemaphore := 10, inFlightFence := 11 }

/-- Answers of a driver for which every call succeeds and the acquired image is `index`. -/
def successResponses (index : Nat) : FrameResponses :=
  { waitForFences := 0, resetFences := 0, acquireNextImage := 0
    acquiredImageIndex := some index, resetCommandBuffer := 0, beginCommandBuffer := 0
    endCommandBuffer := 0, queueSubmit := 0, queuePresent := 0 }

/-- The calls that take semaphores: image acquisition, queue submission, presentation. -/
def Call.usesSemaphore : Call → Bool
  | .vkAcquireNextImageKHR _ _ _ _ _ => true
  | .vkQueueSubmit _ _ _ => true
  | .vkQueuePresentKHR _ _ => true
  | _ => false

/-- Two successful iterations on images 1 and 2, then the window closes. -/
def sampleRun : List LoopStep :=
  [ { shouldClose := false, responses := successResponses 1 },
    { shouldClose := false, responses := successResponses 2 },
    { shouldClose := true, responses := successResponses 0 } ]

/-! ## `inc/config.h`: which devices `selectPhysicalDevice` examines -/

/-- The range-for loop of `api::selectPhysicalDevice` together with the devices on which
its body has evaluated `api::isDeviceAdequate`, in order of evaluation. -/
def api.selectPhysicalDevice.loopTraced (drv : Driver) (surface : VkSurfaceKHR) :
    List VkPhysicalDevice → VkPhysicalDevice → List VkPhysicalDevice →
      VkPhysicalDevice × List VkPhysicalDevice
  | [], result, evaluated => (result, evaluated)
  | physicalDevice :: rest, result, evaluated =>
    let evaluated := evaluated ++ [physicalDevice]
    if api.isDeviceAdequate drv physicalDevice surface then
      api.selectPhysicalDevice.loopTraced drv surface rest physicalDevice evaluated
    else
      api.selectPhysicalDevice.loopTraced drv surface rest result evaluated

/-- `api::selectPhysicalDevice` with the devices it has evaluated `api::isDeviceAdequate`
on. -/
def api.selectPhysicalDevice.traced (drv : Driver) (physicalDevices : List VkPhysicalDevice)
    (surface : VkSurfaceKHR) : Option (VkPhysicalDevice × List VkPhysicalDevice) :=
  match physicalDevices with
  | [] => none
  | first :: _ => some (api.selectPhysicalDevice.loopTraced drv surface physicalDevices first [])

/-! ## `inc/config.h`: `selectSurfaceExtents` -/

/-- The fields of `VkSurfaceCapabilitiesKHR`. -/
structure VkSurfaceCapabilitiesKHR where
  minImageCount : Nat
  maxImageCount : Nat
  currentExtent : VkExtent2D
  minImageExtent : VkExtent2D
  maxImageExtent : VkExtent2D
  maxImageArrayLayers : Nat
  supportedTransforms : Nat
  currentTransform : Nat
  supportedCompositeAlpha : Nat
  supportedUsageFlags : Nat
deriving DecidableEq, Repr

/-- The conversion `static_cast<uint32_t>(v)` of an `int`: the value modulo `2 ^ 32`. -/
def castUInt32 (v : Int) : Nat := (v % 4294967296).toNat

/-- `std::clamp(v, lo, hi)` on `uint32_t`: `lo` when `v < lo`, `hi` when `hi < v`, else
`v`.  The behaviour is undefined when `hi < lo`: `none`. -/
def std.clamp (v lo hi : Nat) : Option Nat :=
  if hi < lo then
    none
  else
    some (if v < lo then lo else if hi < v then hi else v)

/-- `api::selectSurfaceExtents`.  `glfwGetFramebufferSize` answers with the two `int`s it
writes to `width` and `height`. -/
def api.selectSurfaceExtents (glfwGetFramebufferSize : Handle → Int × Int) (window : Handle)
    (surfaceCapabilities : VkSurfaceCapabilitiesKHR) : Option VkExtent2D :=
  let result := surfaceCapabilities.currentExtent
  if surfaceCapabilities.currentExtent.width = 0xFFFFFFFF then
    let (width, height) := glfwGetFramebufferSize window
    match std.clamp (castUInt32 width) surfaceCapabilities.minImageExtent.width
        surfaceCapabilities.maxImageExtent.width with
    | none => none
    | some clampedWidth =>
      let result := { result with width := clampedWidth }
      match std.clamp (castUInt32 height) surfaceCapabilities.minImageExtent.height
          surfaceCapabilities.maxImageExtent.height with
      | none => none
      | some clampedHeight =>
        let result := { result with height := clampedHeight }
        some result
  else
    some result

/-- Surface capabilities whose current extent is left to the swapchain
(`currentExtent.width = 0xFFFFFFFF`), with image extents between 100x100 and 500x300. -/
def sampleCapabilities : VkSurfaceCapabilitiesKHR :=
  { minImageCount := 2, maxImageCount := 8
    currentExtent := { width := 0xFFFFFFFF, height := 0xFFFFFFFF }
    minImageExtent := { width := 100, height := 100 }
    maxImageExtent := { width := 500, height := 300 }
    maxImageArrayLayers := 1, supportedTransforms := 1, currentTransform := 1
    supportedCompositeAlpha := 1, supportedUsageFlags := 16 }

/-! ## `src/main.cpp`: the commands recorded in one iteration -/

/-- The call records a command into a command buffer (`vkCmd...`). -/
def Call.isCommand : Call → Bool
  | .vkCmdBeginRenderPass _ _ _ => true
  | .vkCmdBindPipeline _ _ _ => true
  | .vkCmdSetViewport _ _ _ => true
  | .vkCmdSetScissor _ _ _ => true
  | .vkCmdDraw _ _ _ _ _ => true
  | .vkCmdEndRenderPass _ => true
  | _ => false

/-- The commands of one iteration as the specification lists them: begin the render pass
on the framebuffer of the acquired image, with render area (0, 0, extents) and one clear
value (0, 0, 0, 1); bind the graphics pipeline; one viewport and one scissor covering the
extents; draw 3 vertices, 1 instance, from vertex 0 and instance 0; end the render pass. -/
def specRecordedCommands (c : FrameContext) (framebuffer : Handle) : List Call :=
  [ .vkCmdBeginRenderPass c.commandBuffer
      { renderPass := c.renderPass
        framebuffer := framebuffer
        renderArea := { offset := { x := 0, y := 0 }, extent := c.extents }
        clearValues := [{ r := .zero, g := .zero, b := .zero, a := .one }] } 0,
    .vkCmdBindPipeline c.commandBuffer 0 c.pipeline,
    .vkCmdSetViewport c.commandBuffer 0
      [{ x := .zero, y := .zero, width := .ofUInt32 c.extents.width,
         height := .ofUInt32 c.extents.height, minDepth := .zero, maxDepth := .one }],
    .vkCmdSetScissor c.commandBuffer 0 [{ offset := { x := 0, y := 0 }, extent := c.extents }],
    .vkCmdDraw c.commandBuffer 3 1 0 0,
    .vkCmdEndRenderPass c.commandBuffer ]

/-- The content of `imageIndex` after `vkAcquireNextImageKHR` is `index` and
`framebuffers[index]` exists and is `framebuffer`. -/
def main.acquired (c : FrameContext) (imageIndex : Option Nat) (r : FrameResponses)
    (index : Nat) (framebuffer : Handle) : Prop :=
  (r.acquiredImageIndex = some index ∨
      (r.acquiredImageIndex = none ∧ imageIndex = some index)) ∧
    c.framebuffers.get? index = some framebuffer

/-- Answers of a driver that acquires image 1, fails `vkEndCommandBuffer` with
`VK_ERROR_DEVICE_LOST`, and would answer `VK_SUBOPTIMAL_KHR` and `VK_ERROR_OUT_OF_DATE_KHR`
to the acquisition and the presentation. -/
def endFailureResponses : FrameResponses :=
  { waitForFences := 0, resetFences := 0, acquireNextImage := 1000001003
    acquiredImageIndex := some 1, resetCommandBuffer := 0, beginCommandBuffer := 0
    endCommandBuffer := -4, queueSubmit := 0, queuePresent := -1000001004 }

/-- Answers of a driver that acquires image 1 and fails `vkBeginCommandBuffer` with
`VK_ERROR_OUT_OF_HOST_MEMORY`. -/
def beginFailureResponses : FrameResponses :=
  { waitForFences := 0, resetFences := 0, acquireNextImage := 0
    acquiredImageIndex := some 1, resetCommandBuffer := 0, beginCommandBuffer := -1
    endCommandBuffer := 0, queueSubmit := 0, queuePresent := 0 }

/-! ## `inc/config.h`: the creation functions

Every creation entry point of the driver is a parameter: it answers with the `VkResult` it
returns and the handle it writes through its last argument.  A creation function returns
`Except.error what` when it throws `std::runtime_error(what)` and `Except.ok handle` when
it returns `handle`.  The `sType` member of a create-info structure is fixed by its type
and a `pNext` that stays null is left out. -/

/-- Value of `VK_SAMPLE_COUNT_1_BIT` in `vulkan_core.h`. -/
def VK_SAMPLE_COUNT_1_BIT : Nat := 1

/-- Value of `VK_ATTACHMENT_LOAD_OP_CLEAR` in `vulkan_core.h`. -/
def VK_ATTACHMENT_LOAD_OP_CLEAR : Nat := 1

/-- Value of `VK_ATTACHMENT_LOAD_OP_DONT_CARE` in `vulkan_core.h`. -/
def VK_ATTACHMENT_LOAD_OP_DONT_CARE : Nat := 2

/-- Value of `VK_ATTACHMENT_STORE_OP_STORE` in `vulkan_core.h`. -/
def VK_ATTACHMENT_STORE_OP_STORE : Nat := 0

/-- Value of `VK_ATTACHMENT_STORE_OP_DONT_CARE` in `vulkan_core.h`. -/
def VK_ATTACHMENT_STORE_OP_DONT_CARE : Nat := 1

/-- Value of `VK_IMAGE_LAYOUT_UNDEFINED` in `vulkan_core.h`. -/
def VK_IMAGE_LAYOUT_UNDEFINED : Nat := 0

/-- Value of `VK_IMAGE_LAYOUT_COLOR_ATTACHMENT_OPTIMAL` in `vulkan_core.h`. -/
def VK_IMAGE_LAYOUT_COLOR_ATTACHMENT_OPTIMAL : Nat := 2

/-- Value of `VK_IMAGE_LAYOUT_PRESENT_SRC_KHR` in `vulkan_core.h`. -/
def VK_IMAGE_LAYOUT_PRESENT_SRC_KHR : Nat := 1000001002

/-- Value of `VK_IMAGE_USAGE_COLOR_ATTACHMENT_BIT` in `vulkan_core.h`. -/
def VK_IMAGE_USAGE_COLOR_ATTACHMENT_BIT : Nat := 16

/-- Value of `VK_COMPOSITE_ALPHA_OPAQUE_BIT_KHR` in `vulkan_core.h`. -/
def VK_COMPOSITE_ALPHA_OPAQUE_BIT_KHR : Nat := 1

/-- Value of `VK_SHARING_MODE_EXCLUSIVE` in `vulkan_core.h`. -/
def VK_SHARING_MODE_EXCLUSIVE : Nat := 0

/-- Value of `VK_SHARING_MODE_CONCURRENT` in `vulkan_core.h`. -/
def VK_SHARING_MODE_CONCURRENT : Nat := 1

/-- Value of `VK_IMAGE_VIEW_TYPE_2D` in `vulkan_core.h`. -/
def VK_IMAGE_VIEW_TYPE_2D : Nat := 1

/-- Value of `VK_COMPONENT_SWIZZLE_IDENTITY` in `vulkan_core.h`. -/
def VK_COMPONENT_SWIZZLE_IDENTITY : Nat := 0

/-- Value of `VK_IMAGE_ASPECT_COLOR_BIT` in `vulkan_core.h`. -/
def VK_IMAGE_ASPECT_COLOR_BIT : Nat := 1

/-- Value of `VK_COMMAND_POOL_CREATE_RESET_COMMAND_BUFFER_BIT` in `vulkan_core.h`. -/
def VK_COMMAND_POOL_CREATE_RESET_COMMAND_BUFFER_BIT : Nat := 2

/-- Value of `VK_COMMAND_BUFFER_LEVEL_PRIMARY` in `vulkan_core.h`. -/
def VK_COMMAND_BUFFER_LEVEL_PRIMARY : Nat := 0

/-- The fields of `VkInstanceCreateInfo` set by the code; `enabledExtensionNames` is the
array of `enabledExtensionCount` names at `ppEnabledExtensionNames`. -/
structure VkInstanceCreateInfo where
  enabledLayerCount : Nat
  enabledExtensionNames : List String
deriving DecidableEq, Repr

/-- `api::createInstance`.  `glfwGetRequiredInstanceExtensions` answers with the array of
names it returns, of the length it writes to its argument. -/
def api.createInstance (glfwGetRequiredInstanceExtensions : List String)
    (vkCreateInstance : VkInstanceCreateInfo → Int × Handle) : Except String Handle :=
  let instanceCreateInfo : VkInstanceCreateInfo :=
    { enabledExtensionNames := glfwGetRequiredInstanceExtensions
      enabledLayerCount := 0 }
  let (code, result) := vkCreateInstance instanceCreateInfo
  if code ≠ VK_SUCCESS then
    .error "failed to create instance!"
  else
    .ok result

/-- The fields of `VkDeviceQueueCreateInfo` set by the code. -/
structure VkDeviceQueueCreateInfo where
  queueFamilyIndex : Nat
  queueCount : Nat
  queuePriorities : List CFloat
deriving DecidableEq, Repr

/-- The fields of `VkDeviceCreateInfo` set by the code; `enabledFeatures` lists the members
of `VkPhysicalDeviceFeatures` that are `VK_TRUE`. -/
structure VkDeviceCreateInfo where
  queueCreateInfos : List VkDeviceQueueCreateInfo
  enabledFeatures : List String
  enabledExtensionNames : List String
  enabledLayerCount : Nat
deriving DecidableEq, Repr

/-- `api::createLogicalDevice`.  The locals `graphicsFamily` and `presentFamily` are not
initialised: `indeterminate` gives the values the two variables hold before
`queryQueueFamilyIndices` is called, which they keep when no queue family supports the
capability. -/
def api.createLogicalDevice (drv : Driver)
    (vkCreateDevice : Handle → VkDeviceCreateInfo → Int × Handle) (indeterminate : Nat × Nat)
    (physicalDevice : VkPhysicalDevice) (surface : VkSurfaceKHR) : Except String Handle :=
  let out := api.queryQueueFamilyIndices drv physicalDevice surface
    { graphicsFamily := some indeterminate.1, computeFamily := none, transferFamily := none
      presentFamily := some indeterminate.2 }
  let graphicsFamily := out.graphicsFamily.getD indeterminate.1
  let presentFamily := out.presentFamily.getD indeterminate.2
  let queuePriority := CFloat.one
  let enabledExtensions := [VK_KHR_SWAPCHAIN_EXTENSION_NAME]
  let queueCreateInfo : List VkDeviceQueueCreateInfo :=
    [ { queueFamilyIndex := graphicsFamily, queueCount := 1,
        queuePriorities := [queuePriority] },
      { queueFamilyIndex := presentFamily, queueCount := 1,
        queuePriorities := [queuePriority] } ]
  let deviceCreateInfo : VkDeviceCreateInfo :=
    { queueCreateInfos := queueCreateInfo.take 2
      enabledFeatures := []
      enabledExtensionNames := enabledExtensions.take 1
      enabledLayerCount := 0 }
  let (code, result) := vkCreateDevice physicalDevice deviceCreateInfo
  if code ≠ VK_SUCCESS then
    .error "failed to create logical device!"
  else
    .ok result

/-- The fields of `VkSwapchainCreateInfoKHR` set by the code; `queueFamilyIndices` is the
array of `queueFamilyIndexCount` indices at `pQueueFamilyIndices`. -/
structure VkSwapchainCreateInfoKHR where
  surface : Handle
  minImageCount : Nat
  imageFormat : Nat
  imageColorSpace : Nat
  imageExtent : VkExtent2D
  imageArrayLayers : Nat
  imageUsage : Nat
  imageSharingMode : Nat
  queueFamilyIndices : List Nat
  preTransform : Nat
  compositeAlpha : Nat
  presentMode : Nat
  clipped : Nat
  oldSwapchain : Handle
deriving DecidableEq, Repr

/-- `api::querySurfaceCapabilities`. -/
def api.querySurfaceCapabilities
    (vkGetPhysicalDeviceSurfaceCapabilitiesKHR :
      VkPhysicalDevice → VkSurfaceKHR → VkSurfaceCapabilitiesKHR)
    (physicalDevice : VkPhysicalDevice) (surface : VkSurfaceKHR) : VkSurfaceCapabilitiesKHR :=
  vkGetPhysicalDeviceSurfaceCapabilitiesKHR physicalDevice surface

/-- `api::createSwapchain`.  `queueFamilyIndices[2] = {}` starts as two zeros. -/
def api.createSwapchain (drv : Driver)
    (vkGetPhysicalDeviceSurfaceCapabilitiesKHR :
      VkPhysicalDevice → VkSurfaceKHR → VkSurfaceCapabilitiesKHR)
    (vkCreateSwapchainKHR : Handle → VkSwapchainCreateInfoKHR → Int × Handle)
    (physicalDevice : VkPhysicalDevice) (logicalDevice : Handle) (surface : VkSurfaceKHR)
    (surfaceFormat : VkSurfaceFormatKHR) (presentMode : VkPresentModeKHR)
    (extents : VkExtent2D) : Except String Handle :=
  let surfaceCapabilities := api.querySurfaceCapabilities
    vkGetPhysicalDeviceSurfaceCapabilitiesKHR physicalDevice surface
  let out := api.queryQueueFamilyIndices drv physicalDevice surface
    { graphicsFamily := some 0, computeFamily := none, transferFamily := none
      presentFamily := some 0 }
  let queueFamilyIndices0 := out.graphicsFamily.getD 0
  let queueFamilyIndices1 := out.presentFamily.getD 0
  let queueFamilyIndices : List Nat := [queueFamilyIndices0, queueFamilyIndices1]
  let concurrent : Bool := queueFamilyIndices0 != queueFamilyIndices1
  let swapchainCreateInfo : VkSwapchainCreateInfoKHR :=
    { surface := surface
      minImageCount := surfaceCapabilities.minImageCount
      imageFormat := surfaceFormat.format
      imageColorSpace := surfaceFormat.colorSpace
      imageExtent := extents
      imageArrayLayers := 1
      imageUsage := VK_IMAGE_USAGE_COLOR_ATTACHMENT_BIT
      preTransform := surfaceCapabilities.currentTransform
      compositeAlpha := VK_COMPOSITE_ALPHA_OPAQUE_BIT_KHR
      presentMode := presentMode
      clipped := VK_TRUE
      oldSwapchain := VK_NULL_HANDLE
      imageSharingMode :=
        if concurrent then VK_SHARING_MODE_CONCURRENT else VK_SHARING_MODE_EXCLUSIVE
      queueFamilyIndices := if concurrent then queueFamilyIndices.take 2 else [] }
  let (code, result) := vkCreateSwapchainKHR logicalDevice swapchainCreateInfo
  if code ≠ VK_SUCCESS then
    .error "failed to create swapchain!"
  else
    .ok result

/-- The fields of `VkImageSubresourceRange`. -/
structure VkImageSubresourceRange where
  aspectMask : Nat
  baseMipLevel : Nat
  levelCount : Nat
  baseArrayLayer : Nat
  layerCount : Nat
deriving DecidableEq, Repr

/-- The fields of `VkComponentMapping`. -/
structure VkComponentMapping where
  r : Nat
  g : Nat
  b : Nat
  a : Nat
deriving DecidableEq, Repr

/-- The fields of `VkImageViewCreateInfo` set by the code. -/
structure VkImageViewCreateInfo where
  image : Handle
  viewType : Nat
  format : Nat
  components : VkComponentMapping
  subresourceRange : VkImageSubresourceRange
deriving DecidableEq, Repr

/-- `api::enumerateSwapchainImages`: the vector filled by `vkGetSwapchainImagesKHR`. -/
def api.enumerateSwapchainImages (vkGetSwapchainImagesKHR : Handle → Handle → List Handle)
    (logicalDevice : Handle) (swapchain : Handle) : List Handle :=
  vkGetSwapchainImagesKHR logicalDevice swapchain

/-- The `viewCreateInfo` that the loop of `api::createImageViews` fills in for one image;
`components = {VK_COMPONENT_SWIZZLE_IDENTITY}` sets `r` and zero-initialises the rest. -/
def api.createImageViews.viewCreateInfo (surfaceFormat : VkSurfaceFormatKHR)
    (swapchainImage : Handle) : VkImageViewCreateInfo :=
  { image := swapchainImage
    viewType := VK_IMAGE_VIEW_TYPE_2D
    format := surfaceFormat.format
    components := { r := VK_COMPONENT_SWIZZLE_IDENTITY, g := 0, b := 0, a := 0 }
    subresourceRange :=
      { aspectMask := VK_IMAGE_ASPECT_COLOR_BIT, baseMipLevel := 0, levelCount := 1,
        baseArrayLayer := 0, layerCount := 1 } }

/-- The range-for loop of `api::createImageViews`.  `vkCreateImageView n` is the behaviour
of the entry point at its call number `n` within the loop; `index` is the running
`uint32_t`; `calls` collects the create infos passed so far.  The handle is written to
`result[index]` whatever the result code. -/
def api.createImageViews.loop (vkCreateImageView : Nat → Handle → VkImageViewCreateInfo →
      Int × Handle) (logicalDevice : Handle) (surfaceFormat : VkSurfaceFormatKHR) :
    List Handle → Nat → Nat → List Handle → List VkImageViewCreateInfo →
      List VkImageViewCreateInfo × Except String (List Handle)
  | [], _, _, result, calls => (calls, .ok result)
  | swapchainImage :: rest, callNumber, index, result, calls =>
    let viewCreateInfo := api.createImageViews.viewCreateInfo surfaceFormat swapchainImage
    let (code, handle) := vkCreateImageView callNumber logicalDevice viewCreateInfo
    let result := result.set index handle
    let calls := calls ++ [viewCreateInfo]
    if code ≠ VK_SUCCESS then
      (calls, .error "failed to create image view!")
    else
      api.createImageViews.loop vkCreateImageView logicalDevice surfaceFormat rest
        (callNumber + 1) ((index + 1) % UINT32_RANGE) result calls

/-- `api::createImageViews`: the create infos passed to `vkCreateImageView`, in order, and
the outcome.  `result` starts as `swapchainImages.size()` null handles. -/
def api.createImageViews (vkGetSwapchainImagesKHR : Handle → Handle → List Handle)
    (vkCreateImageView : Nat → Handle → VkImageViewCreateInfo → Int × Handle)
    (logicalDevice : Handle) (swapchain : Handle) (surfaceFormat : VkSurfaceFormatKHR) :
    List VkImageViewCreateInfo × Except String (List Handle) :=
  let swapchainImages := api.enumerateSwapchainImages vkGetSwapchainImagesKHR
    logicalDevice swapchain
  let result : List Handle := List.replicate swapchainImages.length VK_NULL_HANDLE
  api.createImageViews.loop vkCreateImageView logicalDevice surfaceFormat swapchainImages
    0 0 result []

/-- The fields of `VkShaderModuleCreateInfo` set by the code; `code` is the array at
`pCode`. -/
structure VkShaderModuleCreateInfo where
  codeSize : Nat
  code : List Nat
deriving DecidableEq, Repr

/-- `api::createShaderModule`. -/
def api.createShaderModule
    (vkCreateShaderModule : Handle → VkShaderModuleCreateInfo → Int × Handle)
    (logicalDevice : Handle) (shaderBytecode : List Nat) : Except String Handle :=
  let shaderCreateInfo : VkShaderModuleCreateInfo :=
    { codeSize := shaderBytecode.length * 4
      code := shaderBytecode }
  let (code, result) := vkCreateShaderModule logicalDevice shaderCreateInfo
  if code ≠ VK_SUCCESS then
    .error "failed to create shader module!"
  else
    .ok result

/-- The fields of `VkPipelineLayoutCreateInfo`; the two arrays are empty (`nullptr`, count
0). -/
structure VkPipelineLayoutCreateInfo where
  setLayouts : List Handle
  pushConstantRanges : List Nat
deriving DecidableEq, Repr

/-- `api::createPipelineLayout`. -/
def api.createPipelineLayout
    (vkCreatePipelineLayout : Handle → VkPipelineLayoutCreateInfo → Int × Handle)
    (logicalDevice : Handle) : Except String Handle :=
  let pipelineLayoutInfo : VkPipelineLayoutCreateInfo :=
    { setLayouts := [], pushConstantRanges := [] }
  let (code, result) := vkCreatePipelineLayout logicalDevice pipelineLayoutInfo
  if code ≠ VK_SUCCESS then
    .error "failed to create pipeline layout!"
  else
    .ok result

/-- The fields of `VkFramebufferCreateInfo` set by the code; `attachments` is the array of
`attachmentCount` views at `pAttachments`. -/
structure VkFramebufferCreateInfo where
  renderPass : Handle
  attachments : List Handle
  width : Nat
  height : Nat
  layers : Nat
deriving DecidableEq, Repr

/-- The `framebufferInfo` that the loop of `api::createFramebuffers` fills in for one image
view. -/
def api.createFramebuffers.framebufferInfo (extents : VkExtent2D) (renderPass : Handle)
    (imageView : Handle) : VkFramebufferCreateInfo :=
  { renderPass := renderPass
    attachments := [imageView]
    width := extents.width
    height := extents.height
    layers := 1 }

/-- The range-for loop of `api::createFramebuffers`, in the same shape as the loop of
`api::createImageViews`. -/
def api.createFramebuffers.loop (vkCreateFramebuffer : Nat → Handle →
      VkFramebufferCreateInfo → Int × Handle) (logicalDevice : Handle) (extents : VkExtent2D)
    (renderPass : Handle) :
    List Handle → Nat → Nat → List Handle → List VkFramebufferCreateInfo →
      List VkFramebufferCreateInfo × Except String (List Handle)
  | [], _, _, result, calls => (calls, .ok result)
  | imageView :: rest, callNumber, index, result, calls =>
    let framebufferInfo := api.createFramebuffers.framebufferInfo extents renderPass imageView
    let (code, handle) := vkCreateFramebuffer callNumber logicalDevice framebufferInfo
    let result := result.set index handle
    let calls := calls ++ [framebufferInfo]
    if code ≠ VK_SUCCESS then
      (calls, .error "failed to create framebuffer!")
    else
      api.createFramebuffers.loop vkCreateFramebuffer logicalDevice extents renderPass rest
        (callNumber + 1) ((index + 1) % UINT32_RANGE) result calls

/-- `api::createFramebuffers`: the create infos passed to `vkCreateFramebuffer`, in order,
and the outcome. -/
def api.createFramebuffers
    (vkCreateFramebuffer : Nat → Handle → VkFramebufferCreateInfo → Int × Handle)
    (logicalDevice : Handle) (extents : VkExtent2D) (imageViews : List Handle)
    (renderPass : Handle) : List VkFramebufferCreateInfo × Except String (List Handle) :=
  let result : List Handle := List.replicate imageViews.length VK_NULL_HANDLE
  api.createFramebuffers.loop vkCreateFramebuffer logicalDevice extents renderPass imageViews
    0 0 result []

/-- The fields of `VkCommandPoolCreateInfo` set by the code. -/
structure VkCommandPoolCreateInfo where
  flags : Nat
  queueFamilyIndex : Nat
deriving DecidableEq, Repr

/-- `api::createCommandPool`. -/
def api.createCommandPool
    (vkCreateCommandPool : Handle → VkCommandPoolCreateInfo → Int × Handle)
    (logicalDevice : Handle) (graphicsFamily : Nat) : Except String Handle :=
  let poolInfo : VkCommandPoolCreateInfo :=
    { flags := VK_COMMAND_POOL_CREATE_RESET_COMMAND_BUFFER_BIT
      queueFamilyIndex := graphicsFamily }
  let (code, result) := vkCreateCommandPool logicalDevice poolInfo
  if code ≠ VK_SUCCESS then
    .error "failed to create command pool!"
  else
    .ok result

/-- The fields of `VkCommandBufferAllocateInfo` set by the code. -/
structure VkCommandBufferAllocateInfo where
  commandPool : Handle
  level : Nat
  commandBufferCount : Nat
deriving DecidableEq, Repr

/-- `api::createCommandBuffer`; `vkAllocateCommandBuffers` writes the one handle asked
for. -/
def api.createCommandBuffer
    (vkAllocateCommandBuffers : Handle → VkCommandBufferAllocateInfo → Int × Handle)
    (logicalDevice : Handle) (commandPool : Handle) : Except String Handle :=
  let allocInfo : VkCommandBufferAllocateInfo :=
    { commandPool := commandPool
      level := VK_COMMAND_BUFFER_LEVEL_PRIMARY
      commandBufferCount := 1 }
  let (code, result) := vkAllocateCommandBuffers logicalDevice allocInfo
  if code ≠ VK_SUCCESS then
    .error "failed to allocate command buffers!"
  else
    .ok result

/-- The fields of `VkSemaphoreCreateInfo` (all zero). -/
structure VkSemaphoreCreateInfo where
  flags : Nat
deriving DecidableEq, Repr

/-- `api::createSemaphore`. -/
def api.createSemaphore
    (vkCreateSemaphore : Handle → VkSemaphoreCreateInfo → Int × Handle)
    (logicalDevice : Handle) : Except String Handle :=
  let semaphoreInfo : VkSemaphoreCreateInfo := { flags := 0 }
  let (code, result) := vkCreateSemaphore logicalDevice semaphoreInfo
  if code ≠ VK_SUCCESS then
    .error "failed to create semaphore!"
  else
    .ok result

/-! ### `createRenderPass` -/

/-- The fields of `VkAttachmentDescription`. -/
structure VkAttachmentDescription where
  flags : Nat
  format : Nat
  samples : Nat
  loadOp : Nat
  storeOp : Nat
  stencilLoadOp : Nat
  stencilStoreOp : Nat
  initialLayout : Nat
  finalLayout : Nat
deriving DecidableEq, Repr

/-- The fields of `VkAttachmentReference`. -/
structure VkAttachmentReference where
  attachment : Nat
  layout : Nat
deriving DecidableEq, Repr

/-- The fields of `VkSubpassDescription`; each list is the array of the stated count at the
stated pointer, and `depthStencilAttachment` is `none` for a null
`pDepthStencilAttachment`. -/
structure VkSubpassDescription where
  flags : Nat
  pipelineBindPoint : Nat
  inputAttachments : List VkAttachmentReference
  colorAttachments : List VkAttachmentReference
  resolveAttachments : List VkAttachmentReference
  depthStencilAttachment : Option VkAttachmentReference
  preserveAttachments : List Nat
deriving DecidableEq, Repr

/-- The fields of `VkRenderPassCreateInfo`; `dependencies` counts the subpass
dependencies. -/
structure VkRenderPassCreateInfo where
  flags : Nat
  attachments : List VkAttachmentDescription
  subpasses : List VkSubpassDescription
  dependencyCount : Nat
deriving DecidableEq, Repr

/-- The `renderPassInfo` that `api::createRenderPass` fills in.  Every structure starts
zero-initialised (`= {}`); the counts are 1, so each pointed-to object is a one-element
array. -/
def api.createRenderPass.renderPassInfo (surfaceFormat : VkSurfaceFormatKHR) :
    VkRenderPassCreateInfo :=
  let colorAttachment : VkAttachmentDescription :=
    { flags := 0
      format := surfaceFormat.format
      samples := VK_SAMPLE_COUNT_1_BIT
      loadOp := VK_ATTACHMENT_LOAD_OP_CLEAR
      storeOp := VK_ATTACHMENT_STORE_OP_STORE
      stencilLoadOp := VK_ATTACHMENT_LOAD_OP_DONT_CARE
      stencilStoreOp := VK_ATTACHMENT_STORE_OP_DONT_CARE
      initialLayout := VK_IMAGE_LAYOUT_UNDEFINED
      finalLayout := VK_IMAGE_LAYOUT_PRESENT_SRC_KHR }
  let colorAttachmentRef : VkAttachmentReference :=
    { attachment := 0
      layout := VK_IMAGE_LAYOUT_COLOR_ATTACHMENT_OPTIMAL }
  let subpass : VkSubpassDescription :=
    { flags := 0
      pipelineBindPoint := VK_PIPELINE_BIND_POINT_GRAPHICS
      inputAttachments := []
      colorAttachments := [colorAttachmentRef].take 1
      resolveAttachments := []
      depthStencilAttachment := none
      preserveAttachments := [] }
  { flags := 0
    attachments := [colorAttachment].take 1
    subpasses := [subpass].take 1
    dependencyCount := 0 }

/-- `api::createRenderPass`. -/
def api.createRenderPass
    (vkCreateRenderPass : Handle → VkRenderPassCreateInfo → Int × Handle)
    (logicalDevice : Handle) (surfaceFormat : VkSurfaceFormatKHR) : Except String Handle :=
  let renderPassInfo := api.createRenderPass.renderPassInfo surfaceFormat
  let (code, result) := vkCreateRenderPass logicalDevice renderPassInfo
  if code ≠ VK_SUCCESS then
    .error "failed to create render pass!"
  else
    .ok result

/-! ### `createPipeline` -/

/-- Value of `VK_SHADER_STAGE_VERTEX_BIT` in `vulkan_core.h`. -/
def VK_SHADER_STAGE_VERTEX_BIT : Nat := 1

/-- Value of `VK_SHADER_STAGE_FRAGMENT_BIT` in `vulkan_core.h`. -/
def VK_SHADER_STAGE_FRAGMENT_BIT : Nat := 16

/-- Value of `VK_DYNAMIC_STATE_VIEWPORT` in `vulkan_core.h`. -/
def VK_DYNAMIC_STATE_VIEWPORT : Nat := 0

/-- Value of `VK_DYNAMIC_STATE_SCISSOR` in `vulkan_core.h`. -/
def VK_DYNAMIC_STATE_SCISSOR : Nat := 1

/-- Value of `VK_PRIMITIVE_TOPOLOGY_TRIANGLE_LIST` in `vulkan_core.h`. -/
def VK_PRIMITIVE_TOPOLOGY_TRIANGLE_LIST : Nat := 3

/-- Value of `VK_POLYGON_MODE_FILL` in `vulkan_core.h`. -/
def VK_POLYGON_MODE_FILL : Nat := 0

/-- Value of `VK_CULL_MODE_BACK_BIT` in `vulkan_core.h`. -/
def VK_CULL_MODE_BACK_BIT : Nat := 2

/-- Value of `VK_FRONT_FACE_CLOCKWISE` in `vulkan_core.h`. -/
def VK_FRONT_FACE_CLOCKWISE : Nat := 1

/-- Value of `VK_COLOR_COMPONENT_R_BIT` in `vulkan_core.h`. -/
def VK_COLOR_COMPONENT_R_BIT : Nat := 1

/-- Value of `VK_COLOR_COMPONENT_G_BIT` in `vulkan_core.h`. -/
def VK_COLOR_COMPONENT_G_BIT : Nat := 2

/-- Value of `VK_COLOR_COMPONENT_B_BIT` in `vulkan_core.h`. -/
def VK_COLOR_COMPONENT_B_BIT : Nat := 4

/-- Value of `VK_COLOR_COMPONENT_A_BIT` in `vulkan_core.h`. -/
def VK_COLOR_COMPONENT_A_BIT : Nat := 8

/-- Value of `VK_BLEND_FACTOR_ZERO` in `vulkan_core.h`. -/
def VK_BLEND_FACTOR_ZERO : Nat := 0

/-- Value of `VK_BLEND_FACTOR_ONE` in `vulkan_core.h`. -/
def VK_BLEND_FACTOR_ONE : Nat := 1

/-- Value of `VK_BLEND_OP_ADD` in `vulkan_core.h`. -/
def VK_BLEND_OP_ADD : Nat := 0

/-- Value of `VK_LOGIC_OP_COPY` in `vulkan_core.h`. -/
def VK_LOGIC_OP_COPY : Nat := 3

/-- The fields of `VkPipelineShaderStageCreateInfo` set by the code; `name` is the C string
at `pName`. -/
structure VkPipelineShaderStageCreateInfo where
  stage : Nat
  module : Handle
  name : String
deriving DecidableEq, Repr

/-- The fields of `VkPipelineDynamicStateCreateInfo`. -/
structure VkPipelineDynamicStateCreateInfo where
  dynamicStates : List Nat
deriving DecidableEq, Repr

/-- The fields of `VkPipelineVertexInputStateCreateInfo`: the two arrays, by their
counts. -/
structure VkPipelineVertexInputStateCreateInfo where
  vertexBindingDescriptionCount : Nat
  vertexAttributeDescriptionCount : Nat
deriving DecidableEq, Repr

/-- The fields of `VkPipelineInputAssemblyStateCreateInfo`. -/
structure VkPipelineInputAssemblyStateCreateInfo where
  topology : Nat
  primitiveRestartEnable : Nat
deriving DecidableEq, Repr

/-- The fields of `VkPipelineViewportStateCreateInfo`. -/
structure VkPipelineViewportStateCreateInfo where
  viewports : List VkViewport
  scissors : List VkRect2D
deriving DecidableEq, Repr

/-- The fields of `VkPipelineRasterizationStateCreateInfo`. -/
structure VkPipelineRasterizationStateCreateInfo where
  depthClampEnable : Nat
  rasterizerDiscardEnable : Nat
  polygonMode : Nat
  cullMode : Nat
  frontFace : Nat
  depthBiasEnable : Nat
  depthBiasConstantFactor : CFloat
  depthBiasClamp : CFloat
  depthBiasSlopeFactor : CFloat
  lineWidth : CFloat
deriving DecidableEq, Repr

/-- The fields of `VkPipelineMultisampleStateCreateInfo`; `pSampleMask` is `nullptr`. -/
structure VkPipelineMultisampleStateCreateInfo where
  rasterizationSamples : Nat
  sampleShadingEnable : Nat
  minSampleShading : CFloat
  alphaToCoverageEnable : Nat
  alphaToOneEnable : Nat
deriving DecidableEq, Repr

/-- The fields of `VkPipelineColorBlendAttachmentState`. -/
structure VkPipelineColorBlendAttachmentState where
  blendEnable : Nat
  srcColorBlendFactor : Nat
  dstColorBlendFactor : Nat
  colorBlendOp : Nat
  srcAlphaBlendFactor : Nat
  dstAlphaBlendFactor : Nat
  alphaBlendOp : Nat
  colorWriteMask : Nat
deriving DecidableEq, Repr

/-- The fields of `VkPipelineColorBlendStateCreateInfo`. -/
structure VkPipelineColorBlendStateCreateInfo where
  logicOpEnable : Nat
  logicOp : Nat
  attachments : List VkPipelineColorBlendAttachmentState
  blendConstants : List CFloat
deriving DecidableEq, Repr

/-- The fields of `VkGraphicsPipelineCreateInfo`; a state pointer that is `nullptr` is
`none`. -/
structure VkGraphicsPipelineCreateInfo where
  stages : List VkPipelineShaderStageCreateInfo
  vertexInputState : Option VkPipelineVertexInputStateCreateInfo
  inputAssemblyState : Option VkPipelineInputAssemblyStateCreateInfo
  tessellationState : Option Nat
  viewportState : Option VkPipelineViewportStateCreateInfo
  rasterizationState : Option VkPipelineRasterizationStateCreateInfo
  multisampleState : Option VkPipelineMultisampleStateCreateInfo
  depthStencilState : Option Nat
  colorBlendState : Option VkPipelineColorBlendStateCreateInfo
  dynamicState : Option VkPipelineDynamicStateCreateInfo
  layout : Handle
  renderPass : Handle
  subpass : Nat
  basePipelineHandle : Handle
  basePipelineIndex : Int
deriving DecidableEq, Repr

/-- The `pipelineInfo` that `api::createPipeline` fills in, given the pipeline layout it
has created. -/
def api.createPipeline.pipelineInfo (extents : VkExtent2D) (renderPass : Handle)
    (vertShaderModule : Handle) (fragShaderModule : Handle) (pipelineLayout : Handle) :
    VkGraphicsPipelineCreateInfo :=
  let vertShaderStageInfo : VkPipelineShaderStageCreateInfo :=
    { stage := VK_SHADER_STAGE_VERTEX_BIT, module := vertShaderModule, name := "main" }
  let fragShaderStageInfo : VkPipelineShaderStageCreateInfo :=
    { stage := VK_SHADER_STAGE_FRAGMENT_BIT, module := fragShaderModule, name := "main" }
  let shaderStages := [vertShaderStageInfo, fragShaderStageInfo]
  let dynamicStates := [VK_DYNAMIC_STATE_VIEWPORT, VK_DYNAMIC_STATE_SCISSOR]
  let dynamicState : VkPipelineDynamicStateCreateInfo :=
    { dynamicStates := dynamicStates.take (dynamicStates.length % UINT32_RANGE) }
  let vertexInputInfo : VkPipelineVertexInputStateCreateInfo :=
    { vertexBindingDescriptionCount := 0, vertexAttributeDescriptionCount := 0 }
  let inputAssembly : VkPipelineInputAssemblyStateCreateInfo :=
    { topology := VK_PRIMITIVE_TOPOLOGY_TRIANGLE_LIST, primitiveRestartEnable := VK_FALSE }
  let viewport : VkViewport :=
    { x := .zero, y := .zero
      width := .ofUInt32 extents.width, height := .ofUInt32 extents.height
      minDepth := .zero, maxDepth := .one }
  let scissor : VkRect2D := { offset := { x := 0, y := 0 }, extent := extents }
  let viewportState : VkPipelineViewportStateCreateInfo :=
    { viewports := [viewport].take 1, scissors := [scissor].take 1 }
  let rasterizer : VkPipelineRasterizationStateCreateInfo :=
    { depthClampEnable := VK_FALSE
      rasterizerDiscardEnable := VK_FALSE
      polygonMode := VK_POLYGON_MODE_FILL
      lineWidth := .one
      cullMode := VK_CULL_MODE_BACK_BIT
      frontFace := VK_FRONT_FACE_CLOCKWISE
      depthBiasEnable := VK_FALSE
      depthBiasConstantFactor := .zero
      depthBiasClamp := .zero
      depthBiasSlopeFactor := .zero }
  let multisampling : VkPipelineMultisampleStateCreateInfo :=
    { sampleShadingEnable := VK_FALSE
      rasterizationSamples := VK_SAMPLE_COUNT_1_BIT
      minSampleShading := .one
      alphaToCoverageEnable := VK_FALSE
      alphaToOneEnable := VK_FALSE }
  let colorBlendAttachment : VkPipelineColorBlendAttachmentState :=
    { colorWriteMask := VK_COLOR_COMPONENT_R_BIT ||| VK_COLOR_COMPONENT_G_BIT |||
        VK_COLOR_COMPONENT_B_BIT ||| VK_COLOR_COMPONENT_A_BIT
      blendEnable := VK_FALSE
      srcColorBlendFactor := VK_BLEND_FACTOR_ONE
      dstColorBlendFactor := VK_BLEND_FACTOR_ZERO
      colorBlendOp := VK_BLEND_OP_ADD
      srcAlphaBlendFactor := VK_BLEND_FACTOR_ONE
      dstAlphaBlendFactor := VK_BLEND_FACTOR_ZERO
      alphaBlendOp := VK_BLEND_OP_ADD }
  let colorBlending : VkPipelineColorBlendStateCreateInfo :=
    { logicOpEnable := VK_FALSE
      logicOp := VK_LOGIC_OP_COPY
      attachments := [colorBlendAttachment].take 1
      blendConstants := [.zero, .zero, .zero, .zero] }
  { stages := shaderStages.take 2
    vertexInputState := some vertexInputInfo
    inputAssemblyState := some inputAssembly
    tessellationState := none
    viewportState := some viewportState
    rasterizationState := some rasterizer
    multisampleState := some multisampling
    depthStencilState := none
    colorBlendState := some colorBlending
    dynamicState := some dynamicState
    layout := pipelineLayout
    renderPass := renderPass
    subpass := 0
    basePipelineHandle := VK_NULL_HANDLE
    basePipelineIndex := -1 }

/-- `api::createPipeline`: the pipeline layout is created first (and may throw); then
`vkCreateGraphicsPipelines` is called with no pipeline cache and the one create info.  The
parameter `surfaceFormat` is not used by the code. -/
def api.createPipeline
    (vkCreatePipelineLayout : Handle → VkPipelineLayoutCreateInfo → Int × Handle)
    (vkCreateGraphicsPipelines : Handle → Handle → List VkGraphicsPipelineCreateInfo →
      Int × Handle)
    (logicalDevice : Handle) (surfaceFormat : VkSurfaceFormatKHR) (extents : VkExtent2D)
    (renderPass : Handle) (vertShaderModule : Handle) (fragShaderModule : Handle) :
    Except String Handle :=
  match api.createPipelineLayout vkCreatePipelineLayout logicalDevice with
  | .error what => .error what
  | .ok pipelineLayout =>
    let pipelineInfo := api.createPipeline.pipelineInfo extents renderPass vertShaderModule
      fragShaderModule pipelineLayout
    let (code, result) := vkCreateGraphicsPipelines logicalDevice VK_NULL_HANDLE [pipelineInfo]
    if code ≠ VK_SUCCESS then
      .error "failed to create graphics pipeline!"
    else
      .ok result

/-! ### The common shapes of the creation functions -/

/-- The check made by every single-call creation function on the answer of its entry
point: throw `what` unless the result code is `VK_SUCCESS`, else return the handle. -/
def throwUnlessSuccess (what : String) (answer : Int × Handle) : Except String Handle :=
  if answer.1 ≠ VK_SUCCESS then .error what else .ok answer.2

/-- The common shape of the loops of `createImageViews` and `createFramebuffers`, over the
create infos of the elements: call, store the handle at the running `uint32_t` index,
throw at the first result code that is not `VK_SUCCESS`. -/
def createEach {Info : Type} (what : String) (create : Nat → Info → Int × Handle) :
    List Info → Nat → Nat → List Handle → List Info → List Info × Except String (List Handle)
  | [], _, _, result, calls => (calls, .ok result)
  | info :: rest, callNumber, index, result, calls =>
    if (create callNumber info).1 ≠ VK_SUCCESS then
      (calls ++ [info], .error what)
    else
      createEach what create rest (callNumber + 1) ((index + 1) % UINT32_RANGE)
        (result.set index (create callNumber info).2) (calls ++ [info])

/-- The handles written by the calls numbered `callNumber`, `callNumber + 1`, ... on the
given create infos, in the order of the calls. -/
def handlesFrom {Info : Type} (create : Nat → Info → Int × Handle) : Nat → List Info →
    List Handle
  | _, [] => []
  | callNumber, info :: rest =>
    (create callNumber info).2 :: handlesFrom create (callNumber + 1) rest

/-- A driver entry point that succeeds and writes the handle `100 + n` at its call number
`n`, except that call number 2 fails with `VK_ERROR_OUT_OF_HOST_MEMORY`. -/
def thirdCallFails {Info : Type} : Nat → Handle → Info → Int × Handle :=
  fun callNumber _ _ => (if callNumber = 2 then -1 else 0, 100 + callNumber)

/-- What the specification says of a single-call creation function `f`, where `call` is
the call it makes on the entry point: it throws if and only if that call returns a code
other than `VK_SUCCESS`, and otherwise returns exactly the handle that call produced. -/
def singleCallContract {Entry : Type} (call : Entry → Int × Handle)
    (f : Entry → Except String Handle) : Prop :=
  ∀ vk : Entry,
    ((∃ what, f vk = .error what) ↔ (call vk).1 ≠ VK_SUCCESS) ∧
      ((call vk).1 = VK_SUCCESS → f vk = .ok (call vk).2)

/-- What the specification says of a per-element creation function with outcome `out`
(calls made, result), where `infos` are the create infos of the elements and `create n`
is the entry point at its call number `n`: it throws if and only if the call on some
element returns a code other than `VK_SUCCESS`, and then it has made the calls up to the
first such element and no later one; otherwise it has made every call and returns. -/
def perElementContract {Info : Type} (create : Nat → Info → Int × Handle) (infos : List Info)
    (out : List Info × Except String (List Handle)) : Prop :=
  ((∃ what, out.2 = .error what) ↔
      ∃ k, ∃ hk : k < infos.length, (create k (infos.get ⟨k, hk⟩)).1 ≠ VK_SUCCESS) ∧
    (∀ k (hk : k < infos.length), (create k (infos.get ⟨k, hk⟩)).1 ≠ VK_SUCCESS →
      (∀ j (hj : j < infos.length), j < k →
        (create j (infos.get ⟨j, hj⟩)).1 = VK_SUCCESS) →
      out.1 = infos.take (k + 1) ∧ ∃ what, out.2 = .error what) ∧
    ((∀ k (hk : k < infos.length), (create k (infos.get ⟨k, hk⟩)).1 = VK_SUCCESS) →
      out.1 = infos ∧ ∃ handles, out.2 = .ok handles)

/-! ## `src/main.cpp`: the whole of `main` -/

/-- How a part of `main` ends: with a value, by a thrown `std::runtime_error`, or in
undefined behaviour. -/
inductive Outcome (α : Type) where
  | ok (value : α)
  | thrown (what : String)
  | undefined
deriving DecidableEq, Repr

/-- Sequencing: what follows runs only after a part that ended with a value. -/
def Outcome.bind {α β : Type} (x : Outcome α) (f : α → Outcome β) : Outcome β :=
  match x with
  | .ok value => f value
  | .thrown what => .thrown what
  | .undefined => .undefined

instance : Monad Outcome where
  pure := Outcome.ok
  bind := Outcome.bind

/-- The outcome of a creation function. -/
def Outcome.ofExcept {α : Type} : Except String α → Outcome α
  | .ok value => .ok value
  | .error what => .thrown what

/-- The outcome of a function whose `none` stands for undefined behaviour. -/
def Outcome.ofOption {α : Type} : Option α → Outcome α
  | some value => .ok value
  | none => .undefined

/-- The outcome of `loadBytecodeSPV`. -/
def Outcome.ofLoadResult : LoadResult → Outcome (List Nat)
  | .returned buffer => .ok buffer
  | .thrown what => .thrown what
  | .undefined => .undefined

/-- Everything outside the program that `main` consults: the window system, the file
system and the Vulkan driver.  An entry point that `main` calls more than once with the
same arguments (`vkCreateShaderModule`, `vkCreateSemaphore`, and the per-element entry
points) takes the number of its earlier calls as first argument.  `indeterminate...` are
the contents of the uninitialised `graphicsFamily` and `presentFamily` locals of `main`
and of `createLogicalDevice`. -/
structure Environment where
  drv : Driver
  fs : FileSystem
  order : ByteOrder
  glfwCreateWindow : Handle
  glfwGetRequiredInstanceExtensions : List String
  glfwCreateWindowSurface : Handle → Handle → Handle
  glfwGetFramebufferSize : Handle → Int × Int
  vkEnumeratePhysicalDevices : Handle → List VkPhysicalDevice
  vkGetDeviceQueue : Handle → Nat → Nat → Handle
  vkGetPhysicalDeviceSurfaceCapabilitiesKHR :
    VkPhysicalDevice → VkSurfaceKHR → VkSurfaceCapabilitiesKHR
  vkGetSwapchainImagesKHR : Handle → Handle → List Handle
  indeterminateInMain : Nat × Nat
  indeterminateInCreateLogicalDevice : Nat × Nat
  vkCreateInstance : VkInstanceCreateInfo → Int × Handle
  vkCreateDevice : Handle → VkDeviceCreateInfo → Int × Handle
  vkCreateSwapchainKHR : Handle → VkSwapchainCreateInfoKHR → Int × Handle
  vkCreateImageView : Nat → Handle → VkImageViewCreateInfo → Int × Handle
  vkCreateShaderModule : Nat → Handle → VkShaderModuleCreateInfo → Int × Handle
  vkCreateRenderPass : Handle → VkRenderPassCreateInfo → Int × Handle
  vkCreateFramebuffer : Nat → Handle → VkFramebufferCreateInfo → Int × Handle
  vkCreatePipelineLayout : Handle → VkPipelineLayoutCreateInfo → Int × Handle
  vkCreateGraphicsPipelines : Handle → Handle → List VkGraphicsPipelineCreateInfo →
    Int × Handle
  vkCreateCommandPool : Handle → VkCommandPoolCreateInfo → Int × Handle
  vkAllocateCommandBuffers : Handle → VkCommandBufferAllocateInfo → Int × Handle
  vkCreateSemaphore : Nat → Handle → VkSemaphoreCreateInfo → Int × Handle
  vkCreateFence : Handle → VkFenceCreateInfo → Int × Handle
  steps : List LoopStep

/-- `api::enumeratePhysicalDevices`: the vector filled by `vkEnumeratePhysicalDevices`. -/
def api.enumeratePhysicalDevices (vkEnumeratePhysicalDevices : Handle → List VkPhysicalDevice)
    (vulkanInstance : Handle) : List VkPhysicalDevice :=
  vkEnumeratePhysicalDevices vulkanInstance

/-- The locals of `main` set in its first part (window to image views). -/
structure main.DeviceObjects where
  window : Handle
  vulkanInstance : Handle
  surface : VkSurfaceKHR
  physicalDevice : VkPhysicalDevice
  logicalDevice : Handle
  graphicsFamily : Nat
  presentFamily : Nat
  graphicsQueue : Handle
  presentQueue : Handle
  surfaceFormat : VkSurfaceFormatKHR
  presentMode : VkPresentModeKHR
  extents : VkExtent2D
  swapchain : Handle
  imageViews : List Handle
deriving DecidableEq, Repr

/-- The first part of `main`: from `glfwCreateWindow` to `createImageViews`. -/
def main.createDeviceObjects (env : Environment) : Outcome main.DeviceObjects := do
  let window := env.glfwCreateWindow
  let vulkanInstance ← Outcome.ofExcept
    (api.createInstance env.glfwGetRequiredInstanceExtensions env.vkCreateInstance)
  let surface := env.glfwCreateWindowSurface vulkanInstance window
  let physicalDevice ← Outcome.ofOption
    (api.selectPhysicalDevice env.drv
      (api.enumeratePhysicalDevices env.vkEnumeratePhysicalDevices vulkanInstance) surface)
  let logicalDevice ← Outcome.ofExcept
    (api.createLogicalDevice env.drv env.vkCreateDevice env.indeterminateInCreateLogicalDevice
      physicalDevice surface)
  let out := api.queryQueueFamilyIndices env.drv physicalDevice surface
    { graphicsFamily := some env.indeterminateInMain.1, computeFamily := none,
      transferFamily := none, presentFamily := some env.indeterminateInMain.2 }
  let graphicsFamily := out.graphicsFamily.getD env.indeterminateInMain.1
  let presentFamily := out.presentFamily.getD env.indeterminateInMain.2
  let graphicsQueue := env.vkGetDeviceQueue logicalDevice graphicsFamily 0
  let presentQueue := env.vkGetDeviceQueue logicalDevice presentFamily 0
  let surfaceCapabilities := api.querySurfaceCapabilities
    env.vkGetPhysicalDeviceSurfaceCapabilitiesKHR physicalDevice surface
  let surfaceFormats := api.enumerateSurfaceFormats env.drv physicalDevice surface
  let presentModes := api.enumerateSurfacePresentModes env.drv physicalDevice surface
  let surfaceFormat ← Outcome.ofOption (api.selectSurfaceFormat surfaceFormats)
  let presentMode := api.selectSurfacePresentMode presentModes
  let extents ← Outcome.ofOption
    (api.selectSurfaceExtents env.glfwGetFramebufferSize window surfaceCapabilities)
  let swapchain ← Outcome.ofExcept
    (api.createSwapchain env.drv env.vkGetPhysicalDeviceSurfaceCapabilitiesKHR
      env.vkCreateSwapchainKHR physicalDevice logicalDevice surface surfaceFormat presentMode
      extents)
  let imageViews ← Outcome.ofExcept
    (api.createImageViews env.vkGetSwapchainImagesKHR env.vkCreateImageView logicalDevice
      swapchain surfaceFormat).2
  pure
    { window := window, vulkanInstance := vulkanInstance, surface := surface
      physicalDevice := physicalDevice, logicalDevice := logicalDevice
      graphicsFamily := graphicsFamily, presentFamily := presentFamily
      graphicsQueue := graphicsQueue, presentQueue := presentQueue
      surfaceFormat := surfaceFormat, presentMode := presentMode, extents := extents
      swapchain := swapchain, imageViews := imageViews }

/-- The locals of `main` set in its second part (shader code to command buffer). -/
structure main.PipelineObjects where
  vertShaderModule : Handle
  fragShaderModule : Handle
  renderPass : Handle
  framebuffers : List Handle
  pipeline : Handle
  commandPool : Handle
  commandBuffer : Handle
deriving DecidableEq, Repr

/-- The second part of `main`: from `loadBytecodeSPV` to `createCommandBuffer`. -/
def main.createPipelineObjects (env : Environment) (d : main.DeviceObjects) :
    Outcome main.PipelineObjects := do
  let vertShaderCode ← Outcome.ofLoadResult
    (api.loadBytecodeSPV env.fs env.order "./build/shader.vert.spv")
  let fragShaderCode ← Outcome.ofLoadResult
    (api.loadBytecodeSPV env.fs env.order "./build/shader.frag.spv")
  let vertShaderModule ← Outcome.ofExcept
    (api.createShaderModule (env.vkCreateShaderModule 0) d.logicalDevice vertShaderCode)
  let fragShaderModule ← Outcome.ofExcept
    (api.createShaderModule (env.vkCreateShaderModule 1) d.logicalDevice fragShaderCode)
  let renderPass ← Outcome.ofExcept
    (api.createRenderPass env.vkCreateRenderPass d.logicalDevice d.surfaceFormat)
  let framebuffers ← Outcome.ofExcept
    (api.createFramebuffers env.vkCreateFramebuffer d.logicalDevice d.extents d.imageViews
      renderPass).2
  let pipeline ← Outcome.ofExcept
    (api.createPipeline env.vkCreatePipelineLayout env.vkCreateGraphicsPipelines
      d.logicalDevice d.surfaceFormat d.extents renderPass vertShaderModule fragShaderModule)
  let commandPool ← Outcome.ofExcept
    (api.createCommandPool env.vkCreateCommandPool d.logicalDevice d.graphicsFamily)
  let commandBuffer ← Outcome.ofExcept
    (api.createCommandBuffer env.vkAllocateCommandBuffers d.logicalDevice commandPool)
  pure
    { vertShaderModule := vertShaderModule, fragShaderModule := fragShaderModule
      renderPass := renderPass, framebuffers := framebuffers, pipeline := pipeline
      commandPool := commandPool, commandBuffer := commandBuffer }

/-- The locals of `main` set in its third part (the synchronisation objects). -/
structure main.SyncObjects where
  imageAvailableSemaphore : Handle
  renderFinishedSemaphore : Handle
  inFlightFence : Handle
deriving DecidableEq, Repr

/-- The third part of `main`: the two `createSemaphore` calls and `createFence`. -/
def main.createSyncObjects (env : Environment) (d : main.DeviceObjects) :
    Outcome main.SyncObjects := do
  let imageAvailableSemaphore ← Outcome.ofExcept
    (api.createSemaphore (env.vkCreateSemaphore 0) d.logicalDevice)
  let renderFinishedSemaphore ← Outcome.ofExcept
    (api.createSemaphore (env.vkCreateSemaphore 1) d.logicalDevice)
  let inFlightFence ← Outcome.ofExcept (api.createFence env.vkCreateFence d.logicalDevice)
  pure
    { imageAvailableSemaphore := imageAvailableSemaphore
      renderFinishedSemaphore := renderFinishedSemaphore
      inFlightFence := inFlightFence }

/-- Every object `main` holds when it enters the frame loop. -/
structure main.Resources where
  device : main.DeviceObjects
  pipeline : main.PipelineObjects
  sync : main.SyncObjects
deriving DecidableEq, Repr

/-- `main` up to the frame loop. -/
def main.setup (env : Environment) : Outcome main.Resources := do
  let device ← main.createDeviceObjects env
  let pipeline ← main.createPipelineObjects env device
  let sync ← main.createSyncObjects env device
  pure { device := device, pipeline := pipeline, sync := sync }

/-- The locals that the frame loop reads. -/
def main.Resources.context (r : main.Resources) : FrameContext :=
  { window := r.device.window
    logicalDevice := r.device.logicalDevice
    swapchain := r.device.swapchain
    graphicsQueue := r.device.graphicsQueue
    presentQueue := r.device.presentQueue
    renderPass := r.pipeline.renderPass
    pipeline := r.pipeline.pipeline
    commandBuffer := r.pipeline.commandBuffer
    framebuffers := r.pipeline.framebuffers
    extents := r.device.extents
    imageAvailableSemaphore := r.sync.imageAvailableSemaphore
    renderFinishedSemaphore := r.sync.renderFinishedSemaphore
    inFlightFence := r.sync.inFlightFence }

/-- A call that destroys or frees an object, or shuts the window system down: the calls
that `main` makes after the loop, and the destroy entry points of the objects it
creates. -/
inductive DestroyCall where
  | vkDestroyImageView (device imageView : Handle)
  | vkDestroySwapchainKHR (device swapchain : Handle)
  | vkDestroyDevice (device : Handle)
  | vkDestroyInstance (vulkanInstance : Handle)
  | glfwDestroyWindow (window : Handle)
  | glfwTerminate
  | vkDestroyPipeline (device pipeline : Handle)
  | vkDestroyPipelineLayout (device pipelineLayout : Handle)
  | vkDestroyShaderModule (device shaderModule : Handle)
  | vkDestroyFramebuffer (device framebuffer : Handle)
  | vkDestroyCommandPool (device commandPool : Handle)
  | vkFreeCommandBuffers (device commandPool : Handle) (commandBuffers : List Handle)
  | vkDestroySemaphore (device semaphore : Handle)
  | vkDestroyFence (device fence : Handle)
  | vkDestroyRenderPass (device renderPass : Handle)
  | vkDestroySurfaceKHR (vulkanInstance surface : Handle)
deriving DecidableEq, Repr

/-- The range-for loop over `imageViews` after the frame loop. -/
def main.teardown.loop (logicalDevice : Handle) : List Handle → List DestroyCall →
    List DestroyCall
  | [], calls => calls
  | imageView :: rest, calls =>
    main.teardown.loop logicalDevice rest
      (calls ++ [.vkDestroyImageView logicalDevice imageView])

/-- The part of `main` after the frame loop. -/
def main.teardown (r : main.Resources) : List DestroyCall :=
  let calls := main.teardown.loop r.device.logicalDevice r.device.imageViews []
  calls ++
    [ .vkDestroySwapchainKHR r.device.logicalDevice r.device.swapchain,
      .vkDestroyDevice r.device.logicalDevice,
      .vkDestroyInstance r.device.vulkanInstance,
      .glfwDestroyWindow r.device.window,
      .glfwTerminate ]

/-- How a run of `main` ends. -/
inductive MainExit where
  /-- `main` returns the given value. -/
  | returned (code : Int)
  /-- A `std::runtime_error` leaves `main`, which has no handler. -/
  | uncaught (what : String)
  /-- The run hit undefined behaviour. -/
  | undefined
  /-- The answers of the environment are used up and the frame loop is still running. -/
  | running
deriving DecidableEq, Repr

/-- What a run of `main` does: the calls of its frame loop, the destroy calls it makes (the
creation part and the frame loop make none), and how it ends. -/
structure MainRun where
  frameCalls : List Call
  destroyCalls : List DestroyCall
  exit : MainExit
deriving DecidableEq, Repr

/-- `main`: the creation part, the frame loop on the answers `env.steps`, and, when the
loop is left because the window should close, the destroy calls and `return 0`. -/
def main.run (env : Environment) : MainRun :=
  match main.setup env with
  | .thrown what => { frameCalls := [], destroyCalls := [], exit := .uncaught what }
  | .undefined => { frameCalls := [], destroyCalls := [], exit := .undefined }
  | .ok r =>
    match main.frameLoop r.context none env.steps with
    | (calls, .closed) =>
      { frameCalls := calls, destroyCalls := main.teardown r, exit := .returned 0 }
    | (calls, .thrown what) =>
      { frameCalls := calls, destroyCalls := [], exit := .uncaught what }
    | (calls, .undefined) => { frameCalls := calls, destroyCalls := [], exit := .undefined }
    | (calls, .running) => { frameCalls := calls, destroyCalls := [], exit := .running }

/-- The call destroys an object of one of the kinds that `main` creates and, according to
the specification, never destroys: pipeline, shader module, framebuffer, command pool,
semaphore, fence, render pass. -/
def DestroyCall.destroysLeakedKind : DestroyCall → Bool
  | .vkDestroyPipeline _ _ => true
  | .vkDestroyShaderModule _ _ => true
  | .vkDestroyFramebuffer _ _ => true
  | .vkDestroyCommandPool _ _ => true
  | .vkDestroySemaphore _ _ => true
  | .vkDestroyFence _ _ => true
  | .vkDestroyRenderPass _ _ => true
  | _ => false

/-- An environment in which every call succeeds: one adequate device, three swapchain
images, two four-byte shader files, and a window that closes after two frames. -/
def sampleEnvironment : Environment :=
  { drv := threeFamilyDriver
    fs := fun filename =>
      if filename = "./build/shader.vert.spv" then some [3, 2, 35, 7]
      else if filename = "./build/shader.frag.spv" then some [3, 2, 35, 7]
      else none
    order := .little
    glfwCreateWindow := 1
    glfwGetRequiredInstanceExtensions := ["VK_KHR_surface"]
    glfwCreateWindowSurface := fun _ _ => 3
    glfwGetFramebufferSize := fun _ => (600, 400)
    vkEnumeratePhysicalDevices := fun _ => [0]
    vkGetDeviceQueue := fun _ family _ => 40 + family
    vkGetPhysicalDeviceSurfaceCapabilitiesKHR := fun _ _ =>
      { sampleCapabilities with currentExtent := { width := 600, height := 400 } }
    vkGetSwapchainImagesKHR := fun _ _ => [31, 32, 33]
    indeterminateInMain := (7777, 8888)
    indeterminateInCreateLogicalDevice := (5555, 6666)
    vkCreateInstance := fun _ => (0, 2)
    vkCreateDevice := fun _ _ => (0, 4)
    vkCreateSwapchainKHR := fun _ _ => (0, 5)
    vkCreateImageView := fun n _ _ => (0, 60 + n)
    vkCreateShaderModule := fun n _ _ => (0, 70 + n)
    vkCreateRenderPass := fun _ _ => (0, 6)
    vkCreateFramebuffer := fun n _ _ => (0, 80 + n)
    vkCreatePipelineLayout := fun _ _ => (0, 7)
    vkCreateGraphicsPipelines := fun _ _ _ => (0, 8)
    vkCreateCommandPool := fun _ _ => (0, 9)
    vkAllocateCommandBuffers := fun _ _ => (0, 10)
    vkCreateSemaphore := fun n _ _ => (0, 90 + n)
    vkCreateFence := fun _ _ => (0, 11)
    steps := sampleRun }

/-- The objects that `main` holds at the frame loop in `sampleEnvironment`. -/
def sampleResources : main.Resources :=
  { device :=
      { window := 1, vulkanInstance := 2, surface := 3, physicalDevice := 0
        logicalDevice := 4, graphicsFamily := 0, presentFamily := 1
        graphicsQueue := 40, presentQueue := 41
        surfaceFormat := { format := 50, colorSpace := 0 }, presentMode := 2
        extents := { width := 600, height := 400 }
        swapchain := 5, imageViews := [60, 61, 62] }
    pipeline :=
      { vertShaderModule := 70, fragShaderModule := 71, renderPass := 6
        framebuffers := [80, 81, 82], pipeline := 8, commandPool := 9, commandBuffer := 10 }
    sync :=
      { imageAvailableSemaphore := 90, renderFinishedSemaphore := 91, inFlightFence := 11 } }

/-! ## `src/main.cpp`: the image index that is presented -/

/-- The array at `pImageIndices` of a presentation; `none` for every other call. -/
def Call.presentedIndices : Call → Option (List Nat)
  | .vkQueuePresentKHR _ info => some info.imageIndices
  | _ => none

/-- Answers of a driver whose `vkAcquireNextImageKHR` fails with `VK_ERROR_OUT_OF_DATE_KHR`
and writes nothing to `imageIndex`, while every other call succeeds. -/
def acquireFailureResponses : FrameResponses :=
  { waitForFences := 0, resetFences := 0, acquireNextImage := -1000001004
    acquiredImageIndex := none, resetCommandBuffer := 0, beginCommandBuffer := 0
    endCommandBuffer := 0, queueSubmit := 0, queuePresent := 0 }

/-- An iteration that acquires image 2, an iteration whose acquisition fails and writes
nothing, then the window closes. -/
def staleRun : List LoopStep :=
  [ { shouldClose := false, responses := successResponses 2 },
    { shouldClose := false, responses := acquireFailureResponses },
    { shouldClose := true, responses := successResponses 0 } ]

/-! ## Theorems -/

/-- The loop of `selectSurfaceFormat` returns its fallback when no element is preferred. -/
theorem selectSurfaceFormat_loop_none (l : List VkSurfaceFormatKHR)
    (init : VkSurfaceFormatKHR) (h : ∀ f ∈ l, ¬ isPreferredSurfaceFormat f) :
    api.selectSurfaceFormat.loop l init = init := by
  induction l with
  | nil => rfl
  | cons a t ih =>
    have ha : ¬ isPreferredSurfaceFormat a := h a (List.mem_cons_self a t)
    have ht : ∀ f ∈ t, ¬ isPreferredSurfaceFormat f := fun f hf => h f (List.mem_cons_of_mem a hf)
    simp only [isPreferredSurfaceFormat] at ha
    simp only [api.selectSurfaceFormat.loop, Bool.and_eq_true, beq_iff_eq, ha, if_false]
    exact ih ht

/-- The loop of `selectSurfaceFormat` returns the preferred element of lowest index. -/
theorem selectSurfaceFormat_loop_first (l : List VkSurfaceFormatKHR)
    (init : VkSurfaceFormatKHR) (i : Nat) (hi : i < l.length)
    (hp : isPreferredSurfaceFormat (l.get ⟨i, hi⟩))
    (hmin : ∀ j (hj : j < l.length), j < i → ¬ isPreferredSurfaceFormat (l.get ⟨j, hj⟩)) :
    api.selectSurfaceFormat.loop l init = l.get ⟨i, hi⟩ := by
  induction l generalizing i with
  | nil => simp at hi
  | cons a t ih =>
    cases i with
    | zero =>
      simp only [isPreferredSurfaceFormat, List.get_eq_getElem, List.getElem_cons_zero] at hp
      simp [api.selectSurfaceFormat.loop, hp]
    | succ k =>
      have ha : ¬ isPreferredSurfaceFormat a := by
        have := hmin 0 (by simp) (Nat.succ_pos k)
        simpa using this
      simp only [isPreferredSurfaceFormat] at ha
      have hk : k < t.length := by simpa using hi
      simp only [api.selectSurfaceFormat.loop, Bool.and_eq_true, beq_iff_eq, ha, if_false]
      have := ih k hk (by simpa using hp) (fun j hj hjk => by
        have := hmin (j + 1) (by simpa using hj) (by omega)
        simpa using this)
      simpa using this

/-- C1: for every non-empty list of surface formats, `selectSurfaceFormat` returns a value
(no undefined behaviour); when some element has format `VK_FORMAT_B8G8R8A8_SRGB` and colour
space `VK_COLOR_SPACE_SRGB_NONLINEAR_KHR` the value is the element of lowest index that
does, and when no element does the value is the element at index 0. -/
theorem C1_selectSurfaceFormat_first_match (surfaceFormats : List VkSurfaceFormatKHR)
    (hne : surfaceFormats ≠ []) :
    ∃ r, api.selectSurfaceFormat surfaceFormats = some r ∧
      (∀ i (hi : i < surfaceFormats.length),
        isPreferredSurfaceFormat (surfaceFormats.get ⟨i, hi⟩) →
        (∀ j (hj : j < surfaceFormats.length), j < i →
          ¬ isPreferredSurfaceFormat (surfaceFormats.get ⟨j, hj⟩)) →
        r = surfaceFormats.get ⟨i, hi⟩) ∧
      ((∃ f ∈ surfaceFormats, isPreferredSurfaceFormat f) →
        ∃ i, ∃ hi : i < surfaceFormats.length,
          r = surfaceFormats.get ⟨i, hi⟩ ∧ isPreferredSurfaceFormat r ∧
          ∀ j (hj : j < surfaceFormats.length), j < i →
            ¬ isPreferredSurfaceFormat (surfaceFormats.get ⟨j, hj⟩)) ∧
      ((∀ f ∈ surfaceFormats, ¬ isPreferredSurfaceFormat f) →
        r = surfaceFormats.get ⟨0, List.length_pos.mpr hne⟩) := by
  cases surfaceFormats with
  | nil => exact absurd rfl hne
  | cons a t =>
    refine ⟨api.selectSurfaceFormat.loop (a :: t) a, rfl, ?_, ?_, ?_⟩
    · intro i hi hp hmin
      exact selectSurfaceFormat_loop_first (a :: t) a i hi hp hmin
    · rintro ⟨f, hf, hpf⟩
      obtain ⟨n, hn, hnf⟩ := List.getElem_of_mem hf
      have hex : ∃ i, ∃ hi : i < (a :: t).length,
          isPreferredSurfaceFormat ((a :: t).get ⟨i, hi⟩) :=
        ⟨n, hn, by simpa [hnf] using hpf⟩
      classical
      obtain ⟨hi, hp⟩ := Nat.find_spec hex
      have hmin : ∀ j (hj : j < (a :: t).length), j < Nat.find hex →
          ¬ isPreferredSurfaceFormat ((a :: t).get ⟨j, hj⟩) :=
        fun j hj hlt hpj => Nat.find_min hex hlt ⟨hj, hpj⟩
      have hr := selectSurfaceFormat_loop_first (a :: t) a (Nat.find hex) hi hp hmin
      exact ⟨Nat.find hex, hi, hr, by rw [hr]; exact hp, hmin⟩
    · intro hnone
      exact selectSurfaceFormat_loop_none (a :: t) a hnone

/-- Witness for C1 on a three-element list whose second and third elements are preferred. -/
theorem C1_selectSurfaceFormat_first_match_witness :
    ∃ r, api.selectSurfaceFormat [⟨44, 0⟩, ⟨50, 0⟩, ⟨50, 0⟩, ⟨37, 0⟩] = some r ∧
      r = (⟨50, 0⟩ : VkSurfaceFormatKHR) := by
  obtain ⟨r, hr, hfirst, -, -⟩ :=
    C1_selectSurfaceFormat_first_match [⟨44, 0⟩, ⟨50, 0⟩, ⟨50, 0⟩, ⟨37, 0⟩] (by simp)
  refine ⟨r, hr, ?_⟩
  have := hfirst 1 (by simp) (by decide) (by
    intro j hj hlt
    have : j = 0 := by omega
    subst this
    show ¬ isPreferredSurfaceFormat ⟨44, 0⟩
    decide)
  simpa using this

/-! ### `selectPhysicalDevice` -/

/-- The result of the device loop is the fallback or an element of the scanned list. -/
theorem selectPhysicalDevice_loop_mem (drv : Driver) (surface : VkSurfaceKHR)
    (l : List VkPhysicalDevice) (init : VkPhysicalDevice) :
    api.selectPhysicalDevice.loop drv surface l init = init ∨
      api.selectPhysicalDevice.loop drv surface l init ∈ l := by
  induction l generalizing init with
  | nil => exact Or.inl rfl
  | cons a t ih =>
    simp only [api.selectPhysicalDevice.loop]
    split
    · rcases ih a with h | h
      · rw [h]; exact Or.inr (List.mem_cons_self a t)
      · exact Or.inr (List.mem_cons_of_mem a h)
    · rcases ih init with h | h
      · exact Or.inl h
      · exact Or.inr (List.mem_cons_of_mem a h)

/-- The device loop returns its fallback when no scanned device is adequate. -/
theorem selectPhysicalDevice_loop_none (drv : Driver) (surface : VkSurfaceKHR)
    (l : List VkPhysicalDevice) (init : VkPhysicalDevice)
    (h : ∀ d ∈ l, api.isDeviceAdequate drv d surface = false) :
    api.selectPhysicalDevice.loop drv surface l init = init := by
  induction l with
  | nil => rfl
  | cons a t ih =>
    have ha : api.isDeviceAdequate drv a surface = false := h a (List.mem_cons_self a t)
    simp only [api.selectPhysicalDevice.loop, ha, Bool.false_eq_true, if_false]
    exact ih (fun d hd => h d (List.mem_cons_of_mem a hd))

/-- C2 (evaluation at the failing input): with two adequate devices `[0, 1]`, both
supporting `VK_KHR_swapchain` and both with a surface format and a present mode,
`selectPhysicalDevice` returns device `1`, the adequate device of greatest index, and not
device `0`, the first adequate device. -/
theorem C2_selectPhysicalDevice_two_adequate :
    api.isDeviceAdequate twoAdequateDriver 0 0 = true ∧
      isAdequateSpec twoAdequateDriver 0 0 ∧
      api.isDeviceAdequate twoAdequateDriver 1 0 = true ∧
      isAdequateSpec twoAdequateDriver 1 0 ∧
      api.selectPhysicalDevice twoAdequateDriver [0, 1] 0 = some 1 ∧
      api.selectPhysicalDevice twoAdequateDriver [0, 1] 0 ≠ some 0 := by
  decide

/-- C3: for every non-empty list of physical devices, `selectPhysicalDevice` returns a
device, the returned device is an element of the list, and when `isDeviceAdequate` is false
for every element the returned device is the one at index 0. -/
theorem C3_selectPhysicalDevice_fallback_and_mem (drv : Driver)
    (physicalDevices : List VkPhysicalDevice) (surface : VkSurfaceKHR)
    (hne : physicalDevices ≠ []) :
    ∃ r, api.selectPhysicalDevice drv physicalDevices surface = some r ∧
      r ∈ physicalDevices ∧
      ((∀ d ∈ physicalDevices, api.isDeviceAdequate drv d surface = false) →
        r = physicalDevices.get ⟨0, List.length_pos.mpr hne⟩) := by
  cases physicalDevices with
  | nil => exact absurd rfl hne
  | cons a t =>
    refine ⟨api.selectPhysicalDevice.loop drv surface (a :: t) a, rfl, ?_, ?_⟩
    · rcases selectPhysicalDevice_loop_mem drv surface (a :: t) a with h | h
      · rw [h]; exact List.mem_cons_self a t
      · exact h
    · intro hnone
      exact selectPhysicalDevice_loop_none drv surface (a :: t) a hnone

/-- Witness for C3: devices `[2, 3]` of `twoAdequateDriver` are both inadequate, and the
device at index 0 is returned. -/
theorem C3_selectPhysicalDevice_fallback_and_mem_witness :
    ∃ r, api.selectPhysicalDevice twoAdequateDriver [2, 3] 0 = some r ∧
      r ∈ [2, 3] ∧
      ((∀ d ∈ [2, 3], api.isDeviceAdequate twoAdequateDriver d 0 = false) →
        r = ([2, 3] : List VkPhysicalDevice).get ⟨0, by decide⟩) :=
  C3_selectPhysicalDevice_fallback_and_mem twoAdequateDriver [2, 3] 0 (by decide)

/-! ### `selectSurfacePresentMode` -/

/-- The present-mode loop returns its fallback when `MAILBOX` is not in the list. -/
theorem selectSurfacePresentMode_loop_none (l : List VkPresentModeKHR)
    (init : VkPresentModeKHR) (h : VK_PRESENT_MODE_MAILBOX_KHR ∉ l) :
    api.selectSurfacePresentMode.loop l init = init := by
  induction l with
  | nil => rfl
  | cons a t ih =>
    have ha : a ≠ VK_PRESENT_MODE_MAILBOX_KHR := fun e => h (e ▸ List.mem_cons_self a t)
    simp only [api.selectSurfacePresentMode.loop, beq_iff_eq, ha, if_false]
    exact ih (fun hm => h (List.mem_cons_of_mem a hm))

/-- C4 (counterexample): on the one-element list `[VK_PRESENT_MODE_IMMEDIATE_KHR]`, which is
non-empty and does not contain `MAILBOX`, `selectSurfacePresentMode` returns
`VK_PRESENT_MODE_FIFO_KHR`, which is not the element at index 0. -/
theorem C4_selectSurfacePresentMode_not_index_zero :
    [VK_PRESENT_MODE_IMMEDIATE_KHR] ≠ [] ∧
      VK_PRESENT_MODE_MAILBOX_KHR ∉ [VK_PRESENT_MODE_IMMEDIATE_KHR] ∧
      api.selectSurfacePresentMode [VK_PRESENT_MODE_IMMEDIATE_KHR] = VK_PRESENT_MODE_FIFO_KHR ∧
      api.selectSurfacePresentMode [VK_PRESENT_MODE_IMMEDIATE_KHR] ≠
        [VK_PRESENT_MODE_IMMEDIATE_KHR].get ⟨0, by decide⟩ := by
  decide

/-- C4 (amended): for every non-empty list of present modes that does not contain
`VK_PRESENT_MODE_MAILBOX_KHR`, `selectSurfacePresentMode` falls back to
`VK_PRESENT_MODE_FIFO_KHR`; the result is the element at index 0 exactly when that element
is `VK_PRESENT_MODE_FIFO_KHR`. -/
theorem C4_selectSurfacePresentMode_fallback_fifo (presentModes : List VkPresentModeKHR)
    (hne : presentModes ≠ []) (hno : VK_PRESENT_MODE_MAILBOX_KHR ∉ presentModes) :
    api.selectSurfacePresentMode presentModes = VK_PRESENT_MODE_FIFO_KHR ∧
      (api.selectSurfacePresentMode presentModes =
          presentModes.get ⟨0, List.length_pos.mpr hne⟩ ↔
        presentModes.get ⟨0, List.length_pos.mpr hne⟩ = VK_PRESENT_MODE_FIFO_KHR) := by
  have h : api.selectSurfacePresentMode presentModes = VK_PRESENT_MODE_FIFO_KHR :=
    selectSurfacePresentMode_loop_none presentModes VK_PRESENT_MODE_FIFO_KHR hno
  refine ⟨h, ?_⟩
  rw [h]
  exact eq_comm

/-- Witness for the amended C4 on `[IMMEDIATE, FIFO]`. -/
theorem C4_selectSurfacePresentMode_fallback_fifo_witness :
    api.selectSurfacePresentMode [VK_PRESENT_MODE_IMMEDIATE_KHR, VK_PRESENT_MODE_FIFO_KHR] =
      VK_PRESENT_MODE_FIFO_KHR :=
  (C4_selectSurfacePresentMode_fallback_fifo
    [VK_PRESENT_MODE_IMMEDIATE_KHR, VK_PRESENT_MODE_FIFO_KHR] (by decide) (by decide)).1

/-! ### `queryFullDeviceExtensionSupport` -/

/-- The inner loop decrements `count` (modulo `2 ^ 32`) exactly when the required name is
supported. -/
theorem api_extensionSupport_inner_eq (required : String)
    (supp : List VkExtensionProperties) (count : Nat) :
    api.queryFullDeviceExtensionSupport.inner required supp count =
      if isSupportedName supp required then (count + (UINT32_RANGE - 1)) % UINT32_RANGE
      else count := by
  induction supp with
  | nil => simp [api.queryFullDeviceExtensionSupport.inner, isSupportedName]
  | cons a t ih =>
    simp only [api.queryFullDeviceExtensionSupport.inner]
    by_cases h : required = a.extensionName
    · have : isSupportedName (a :: t) required := ⟨a, List.mem_cons_self a t, h⟩
      rw [if_pos h, if_pos this]
    · rw [if_neg h, ih]
      have : isSupportedName (a :: t) required ↔ isSupportedName t required := by
        simp [isSupportedName, h]
      simp only [this]

/-- While `count` is at least the number of supported required names, the outer loop
subtracts that number without wrapping. -/
theorem api_extensionSupport_outer_eq (supp : List VkExtensionProperties)
    (req : List String) (count : Nat) (hlt : count < UINT32_RANGE)
    (hle : req.countP (fun r => decide (isSupportedName supp r)) ≤ count) :
    api.queryFullDeviceExtensionSupport.outer supp req count =
      count - req.countP (fun r => decide (isSupportedName supp r)) := by
  induction req generalizing count with
  | nil => simp [api.queryFullDeviceExtensionSupport.outer]
  | cons r rest ih =>
    simp only [api.queryFullDeviceExtensionSupport.outer,
      api_extensionSupport_inner_eq]
    by_cases h : isSupportedName supp r
    · have hc : (r :: rest).countP (fun r => decide (isSupportedName supp r)) =
          rest.countP (fun r => decide (isSupportedName supp r)) + 1 := by
        simp [List.countP_cons, h]
      rw [hc] at hle ⊢
      have hdec : (count + (UINT32_RANGE - 1)) % UINT32_RANGE = count - 1 := by
        unfold UINT32_RANGE at hlt ⊢
        omega
      rw [if_pos h, hdec, ih (count - 1) (by omega) (by omega)]
      omega
    · have hc : (r :: rest).countP (fun r => decide (isSupportedName supp r)) =
          rest.countP (fun r => decide (isSupportedName supp r)) := by
        simp [List.countP_cons, h]
      rw [hc] at hle ⊢
      rw [if_neg h, ih count hlt hle]

/-- The `platform::` inner loop computes what the `api::` inner loop computes. -/
theorem platform_extensionSupport_inner_eq_api (required : String)
    (supp : List VkExtensionProperties) (count : Nat) :
    platform.queryFullDeviceExtensionSupport.inner required supp count =
      api.queryFullDeviceExtensionSupport.inner required supp count := by
  induction supp with
  | nil => rfl
  | cons a t ih =>
    simp only [platform.queryFullDeviceExtensionSupport.inner,
      api.queryFullDeviceExtensionSupport.inner, ih]

/-- The `platform::` outer loop computes what the `api::` outer loop computes. -/
theorem platform_extensionSupport_outer_eq_api
    (supp : List VkExtensionProperties) (req : List String) (count : Nat) :
    platform.queryFullDeviceExtensionSupport.outer supp req count =
      api.queryFullDeviceExtensionSupport.outer supp req count := by
  induction req generalizing count with
  | nil => rfl
  | cons r rest ih =>
    simp only [platform.queryFullDeviceExtensionSupport.outer,
      api.queryFullDeviceExtensionSupport.outer,
      platform_extensionSupport_inner_eq_api, ih]

/-- The two copies of `queryFullDeviceExtensionSupport` agree. -/
theorem platform_extensionSupport_eq_api (drv : Driver)
    (physicalDevice : VkPhysicalDevice) (requiredExtensions : List String) :
    platform.queryFullDeviceExtensionSupport drv physicalDevice requiredExtensions =
      api.queryFullDeviceExtensionSupport drv physicalDevice requiredExtensions := by
  simp only [platform.queryFullDeviceExtensionSupport, api.queryFullDeviceExtensionSupport,
    platform.enumerateDeviceExtensionSupport, api.enumerateDeviceExtensionSupport,
    platform_extensionSupport_outer_eq_api]

/-- For fewer than `2 ^ 32` required names, `api::queryFullDeviceExtensionSupport` is true
exactly when every required name is supported. -/
theorem api_extensionSupport_iff (drv : Driver)
    (physicalDevice : VkPhysicalDevice) (requiredExtensions : List String)
    (hlen : requiredExtensions.length < UINT32_RANGE) :
    api.queryFullDeviceExtensionSupport drv physicalDevice requiredExtensions = true ↔
      ∀ r ∈ requiredExtensions, isSupportedName (drv.deviceExtensions physicalDevice) r := by
  have hmod : requiredExtensions.length % UINT32_RANGE = requiredExtensions.length :=
    Nat.mod_eq_of_lt hlen
  simp only [api.queryFullDeviceExtensionSupport, api.enumerateDeviceExtensionSupport, hmod]
  by_cases h0 : requiredExtensions.length = 0
  · have : requiredExtensions = [] := List.length_eq_zero.mp h0
    simp [this]
  · have hle : requiredExtensions.countP (fun r =>
        decide (isSupportedName (drv.deviceExtensions physicalDevice) r)) ≤
        requiredExtensions.length := List.countP_le_length _
    rw [if_neg h0, api_extensionSupport_outer_eq _ _ _ hlen hle]
    rw [beq_iff_eq, Nat.sub_eq_zero_iff_le]
    constructor
    · intro h
      have heq := List.countP_eq_length.mp (Nat.le_antisymm hle h)
      intro r hr
      simpa using heq r hr
    · intro h
      have heq : requiredExtensions.countP (fun r =>
          decide (isSupportedName (drv.deviceExtensions physicalDevice) r)) =
          requiredExtensions.length :=
        List.countP_eq_length.mpr (fun r hr => by simpa using h r hr)
      omega

/-- `isDeviceAdequate` is true exactly for the devices that support `VK_KHR_swapchain` and
have at least one surface format and at least one present mode for the surface. -/
theorem isDeviceAdequate_iff_spec (drv : Driver) (physicalDevice : VkPhysicalDevice)
    (surface : VkSurfaceKHR) :
    api.isDeviceAdequate drv physicalDevice surface = true ↔
      isAdequateSpec drv physicalDevice surface := by
  have hone : ([VK_KHR_SWAPCHAIN_EXTENSION_NAME] : List String).length < UINT32_RANGE := by
    decide
  have hsup := api_extensionSupport_iff drv physicalDevice [VK_KHR_SWAPCHAIN_EXTENSION_NAME] hone
  simp only [List.mem_singleton, forall_eq] at hsup
  simp only [api.isDeviceAdequate, api.enumerateSurfaceFormats, api.enumerateSurfacePresentModes,
    isAdequateSpec, Bool.and_eq_true, Bool.not_eq_true', hsup, List.isEmpty_eq_false, ne_eq,
    and_assoc]

/-- Where the size of the required list fits the 32-bit `count` (fewer than `2 ^ 32`
names, the empty list and lists with repeated names included), both copies of
`queryFullDeviceExtensionSupport` return true if and only if every required name equals the
`extensionName` of at least one supported extension; they return true for the empty list
and false as soon as one required name is missing. -/
theorem queryFullDeviceExtensionSupport_iff_of_count_fits (drv : Driver)
    (physicalDevice : VkPhysicalDevice) (requiredExtensions : List String)
    (hlen : requiredExtensions.length < UINT32_RANGE) :
    (api.queryFullDeviceExtensionSupport drv physicalDevice requiredExtensions = true ↔
        ∀ r ∈ requiredExtensions, isSupportedName (drv.deviceExtensions physicalDevice) r) ∧
      (platform.queryFullDeviceExtensionSupport drv physicalDevice requiredExtensions = true ↔
        ∀ r ∈ requiredExtensions, isSupportedName (drv.deviceExtensions physicalDevice) r) ∧
      api.queryFullDeviceExtensionSupport drv physicalDevice [] = true ∧
      platform.queryFullDeviceExtensionSupport drv physicalDevice [] = true ∧
      ((∃ r ∈ requiredExtensions, ¬ isSupportedName (drv.deviceExtensions physicalDevice) r) →
        api.queryFullDeviceExtensionSupport drv physicalDevice requiredExtensions = false ∧
        platform.queryFullDeviceExtensionSupport drv physicalDevice requiredExtensions = false) := by
  have hiff := api_extensionSupport_iff drv physicalDevice requiredExtensions hlen
  refine ⟨hiff, ?_, ?_, ?_, ?_⟩
  · rw [platform_extensionSupport_eq_api]; exact hiff
  · rfl
  · rfl
  · rintro ⟨r, hr, hmiss⟩
    have hf : api.queryFullDeviceExtensionSupport drv physicalDevice requiredExtensions = false := by
      cases hq : api.queryFullDeviceExtensionSupport drv physicalDevice requiredExtensions with
      | false => rfl
      | true => exact absurd (hiff.mp hq r hr) hmiss
    exact ⟨hf, by rw [platform_extensionSupport_eq_api]; exact hf⟩

/-- A repeated required name, supported by device 0 of `twoAdequateDriver`. -/
theorem queryFullDeviceExtensionSupport_iff_repeated_name :
    api.queryFullDeviceExtensionSupport twoAdequateDriver 0
        ["VK_KHR_swapchain", "VK_KHR_swapchain"] = true ↔
      ∀ r ∈ ["VK_KHR_swapchain", "VK_KHR_swapchain"],
        isSupportedName (twoAdequateDriver.deviceExtensions 0) r :=
  (queryFullDeviceExtensionSupport_iff_of_count_fits twoAdequateDriver 0
    ["VK_KHR_swapchain", "VK_KHR_swapchain"] (by simp [UINT32_RANGE])).1

/-! ### `queryQueueFamilyIndices` -/

/-- Characterisation of `lastSupported` while the running index does not wrap: either no
element supports and the cell is unchanged, or the cell holds the index of the last
supporting element. -/
theorem lastSupported_spec {α : Type} (sup : Nat → α → Bool) (l : List α) (idx cur : Nat)
    (h : idx + l.length < UINT32_RANGE) :
    ((∀ j (hj : j < l.length), sup (idx + j) (l.get ⟨j, hj⟩) = false) ∧
        lastSupported sup l idx cur = cur) ∨
      (∃ j, ∃ hj : j < l.length, lastSupported sup l idx cur = idx + j ∧
        sup (idx + j) (l.get ⟨j, hj⟩) = true ∧
        ∀ k (hk : k < l.length), sup (idx + k) (l.get ⟨k, hk⟩) = true → k ≤ j) := by
  induction l generalizing idx cur with
  | nil => exact Or.inl ⟨fun j hj => absurd hj (Nat.not_lt_zero j), rfl⟩
  | cons a t ih =>
    have hlen : (a :: t).length = t.length + 1 := rfl
    have hstep : (idx + 1) % UINT32_RANGE = idx + 1 := Nat.mod_eq_of_lt (by omega)
    have ht : idx + 1 + t.length < UINT32_RANGE := by omega
    simp only [lastSupported, hstep]
    rcases ih (idx + 1) (if sup idx a then idx else cur) ht with ⟨hnone, hres⟩ | ⟨j, hj, hres, hsup, hmax⟩
    · by_cases ha : sup idx a = true
      · refine Or.inr ⟨0, Nat.succ_pos _, ?_, ?_, ?_⟩
        · rw [hres, if_pos ha]; rfl
        · simpa using ha
        · intro k hk hk'
          cases k with
          | zero => exact Nat.le_refl 0
          | succ k' =>
            have hk2 : k' < t.length := by simpa using hk
            have hf := hnone k' hk2
            have he : idx + (k' + 1) = idx + 1 + k' := by omega
            rw [he] at hk'
            simp only [List.get_eq_getElem, List.getElem_cons_succ] at hk' hf
            rw [hf] at hk'
            exact absurd hk' (by decide)
      · refine Or.inl ⟨?_, ?_⟩
        · intro k hk
          cases k with
          | zero => simpa using ha
          | succ k' =>
            have hk2 : k' < t.length := by simpa using hk
            have hf := hnone k' hk2
            have he : idx + (k' + 1) = idx + 1 + k' := by omega
            rw [he]
            simpa using hf
        · rw [hres, if_neg ha]
    · refine Or.inr ⟨j + 1, by simpa using hj, ?_, ?_, ?_⟩
      · rw [hres]; omega
      · have he : idx + (j + 1) = idx + 1 + j := by omega
        rw [he]
        simpa using hsup
      · intro k hk hk'
        cases k with
        | zero => exact Nat.zero_le _
        | succ k' =>
          have hk2 : k' < t.length := by simpa using hk
          have he : idx + (k' + 1) = idx + 1 + k' := by omega
          rw [he] at hk'
          have := hmax k' hk2 (by simpa using hk')
          omega

/-- Each field of the `platform::` loop result is the `lastSupported` scan of its
capability. -/
theorem platform_queueFamily_loop_field (drv : Driver)
    (physicalDevice : VkPhysicalDevice) (surface : VkSurfaceKHR) (c : Capability)
    (l : List VkQueueFamilyProperties) (idx : Nat) (r : platform.QueueFamilyIndices) :
    (platform.queryQueueFamilyIndices.loop drv physicalDevice surface l idx r).field c =
      lastSupported (c.supportedBy drv physicalDevice surface) l idx (r.field c) := by
  induction l generalizing idx r with
  | nil => rfl
  | cons a t ih =>
    simp only [platform.queryQueueFamilyIndices.loop, lastSupported]
    rw [ih]
    congr 1
    cases c <;>
      simp only [platform.QueueFamilyIndices.field, Capability.supportedBy, bne_iff_ne, ne_eq] <;>
      split_ifs <;> rfl

/-- A conditional store through a possibly null pointer, followed by a function of the
cell, is that function of the conditionally replaced content. -/
theorem map_conditional_store (f : Nat → Nat) (p : Prop) [Decidable p] (b : Bool)
    (hb : b = true ↔ p) (o : Option Nat) (idx : Nat) :
    Option.map f (if p ∧ o.isSome = true then some idx else o) =
      Option.map (fun x => f (if b = true then idx else x)) o := by
  cases o with
  | none => simp
  | some v =>
    by_cases hp : p
    · have hb' : b = true := hb.mpr hp
      simp [hp, hb']
    · have hb' : ¬ b = true := fun h => hp (hb.mp h)
      simp [hp, hb']

/-- Each cell of the `api::` loop result is untouched behind a null pointer and the
`lastSupported` scan of its capability behind a non-null pointer. -/
theorem api_queueFamily_loop_field (drv : Driver)
    (physicalDevice : VkPhysicalDevice) (surface : VkSurfaceKHR) (c : Capability)
    (l : List VkQueueFamilyProperties) (idx : Nat) (out : api.QueueFamilyPointers) :
    (api.queryQueueFamilyIndices.loop drv physicalDevice surface l idx out).field c =
      (out.field c).map (lastSupported (c.supportedBy drv physicalDevice surface) l idx) := by
  induction l generalizing idx out with
  | nil => simp [api.queryQueueFamilyIndices.loop, lastSupported]
  | cons a t ih =>
    simp only [api.queryQueueFamilyIndices.loop, lastSupported]
    rw [ih]
    obtain ⟨g, cp, tr, pr⟩ := out
    cases c <;>
      simp only [api.QueueFamilyPointers.field, Capability.supportedBy,
        apply_ite api.QueueFamilyPointers.graphicsFamily,
        apply_ite api.QueueFamilyPointers.computeFamily,
        apply_ite api.QueueFamilyPointers.transferFamily,
        apply_ite api.QueueFamilyPointers.presentFamily, ite_self]
    all_goals exact map_conditional_store _ _ _ (by simp) _ _

/-- C6 (evaluation at the failing input): on a device whose only queue family has
`queueFlags = 7` and cannot present, no family supports present and `presentFamily` is `0`,
not `0xFFFFFFFF`; on a device whose only family is graphics-only, `computeFamily`,
`transferFamily` and `presentFamily` are `0`; on a device without queue families the result
is `(0xFFFFFFFF, 0, 0, 0)`: only `graphicsFamily` starts at `0xFFFFFFFF`. -/
theorem C6_queryQueueFamilyIndices_unsupported_is_zero :
    (∀ i (hi : i < (headlessDriver.queueFamilies 0).length),
        Capability.present.supportedBy headlessDriver 0 0 i
          ((headlessDriver.queueFamilies 0).get ⟨i, hi⟩) = false) ∧
      platform.queryQueueFamilyIndices headlessDriver 0 0 =
        { graphicsFamily := 0, computeFamily := 0, transferFamily := 0, presentFamily := 0 } ∧
      (platform.queryQueueFamilyIndices headlessDriver 0 0).presentFamily ≠ 0xFFFFFFFF ∧
      (∀ c, c ≠ Capability.graphics → ∀ i (hi : i < (headlessDriver.queueFamilies 1).length),
        c.supportedBy headlessDriver 1 0 i ((headlessDriver.queueFamilies 1).get ⟨i, hi⟩) =
          false) ∧
      platform.queryQueueFamilyIndices headlessDriver 1 0 =
        { graphicsFamily := 0, computeFamily := 0, transferFamily := 0, presentFamily := 0 } ∧
      headlessDriver.queueFamilies 2 = [] ∧
      platform.queryQueueFamilyIndices headlessDriver 2 0 =
        { graphicsFamily := 0xFFFFFFFF, computeFamily := 0, transferFamily := 0,
          presentFamily := 0 } := by
  refine ⟨by decide, by decide, by decide, ?_, by decide, by decide, by decide⟩
  intro c hc
  cases c with
  | graphics => exact absurd rfl hc
  | compute => decide
  | transfer => decide
  | present => decide

/-- C7: for every device and surface and each of the four capabilities, if at least one
queue family of the device supports the capability, then the field reported by
`platform::queryQueueFamilyIndices` is a valid index into the family list, the family at that
index supports the capability, no supporting family has a greater index, and
`api::queryQueueFamilyIndices` leaves that same index in the cell behind a non-null output
pointer. -/
theorem C7_queryQueueFamilyIndices_greatest_index (drv : Driver)
    (physicalDevice : VkPhysicalDevice) (surface : VkSurfaceKHR) (c : Capability)
    (hsup : ∃ i, ∃ hi : i < (drv.queueFamilies physicalDevice).length,
      c.supportedBy drv physicalDevice surface i
        ((drv.queueFamilies physicalDevice).get ⟨i, hi⟩) = true) :
    ∃ g, ∃ hg : g < (drv.queueFamilies physicalDevice).length,
      (platform.queryQueueFamilyIndices drv physicalDevice surface).field c = g ∧
      c.supportedBy drv physicalDevice surface g
        ((drv.queueFamilies physicalDevice).get ⟨g, hg⟩) = true ∧
      (∀ k (hk : k < (drv.queueFamilies physicalDevice).length),
        c.supportedBy drv physicalDevice surface k
          ((drv.queueFamilies physicalDevice).get ⟨k, hk⟩) = true → k ≤ g) ∧
      (∀ (out : api.QueueFamilyPointers) (cur : Nat), out.field c = some cur →
        (api.queryQueueFamilyIndices drv physicalDevice surface out).field c = some g) := by
  obtain ⟨i, hi, hsi⟩ := hsup
  have hbound : 0 + (drv.queueFamilies physicalDevice).length < UINT32_RANGE := by
    simpa using drv.queueFamilies_count physicalDevice
  have key : ∀ cur, ∃ j, ∃ hj : j < (drv.queueFamilies physicalDevice).length,
      lastSupported (c.supportedBy drv physicalDevice surface)
        (drv.queueFamilies physicalDevice) 0 cur = j ∧
      c.supportedBy drv physicalDevice surface j
        ((drv.queueFamilies physicalDevice).get ⟨j, hj⟩) = true ∧
      ∀ k (hk : k < (drv.queueFamilies physicalDevice).length),
        c.supportedBy drv physicalDevice surface k
          ((drv.queueFamilies physicalDevice).get ⟨k, hk⟩) = true → k ≤ j := by
    intro cur
    rcases lastSupported_spec (c.supportedBy drv physicalDevice surface)
      (drv.queueFamilies physicalDevice) 0 cur hbound with
      ⟨hnone, -⟩ | ⟨j, hj, hres, hs, hmax⟩
    · have hf := hnone i hi
      rw [Nat.zero_add, hsi] at hf
      exact absurd hf (by decide)
    · refine ⟨j, hj, ?_, ?_, ?_⟩
      · rw [hres, Nat.zero_add]
      · rw [Nat.zero_add] at hs; exact hs
      · intro k hk hks
        exact hmax k hk (by rw [Nat.zero_add]; exact hks)
  obtain ⟨g, hg, hres, hs, hmax⟩ := key
    (platform.QueueFamilyIndices.field
      { graphicsFamily := 0xFFFFFFFF, computeFamily := 0, transferFamily := 0,
        presentFamily := 0 } c)
  refine ⟨g, hg, ?_, hs, hmax, ?_⟩
  · simp only [platform.queryQueueFamilyIndices, platform.enumerateQueueFamilies,
      platform_queueFamily_loop_field]
    exact hres
  · intro out cur hout
    obtain ⟨g', hg', hres', hs', hmax'⟩ := key cur
    have hgg : g' = g := Nat.le_antisymm (hmax g' hg' hs') (hmax' g hg hs)
    simp only [api.queryQueueFamilyIndices, api.enumerateQueueFamilies,
      api_queueFamily_loop_field, hout, Option.map_some', hres', hgg]

/-- Witness for C7: families 0 and 1 of `threeFamilyDriver` support compute, family 2 does
not. -/
theorem C7_queryQueueFamilyIndices_greatest_index_witness :
    ∃ g, ∃ hg : g < (threeFamilyDriver.queueFamilies 0).length,
      (platform.queryQueueFamilyIndices threeFamilyDriver 0 0).field Capability.compute = g ∧
      Capability.compute.supportedBy threeFamilyDriver 0 0 g
        ((threeFamilyDriver.queueFamilies 0).get ⟨g, hg⟩) = true ∧
      (∀ k (hk : k < (threeFamilyDriver.queueFamilies 0).length),
        Capability.compute.supportedBy threeFamilyDriver 0 0 k
          ((threeFamilyDriver.queueFamilies 0).get ⟨k, hk⟩) = true → k ≤ g) ∧
      (∀ (out : api.QueueFamilyPointers) (cur : Nat), out.field Capability.compute = some cur →
        (api.queryQueueFamilyIndices threeFamilyDriver 0 0 out).field Capability.compute =
          some g) :=
  C7_queryQueueFamilyIndices_greatest_index threeFamilyDriver 0 0 Capability.compute
    ⟨0, by decide, by decide⟩

/-! ### `loadBytecodeSPV` -/

/-- A word assembled from four bytes fits in 32 bits. -/
theorem wordOfBytes_lt (order : ByteOrder) (b0 b1 b2 b3 : Byte) :
    wordOfBytes order b0 b1 b2 b3 < 4294967296 := by
  have h0 := b0.isLt
  have h1 := b1.isLt
  have h2 := b2.isLt
  have h3 := b3.isLt
  cases order <;> simp only [wordOfBytes] <;> omega

/-- The object representation of the word assembled from four bytes is those four bytes. -/
theorem bytesOfWord_wordOfBytes (order : ByteOrder) (b0 b1 b2 b3 : Byte) :
    bytesOfWord order (wordOfBytes order b0 b1 b2 b3) = [b0, b1, b2, b3] := by
  have h0 := b0.isLt
  have h1 := b1.isLt
  have h2 := b2.isLt
  have h3 := b3.isLt
  cases order <;>
    simp only [bytesOfWord, wordOfBytes, List.cons.injEq, and_true] <;>
    refine ⟨?_, ?_, ?_, ?_⟩ <;> apply Fin.ext <;> simp only [] <;> omega

/-- A vector of `n` words occupies `4 * n` bytes. -/
theorem bytesOfWords_length (order : ByteOrder) (ws : List Nat) :
    (bytesOfWords order ws).length = 4 * ws.length := by
  induction ws with
  | nil => rfl
  | cons w rest ih =>
    have hw : (bytesOfWord order w).length = 4 := by cases order <;> rfl
    simp only [bytesOfWords, List.length_append, List.length_cons, hw, ih]
    omega

/-- Reading back `4 * n` bytes gives `n` 32-bit words whose underlying bytes are the bytes
read. -/
theorem wordsOfBytes_spec (order : ByteOrder) (n : Nat) (contents : List Byte)
    (hlen : contents.length = 4 * n) :
    (wordsOfBytes order contents).length = n ∧
      (∀ w ∈ wordsOfBytes order contents, w < 4294967296) ∧
      bytesOfWords order (wordsOfBytes order contents) = contents := by
  induction n generalizing contents with
  | zero =>
    have : contents = [] := List.length_eq_zero.mp (by simpa using hlen)
    subst this
    simp [wordsOfBytes, bytesOfWords]
  | succ k ih =>
    match contents, hlen with
    | b0 :: b1 :: b2 :: b3 :: rest, hlen =>
      have hrest : rest.length = 4 * k := by
        simp only [List.length_cons] at hlen
        omega
      obtain ⟨h1, h2, h3⟩ := ih rest hrest
      refine ⟨?_, ?_, ?_⟩
      · simp only [wordsOfBytes, List.length_cons, h1]
      · intro w hw
        simp only [wordsOfBytes, List.mem_cons] at hw
        rcases hw with rfl | hw
        · exact wordOfBytes_lt order b0 b1 b2 b3
        · exact h2 w hw
      · simp only [wordsOfBytes, bytesOfWords, bytesOfWord_wordOfBytes, h3]
        rfl
    | [], hlen => simp at hlen
    | [_], hlen => simp only [List.length_cons, List.length_nil] at hlen; omega
    | [_, _], hlen => simp only [List.length_cons, List.length_nil] at hlen; omega
    | [_, _, _], hlen => simp only [List.length_cons, List.length_nil] at hlen; omega

/-- The two copies of `loadBytecodeSPV` are the same function. -/
theorem api_loadBytecodeSPV_eq_platform (fs : FileSystem) (order : ByteOrder)
    (filename : String) :
    api.loadBytecodeSPV fs order filename = platform.loadBytecodeSPV fs order filename := rfl

/-- C8: for every file that can be opened and whose byte length `L` is a multiple of 4,
both copies of `loadBytecodeSPV` return a vector of exactly `L / 4` 32-bit words whose
underlying bytes are the bytes of the file in order; for every file that cannot be opened
they throw `runtime_error("failed to open file!")` and return nothing. -/
theorem C8_loadBytecodeSPV_words_of_file (fs : FileSystem) (order : ByteOrder)
    (filename : String) :
    (∀ contents, fs filename = some contents → contents.length % 4 = 0 →
      ∃ buffer, platform.loadBytecodeSPV fs order filename = .returned buffer ∧
        api.loadBytecodeSPV fs order filename = .returned buffer ∧
        buffer.length = contents.length / 4 ∧
        (∀ w ∈ buffer, w < 4294967296) ∧
        bytesOfWords order buffer = contents) ∧
      (fs filename = none →
        platform.loadBytecodeSPV fs order filename = .thrown "failed to open file!" ∧
        api.loadBytecodeSPV fs order filename = .thrown "failed to open file!") := by
  constructor
  · intro contents hopen hmul
    have hlen : contents.length = 4 * (contents.length / 4) := by omega
    obtain ⟨h1, h2, h3⟩ := wordsOfBytes_spec order (contents.length / 4) contents hlen
    have hmem : (bytesOfWords order (List.replicate (contents.length / 4) 0)).length =
        contents.length := by
      rw [bytesOfWords_length, List.length_replicate]
      exact hlen.symm
    have hdrop : (bytesOfWords order (List.replicate (contents.length / 4) 0)).drop
        contents.length = [] :=
      List.drop_eq_nil_of_le (Nat.le_of_eq hmem)
    have hres : platform.loadBytecodeSPV fs order filename =
        .returned (wordsOfBytes order contents) := by
      simp only [platform.loadBytecodeSPV, hopen, hmem, hdrop, List.append_nil,
        Nat.le_refl, if_true]
    refine ⟨wordsOfBytes order contents, hres, ?_, h1, h2, h3⟩
    rw [api_loadBytecodeSPV_eq_platform]
    exact hres
  · intro hclosed
    simp only [platform.loadBytecodeSPV, api.loadBytecodeSPV, hclosed, and_self]

/-- Witness for C8 on `sampleFileSystem`: `shader.spv` has eight bytes, `missing.spv` cannot
be opened. -/
theorem C8_loadBytecodeSPV_words_of_file_witness :
    (∃ buffer, platform.loadBytecodeSPV sampleFileSystem ByteOrder.little "shader.spv" =
        .returned buffer ∧
      buffer.length = 2 ∧
      bytesOfWords ByteOrder.little buffer = [3, 2, 35, 7, 0, 0, 1, 0]) ∧
      platform.loadBytecodeSPV sampleFileSystem ByteOrder.little "missing.spv" =
        .thrown "failed to open file!" := by
  constructor
  · obtain ⟨buffer, h1, -, h3, -, h5⟩ :=
      (C8_loadBytecodeSPV_words_of_file sampleFileSystem ByteOrder.little "shader.spv").1
        [3, 2, 35, 7, 0, 0, 1, 0] (by decide) (by decide)
    exact ⟨buffer, h1, h3, h5⟩
  · exact ((C8_loadBytecodeSPV_words_of_file sampleFileSystem ByteOrder.little
      "missing.spv").2 (by decide)).1

/-! ### The frame loop -/

/-- An iteration that completes made exactly the calls of the stated order, on the
framebuffer of the image index left in `imageIndex`, after three successful checks. -/
theorem frameIteration_completed (c : FrameContext) (imageIndex : Option Nat)
    (r : FrameResponses) (index : Nat)
    (h : (main.frameIteration c imageIndex r).2 = .completed index) :
    ∃ framebuffer, c.framebuffers.get? index = some framebuffer ∧
      (main.frameIteration c imageIndex r).1 = specFrameCalls c index framebuffer ∧
      (r.acquiredImageIndex = some index ∨
        (r.acquiredImageIndex = none ∧ imageIndex = some index)) ∧
      r.beginCommandBuffer = VK_SUCCESS ∧ r.endCommandBuffer = VK_SUCCESS ∧
      r.queueSubmit = VK_SUCCESS := by
  have hcalls : ∀ fb, specFrameCalls c index fb =
      [ .glfwPollEvents,
        .vkWaitForFences c.logicalDevice [c.inFlightFence] VK_TRUE UINT64_MAX,
        .vkResetFences c.logicalDevice [c.inFlightFence],
        .vkAcquireNextImageKHR c.logicalDevice c.swapchain UINT64_MAX
          c.imageAvailableSemaphore VK_NULL_HANDLE,
        .vkResetCommandBuffer c.commandBuffer 0 ] ++
      [.vkBeginCommandBuffer c.commandBuffer main.beginInfo] ++
      [ .vkCmdBeginRenderPass c.commandBuffer
          { renderPass := c.renderPass
            framebuffer := fb
            renderArea := { offset := { x := 0, y := 0 }, extent := c.extents }
            clearValues := [main.clearColor] } VK_SUBPASS_CONTENTS_INLINE,
        .vkCmdBindPipeline c.commandBuffer VK_PIPELINE_BIND_POINT_GRAPHICS c.pipeline,
        .vkCmdSetViewport c.commandBuffer 0 [main.viewport c],
        .vkCmdSetScissor c.commandBuffer 0 [main.scissor c],
        .vkCmdDraw c.commandBuffer 3 1 0 0,
        .vkCmdEndRenderPass c.commandBuffer,
        .vkEndCommandBuffer c.commandBuffer ] ++
      [.vkQueueSubmit c.graphicsQueue [main.submitInfo c] c.inFlightFence] ++
      [.vkQueuePresentKHR c.presentQueue
        { waitSemaphores := (main.signalSemaphores c).take 1
          swapchains := [c.swapchain]
          imageIndices := [index] }] := fun fb => rfl
  unfold main.frameIteration at h ⊢
  cases hacq : r.acquiredImageIndex with
  | none =>
    cases imageIndex with
    | none => simp [hacq] at h
    | some i =>
      simp only [hacq] at h ⊢
      cases hfb : c.framebuffers.get? i with
      | none => simp only [hfb] at h; exact absurd h (by simp)
      | some fb =>
        simp only [hfb] at h ⊢
        split_ifs at h ⊢ with h1 h2 h3
        all_goals simp at h
        subst h
        exact ⟨fb, hfb, by rw [hcalls], by simp, by simpa using h1, by simpa using h2,
          by simpa using h3⟩
  | some i =>
    simp only [hacq] at h ⊢
    cases hfb : c.framebuffers.get? i with
    | none => simp only [hfb] at h; exact absurd h (by simp)
    | some fb =>
      simp only [hfb] at h ⊢
      split_ifs at h ⊢ with h1 h2 h3
      all_goals simp at h
      subst h
      exact ⟨fb, hfb, by rw [hcalls], by simp, by simpa using h1, by simpa using h2,
        by simpa using h3⟩

/-- Whatever its outcome, an iteration made an initial segment of the calls of the stated
order. -/
theorem frameIteration_initial_segment (c : FrameContext) (imageIndex : Option Nat)
    (r : FrameResponses) :
    ∃ index framebuffer,
      (main.frameIteration c imageIndex r).1 <+: specFrameCalls c index framebuffer := by
  unfold main.frameIteration
  cases hacq : r.acquiredImageIndex with
  | none =>
    cases imageIndex with
    | none => exact ⟨0, 0, _, rfl⟩
    | some i =>
      simp only []
      cases hfb : c.framebuffers.get? i with
      | none => exact ⟨0, 0, _, rfl⟩
      | some fb =>
        simp only []
        split_ifs
        · exact ⟨i, fb, _, rfl⟩
        · exact ⟨i, fb, _, rfl⟩
        · exact ⟨i, fb, _, rfl⟩
        · exact ⟨i, fb, _, rfl⟩
  | some i =>
    simp only []
    cases hfb : c.framebuffers.get? i with
    | none => exact ⟨0, 0, _, rfl⟩
    | some fb =>
      simp only []
      split_ifs
      · exact ⟨i, fb, _, rfl⟩
      · exact ⟨i, fb, _, rfl⟩
      · exact ⟨i, fb, _, rfl⟩
      · exact ⟨i, fb, _, rfl⟩

/-- The state after a concatenation is the state after the second part, started from the
state after the first. -/
theorem syncAfter_append (c : FrameContext) (s : SyncState) (t1 t2 : List Call) :
    s.after c (t1 ++ t2) = (s.after c t1).after c t2 := by
  simp only [SyncState.after, List.foldl_append]

/-- The discipline along a concatenation splits into the discipline along both parts. -/
theorem admitsAll_append (c : FrameContext) (s : SyncState) (t1 t2 : List Call)
    (h1 : s.admitsAll c t1) (h2 : (s.after c t1).admitsAll c t2) :
    s.admitsAll c (t1 ++ t2) := by
  induction t1 generalizing s with
  | nil => exact h2
  | cons x rest ih => exact ⟨h1.1, ih (s.step c x) h1.2 h2⟩

/-- The discipline along a sequence holds along each of its initial segments. -/
theorem admitsAll_initial_segment (c : FrameContext) (s : SyncState) (t1 t2 : List Call)
    (h : s.admitsAll c (t1 ++ t2)) : s.admitsAll c t1 := by
  induction t1 generalizing s with
  | nil =>
    cases t2 with
    | nil => exact h
    | cons x rest => exact h.1.1
  | cons x rest ih => exact ⟨h.1, ih (s.step c x) h.2⟩

/-- The discipline along a sequence gives the discipline at each of its calls, in the
state reached by the calls before it. -/
theorem admits_of_admitsAll (c : FrameContext) (s : SyncState) (pre post : List Call)
    (x : Call) (h : s.admitsAll c (pre ++ x :: post)) : (s.after c pre).admits c x := by
  induction pre generalizing s with
  | nil => exact h.1
  | cons y rest ih => exact ih (s.step c y) h.2

/-- The discipline along a sequence bounds the submissions outstanding at its end. -/
theorem outstanding_le_of_admitsAll (c : FrameContext) (s : SyncState) (t : List Call)
    (h : s.admitsAll c t) : (s.after c t).outstanding ≤ 1 := by
  induction t generalizing s with
  | nil => exact h
  | cons y rest ih => exact ih (s.step c y) h.2

/-- From a loop-head state, the loop test followed by the calls of one full iteration
respects the discipline and ends with one submission outstanding. -/
theorem specFrameCalls_admitsAll (c : FrameContext) (index : Nat) (framebuffer : Handle)
    (s : SyncState) (hs : s.atLoopHead) :
    s.admitsAll c (.glfwWindowShouldClose c.window :: specFrameCalls c index framebuffer) ∧
      s.after c (.glfwWindowShouldClose c.window :: specFrameCalls c index framebuffer) =
        { fence := .pending, outstanding := 1, waited := true } := by
  rcases hs with rfl | rfl <;>
    simp [specFrameCalls, SyncState.admitsAll, SyncState.admits, SyncState.step,
      SyncState.after, Call.waitsOn, Call.resetsFence, Call.submitsWith, Call.recordsInto]

/-- The trace of the loop with one more completed iteration in front. -/
theorem frameLoop_completed (c : FrameContext) (imageIndex : Option Nat) (step : LoopStep)
    (rest : List LoopStep) (calls : List Call) (index : Nat)
    (hopen : step.shouldClose = false)
    (hit : main.frameIteration c imageIndex step.responses = (calls, .completed index)) :
    main.frameLoop c imageIndex (step :: rest) =
      (.glfwWindowShouldClose c.window :: calls ++ (main.frameLoop c (some index) rest).1,
        (main.frameLoop c (some index) rest).2) := by
  simp only [main.frameLoop, hopen, hit, Bool.false_eq_true, if_false]

/-- The trace of the loop when its first iteration does not complete. -/
theorem frameLoop_stopped (c : FrameContext) (imageIndex : Option Nat) (step : LoopStep)
    (rest : List LoopStep) (hopen : step.shouldClose = false)
    (hit : ∀ index, (main.frameIteration c imageIndex step.responses).2 ≠ .completed index) :
    (main.frameLoop c imageIndex (step :: rest)).1 =
      .glfwWindowShouldClose c.window :: (main.frameIteration c imageIndex step.responses).1 := by
  simp only [main.frameLoop, hopen, Bool.false_eq_true, if_false]
  rcases hres : main.frameIteration c imageIndex step.responses with ⟨calls, outcome⟩
  cases outcome with
  | completed index => exact absurd (by rw [hres]) (hit index)
  | thrown what => rfl
  | undefined => rfl

/-- From a loop-head state, every trace of the frame loop respects the discipline. -/
theorem frameLoop_admitsAll (c : FrameContext) (steps : List LoopStep)
    (imageIndex : Option Nat) (s : SyncState) (hs : s.atLoopHead) :
    s.admitsAll c (main.frameLoop c imageIndex steps).1 := by
  induction steps generalizing imageIndex s with
  | nil =>
    rcases hs with rfl | rfl <;> simp [main.frameLoop, SyncState.admitsAll]
  | cons step rest ih =>
    by_cases hclose : step.shouldClose = true
    · rcases hs with rfl | rfl <;>
        simp [main.frameLoop, hclose, SyncState.admitsAll, SyncState.admits, SyncState.step,
          Call.waitsOn, Call.resetsFence, Call.submitsWith, Call.recordsInto]
    · have hopen : step.shouldClose = false := by simpa using hclose
      by_cases hdone : ∃ index,
          (main.frameIteration c imageIndex step.responses).2 = .completed index
      · obtain ⟨index, hindex⟩ := hdone
        obtain ⟨fb, -, hcalls, -⟩ :=
          frameIteration_completed c imageIndex step.responses index hindex
        have hit : main.frameIteration c imageIndex step.responses =
            (specFrameCalls c index fb, .completed index) := by
          rw [← hcalls, ← hindex]
        rw [frameLoop_completed c imageIndex step rest _ index hopen hit]
        obtain ⟨hadm, hafter⟩ := specFrameCalls_admitsAll c index fb s hs
        have hrest := ih (some index)
          (s.after c (.glfwWindowShouldClose c.window :: specFrameCalls c index fb))
          (by rw [hafter]; exact Or.inr rfl)
        exact admitsAll_append c s
          (.glfwWindowShouldClose c.window :: specFrameCalls c index fb) _ hadm hrest
      · have hnot : ∀ index,
            (main.frameIteration c imageIndex step.responses).2 ≠ .completed index :=
          fun index h => hdone ⟨index, h⟩
        rw [frameLoop_stopped c imageIndex step rest hopen hnot]
        obtain ⟨index, fb, t, ht⟩ :=
          frameIteration_initial_segment c imageIndex step.responses
        have hadm := (specFrameCalls_admitsAll c index fb s hs).1
        rw [← ht] at hadm
        exact admitsAll_initial_segment c s _ t hadm

/-- A call that is not a wait on the fence does not lower the number of outstanding
submissions. -/
theorem step_outstanding_of_not_wait (c : FrameContext) (s : SyncState) (x : Call)
    (hx : x.waitsOn c.inFlightFence = false) : s.outstanding ≤ (s.step c x).outstanding := by
  simp only [SyncState.step, hx, Bool.false_eq_true, if_false]
  split_ifs <;> simp

/-- Calls of which none waits on the fence do not lower the number of outstanding
submissions. -/
theorem after_outstanding_of_no_wait (c : FrameContext) (s : SyncState) (mid : List Call)
    (hmid : ∀ w ∈ mid, w.waitsOn c.inFlightFence = false) :
    s.outstanding ≤ (s.after c mid).outstanding := by
  induction mid generalizing s with
  | nil => exact Nat.le_refl _
  | cons y rest ih =>
    have h1 := step_outstanding_of_not_wait c s y (hmid y (List.mem_cons_self y rest))
    have h2 := ih (s.step c y) (fun w hw => hmid w (List.mem_cons_of_mem y hw))
    exact Nat.le_trans h1 h2

/-- A submission that signals the fence is outstanding after it is made. -/
theorem step_outstanding_of_submit (c : FrameContext) (s : SyncState) (x : Call)
    (hx : x.submitsWith c.inFlightFence = true) : 1 ≤ (s.step c x).outstanding := by
  cases x <;> simp_all [SyncState.step, Call.submitsWith, Call.waitsOn, Call.resetsFence]

/-! ### `selectSurfacePresentMode`, all lists -/

/-- The present-mode loop returns `MAILBOX` when the list contains it. -/
theorem selectSurfacePresentMode_loop_mailbox (l : List VkPresentModeKHR)
    (init : VkPresentModeKHR) (h : VK_PRESENT_MODE_MAILBOX_KHR ∈ l) :
    api.selectSurfacePresentMode.loop l init = VK_PRESENT_MODE_MAILBOX_KHR := by
  induction l with
  | nil => simp at h
  | cons a t ih =>
    by_cases ha : a = VK_PRESENT_MODE_MAILBOX_KHR
    · simp only [api.selectSurfacePresentMode.loop, beq_iff_eq, ha, if_true]
    · simp only [api.selectSurfacePresentMode.loop, beq_iff_eq, ha, if_false]
      rcases List.mem_cons.mp h with h1 | h1
      · exact absurd h1.symm ha
      · exact ih h1

/-- C17: for every list of present modes, the empty list included,
`selectSurfacePresentMode` returns `VK_PRESENT_MODE_MAILBOX_KHR` if the list contains it
and `VK_PRESENT_MODE_FIFO_KHR` otherwise, whether or not `FIFO` is an element of the list;
the result is always one of these two values. -/
theorem C17_selectSurfacePresentMode_mailbox_or_fifo (presentModes : List VkPresentModeKHR) :
    (VK_PRESENT_MODE_MAILBOX_KHR ∈ presentModes →
        api.selectSurfacePresentMode presentModes = VK_PRESENT_MODE_MAILBOX_KHR) ∧
      (VK_PRESENT_MODE_MAILBOX_KHR ∉ presentModes →
        api.selectSurfacePresentMode presentModes = VK_PRESENT_MODE_FIFO_KHR) ∧
      api.selectSurfacePresentMode [] = VK_PRESENT_MODE_FIFO_KHR ∧
      (api.selectSurfacePresentMode presentModes = VK_PRESENT_MODE_MAILBOX_KHR ∨
        api.selectSurfacePresentMode presentModes = VK_PRESENT_MODE_FIFO_KHR) := by
  have hyes := selectSurfacePresentMode_loop_mailbox presentModes VK_PRESENT_MODE_FIFO_KHR
  have hno := selectSurfacePresentMode_loop_none presentModes VK_PRESENT_MODE_FIFO_KHR
  refine ⟨hyes, hno, rfl, ?_⟩
  by_cases h : VK_PRESENT_MODE_MAILBOX_KHR ∈ presentModes
  · exact Or.inl (hyes h)
  · exact Or.inr (hno h)

/-- Witness for C17: a list with `MAILBOX` behind `IMMEDIATE`, and a list without `MAILBOX`
and without `FIFO`. -/
theorem C17_selectSurfacePresentMode_mailbox_or_fifo_witness :
    api.selectSurfacePresentMode
        [VK_PRESENT_MODE_IMMEDIATE_KHR, VK_PRESENT_MODE_MAILBOX_KHR] =
        VK_PRESENT_MODE_MAILBOX_KHR ∧
      api.selectSurfacePresentMode [VK_PRESENT_MODE_IMMEDIATE_KHR, 3] =
        VK_PRESENT_MODE_FIFO_KHR :=
  ⟨(C17_selectSurfacePresentMode_mailbox_or_fifo
      [VK_PRESENT_MODE_IMMEDIATE_KHR, VK_PRESENT_MODE_MAILBOX_KHR]).1 (by decide),
    (C17_selectSurfacePresentMode_mailbox_or_fifo
      [VK_PRESENT_MODE_IMMEDIATE_KHR, 3]).2.1 (by decide)⟩

/-! ### `selectPhysicalDevice`, last match -/

/-- When some scanned device is adequate, the device loop returns the adequate device of
greatest index. -/
theorem selectPhysicalDevice_loop_last (drv : Driver) (surface : VkSurfaceKHR)
    (l : List VkPhysicalDevice) (init : VkPhysicalDevice)
    (h : ∃ d ∈ l, api.isDeviceAdequate drv d surface = true) :
    ∃ i, ∃ hi : i < l.length,
      api.selectPhysicalDevice.loop drv surface l init = l.get ⟨i, hi⟩ ∧
      api.isDeviceAdequate drv (l.get ⟨i, hi⟩) surface = true ∧
      ∀ j (hj : j < l.length), i < j →
        api.isDeviceAdequate drv (l.get ⟨j, hj⟩) surface = false := by
  induction l generalizing init with
  | nil => obtain ⟨d, hd, -⟩ := h; simp at hd
  | cons a t ih =>
    by_cases ht : ∃ d ∈ t, api.isDeviceAdequate drv d surface = true
    · have hstep : ∃ init', api.selectPhysicalDevice.loop drv surface (a :: t) init =
          api.selectPhysicalDevice.loop drv surface t init' := by
        simp only [api.selectPhysicalDevice.loop]
        split
        · exact ⟨a, rfl⟩
        · exact ⟨init, rfl⟩
      obtain ⟨init', hinit'⟩ := hstep
      obtain ⟨i, hi, hres, had, hmax⟩ := ih init' ht
      refine ⟨i + 1, by simpa using hi, ?_, by simpa using had, ?_⟩
      · rw [hinit', hres]; rfl
      · intro j hj hij
        cases j with
        | zero => omega
        | succ k =>
          have hk : k < t.length := by simpa using hj
          have := hmax k hk (by omega)
          simpa using this
    · have hnone : ∀ d ∈ t, api.isDeviceAdequate drv d surface = false := by
        intro d hd
        cases hval : api.isDeviceAdequate drv d surface with
        | false => rfl
        | true => exact absurd ⟨d, hd, hval⟩ ht
      have ha : api.isDeviceAdequate drv a surface = true := by
        obtain ⟨d, hd, hval⟩ := h
        rcases List.mem_cons.mp hd with rfl | hd'
        · exact hval
        · rw [hnone d hd'] at hval; exact absurd hval (by decide)
      refine ⟨0, by simp, ?_, by simpa using ha, ?_⟩
      · simp only [api.selectPhysicalDevice.loop, ha, if_true]
        rw [selectPhysicalDevice_loop_none drv surface t a hnone]
        rfl
      · intro j hj hij
        cases j with
        | zero => omega
        | succ k =>
          have hk : k < t.length := by simpa using hj
          have := hnone (t.get ⟨k, hk⟩) (List.get_mem t k hk)
          simpa using this

/-- The traced device loop returns what the device loop returns and has evaluated
`isDeviceAdequate` on every scanned device, in order. -/
theorem selectPhysicalDevice_loopTraced_eq (drv : Driver) (surface : VkSurfaceKHR)
    (l : List VkPhysicalDevice) (init : VkPhysicalDevice) (evaluated : List VkPhysicalDevice) :
    api.selectPhysicalDevice.loopTraced drv surface l init evaluated =
      (api.selectPhysicalDevice.loop drv surface l init, evaluated ++ l) := by
  induction l generalizing init evaluated with
  | nil => simp [api.selectPhysicalDevice.loopTraced, api.selectPhysicalDevice.loop]
  | cons a t ih =>
    simp only [api.selectPhysicalDevice.loopTraced, api.selectPhysicalDevice.loop]
    split <;> rw [ih] <;> simp

/-- C18: for every non-empty list of physical devices containing at least one adequate
device, `selectPhysicalDevice` returns the adequate device with the greatest index in the
list (a later adequate device overrides an earlier one), and `isDeviceAdequate` is
evaluated on every device of the list, in order. -/
theorem C18_selectPhysicalDevice_last_adequate (drv : Driver)
    (physicalDevices : List VkPhysicalDevice) (surface : VkSurfaceKHR)
    (hne : physicalDevices ≠ [])
    (hsome : ∃ d ∈ physicalDevices, api.isDeviceAdequate drv d surface = true) :
    ∃ r, api.selectPhysicalDevice drv physicalDevices surface = some r ∧
      api.selectPhysicalDevice.traced drv physicalDevices surface =
        some (r, physicalDevices) ∧
      ∃ i, ∃ hi : i < physicalDevices.length,
        r = physicalDevices.get ⟨i, hi⟩ ∧
        api.isDeviceAdequate drv (physicalDevices.get ⟨i, hi⟩) surface = true ∧
        ∀ j (hj : j < physicalDevices.length), i < j →
          api.isDeviceAdequate drv (physicalDevices.get ⟨j, hj⟩) surface = false := by
  cases physicalDevices with
  | nil => exact absurd rfl hne
  | cons a t =>
    refine ⟨api.selectPhysicalDevice.loop drv surface (a :: t) a, rfl, ?_, ?_⟩
    · simp only [api.selectPhysicalDevice.traced, selectPhysicalDevice_loopTraced_eq,
        List.nil_append]
    · exact selectPhysicalDevice_loop_last drv surface (a :: t) a hsome

/-- Witness for C18: in `[2, 0, 1, 2]` of `twoAdequateDriver` devices 0 and 1 are adequate;
device 1, at index 2, is returned, and all four devices are examined. -/
theorem C18_selectPhysicalDevice_last_adequate_witness :
    ∃ r, api.selectPhysicalDevice twoAdequateDriver [2, 0, 1, 2] 0 = some r ∧
      api.selectPhysicalDevice.traced twoAdequateDriver [2, 0, 1, 2] 0 =
        some (r, [2, 0, 1, 2]) ∧
      ∃ i, ∃ hi : i < ([2, 0, 1, 2] : List VkPhysicalDevice).length,
        r = ([2, 0, 1, 2] : List VkPhysicalDevice).get ⟨i, hi⟩ ∧
        api.isDeviceAdequate twoAdequateDriver
          (([2, 0, 1, 2] : List VkPhysicalDevice).get ⟨i, hi⟩) 0 = true ∧
        ∀ j (hj : j < ([2, 0, 1, 2] : List VkPhysicalDevice).length), i < j →
          api.isDeviceAdequate twoAdequateDriver
            (([2, 0, 1, 2] : List VkPhysicalDevice).get ⟨j, hj⟩) 0 = false :=
  C18_selectPhysicalDevice_last_adequate twoAdequateDriver [2, 0, 1, 2] 0 (by decide)
    ⟨0, by decide, by decide⟩

/-! ### `selectSurfaceExtents` -/

/-- Inside its precondition `std::clamp` is the greater of the lower bound and the lesser
of the value and the upper bound, and it lies between the bounds. -/
theorem clamp_of_le (v lo hi : Nat) (h : lo ≤ hi) :
    std.clamp v lo hi = some (max lo (min v hi)) ∧
      lo ≤ max lo (min v hi) ∧ max lo (min v hi) ≤ hi := by
  refine ⟨?_, by omega, by omega⟩
  simp only [std.clamp, Nat.not_lt.mpr h, if_false, Option.some.injEq]
  split_ifs <;> omega

/-- The conversion of an `int` to `uint32_t` is the value modulo `2 ^ 32`. -/
theorem castUInt32_eq (v : Int) :
    (castUInt32 v : Int) = v % 4294967296 ∧ castUInt32 v < 4294967296 := by
  unfold castUInt32
  have h0 : 0 ≤ v % 4294967296 := Int.emod_nonneg v (by decide)
  have h1 : v % 4294967296 < 4294967296 := Int.emod_lt_of_pos v (by decide)
  omega

/-- C19: for every surface capabilities value and framebuffer size `(w, h)`: if
`currentExtent.width` is not `0xFFFFFFFF`, `selectSurfaceExtents` returns `currentExtent`
unchanged whatever the window reports; otherwise it returns width
`clamp(w mod 2^32, minImageExtent.width, maxImageExtent.width)` and height
`clamp(h mod 2^32, minImageExtent.height, maxImageExtent.height)`, and whenever
`minImageExtent <= maxImageExtent` in each dimension the result lies between
`minImageExtent` and `maxImageExtent` in each dimension. -/
theorem C19_selectSurfaceExtents_clamped (caps : VkSurfaceCapabilitiesKHR)
    (glfwGetFramebufferSize : Handle → Int × Int) (window : Handle) :
    (caps.currentExtent.width ≠ 0xFFFFFFFF →
      ∀ otherSize : Handle → Int × Int,
        api.selectSurfaceExtents otherSize window caps = some caps.currentExtent) ∧
      (caps.currentExtent.width = 0xFFFFFFFF →
        api.selectSurfaceExtents glfwGetFramebufferSize window caps =
          match std.clamp (castUInt32 (glfwGetFramebufferSize window).1)
              caps.minImageExtent.width caps.maxImageExtent.width,
            std.clamp (castUInt32 (glfwGetFramebufferSize window).2)
              caps.minImageExtent.height caps.maxImageExtent.height with
          | some width, some height => some { width := width, height := height }
          | _, _ => none) ∧
      (caps.currentExtent.width = 0xFFFFFFFF →
        caps.minImageExtent.width ≤ caps.maxImageExtent.width →
        caps.minImageExtent.height ≤ caps.maxImageExtent.height →
        ∃ r, api.selectSurfaceExtents glfwGetFramebufferSize window caps = some r ∧
          r.width = max caps.minImageExtent.width
            (min ((glfwGetFramebufferSize window).1 % 4294967296).toNat
              caps.maxImageExtent.width) ∧
          r.height = max caps.minImageExtent.height
            (min ((glfwGetFramebufferSize window).2 % 4294967296).toNat
              caps.maxImageExtent.height) ∧
          caps.minImageExtent.width ≤ r.width ∧ r.width ≤ caps.maxImageExtent.width ∧
          caps.minImageExtent.height ≤ r.height ∧ r.height ≤ caps.maxImageExtent.height) := by
  refine ⟨?_, ?_, ?_⟩
  · intro hw otherSize
    simp only [api.selectSurfaceExtents, hw, if_false]
  · intro hw
    simp only [api.selectSurfaceExtents, hw, if_true]
    cases std.clamp (castUInt32 (glfwGetFramebufferSize window).1)
        caps.minImageExtent.width caps.maxImageExtent.width <;>
      cases std.clamp (castUInt32 (glfwGetFramebufferSize window).2)
        caps.minImageExtent.height caps.maxImageExtent.height <;> rfl
  · intro hw hwidth hheight
    obtain ⟨hcw, hw1, hw2⟩ := clamp_of_le (castUInt32 (glfwGetFramebufferSize window).1)
      caps.minImageExtent.width caps.maxImageExtent.width hwidth
    obtain ⟨hch, hh1, hh2⟩ := clamp_of_le (castUInt32 (glfwGetFramebufferSize window).2)
      caps.minImageExtent.height caps.maxImageExtent.height hheight
    refine ⟨{ width := max caps.minImageExtent.width
                (min (castUInt32 (glfwGetFramebufferSize window).1) caps.maxImageExtent.width)
              height := max caps.minImageExtent.height
                (min (castUInt32 (glfwGetFramebufferSize window).2)
                  caps.maxImageExtent.height) },
      ?_, rfl, rfl, hw1, hw2, hh1, hh2⟩
    simp only [api.selectSurfaceExtents, hw, if_true, hcw, hch]

/-- Witness for C19 on `sampleCapabilities`: a 600x400 framebuffer is clamped to 500x300,
and a width of `-1` (`2^32 - 1` after conversion) is clamped to 500. -/
theorem C19_selectSurfaceExtents_clamped_witness :
    api.selectSurfaceExtents (fun _ => (600, 400)) 1 sampleCapabilities =
        some { width := 500, height := 300 } ∧
      ∃ r, api.selectSurfaceExtents (fun _ => (-1, 50)) 1 sampleCapabilities = some r ∧
        100 ≤ r.width ∧ r.width ≤ 500 ∧ 100 ≤ r.height ∧ r.height ≤ 300 := by
  constructor
  · rw [(C19_selectSurfaceExtents_clamped sampleCapabilities (fun _ => (600, 400)) 1).2.1
      (by decide)]
    decide
  · obtain ⟨r, hr, -, -, h1, h2, h3, h4⟩ :=
      (C19_selectSurfaceExtents_clamped sampleCapabilities (fun _ => (-1, 50)) 1).2.2
        (by decide) (by decide) (by decide)
    exact ⟨r, hr, h1, h2, h3, h4⟩

/-! ### The frame loop: recording and error handling -/

/-- The iteration in full when the image index after the acquisition is valid: the three
checked result codes, in order, decide where it stops. -/
theorem frameIteration_of_acquired (c : FrameContext) (imageIndex : Option Nat)
    (r : FrameResponses) (index : Nat) (framebuffer : Handle)
    (h : main.acquired c imageIndex r index framebuffer) :
    main.frameIteration c imageIndex r =
      if r.beginCommandBuffer ≠ VK_SUCCESS then
        ((specFrameCalls c index framebuffer).take 6,
          .thrown "failed to begin recording command buffer!")
      else if r.endCommandBuffer ≠ VK_SUCCESS then
        ((specFrameCalls c index framebuffer).take 13,
          .thrown "failed to record command buffer!")
      else if r.queueSubmit ≠ VK_SUCCESS then
        ((specFrameCalls c index framebuffer).take 14,
          .thrown "failed to submit draw command buffer!")
      else
        (specFrameCalls c index framebuffer, .completed index) := by
  obtain ⟨hidx, hfb⟩ := h
  unfold main.frameIteration
  rcases hidx with hacq | ⟨hacq, hprev⟩
  · simp only [hacq, hfb]
    split_ifs <;> rfl
  · subst hprev
    simp only [hacq, hfb]
    split_ifs <;> rfl

/-- The iteration in full when the image index after the acquisition is indeterminate or
out of range: it stops at `framebuffers[imageIndex]`. -/
theorem frameIteration_of_not_acquired (c : FrameContext) (imageIndex : Option Nat)
    (r : FrameResponses)
    (h : ¬ ∃ index framebuffer, main.acquired c imageIndex r index framebuffer) :
    main.frameIteration c imageIndex r = ((specFrameCalls c 0 0).take 5, .undefined) := by
  unfold main.frameIteration
  cases hacq : r.acquiredImageIndex with
  | none =>
    cases imageIndex with
    | none => rfl
    | some i =>
      simp only []
      cases hfb : c.framebuffers.get? i with
      | none => rfl
      | some fb => exact absurd ⟨i, fb, Or.inr ⟨hacq, rfl⟩, hfb⟩ h
  | some i =>
    simp only []
    cases hfb : c.framebuffers.get? i with
    | none => rfl
    | some fb => exact absurd ⟨i, fb, Or.inl hacq, hfb⟩ h

/-- C15 (counterexample): an iteration of `sampleContext` that acquires image 1 and in
which `vkBeginCommandBuffer` fails throws before any command is recorded: the recorded
commands are none, not the six of the specification. -/
theorem C15_frame_loop_begin_failure_records_nothing :
    (main.frameIteration sampleContext none beginFailureResponses).2 =
        .thrown "failed to begin recording command buffer!" ∧
      (main.frameIteration sampleContext none beginFailureResponses).1.filter
        Call.isCommand = [] ∧
      (main.frameIteration sampleContext none beginFailureResponses).1.filter
        Call.isCommand ≠ specRecordedCommands sampleContext 21 := by
  decide

/-- C15 (amended): in every iteration of the frame loop that gets past
`vkBeginCommandBuffer`, the commands recorded into the command buffer are exactly, in order: begin render pass on
`framebuffers[imageIndex]` with render area (0, 0, extents) and one clear value
(0, 0, 0, 1); bind the graphics pipeline; set one viewport (0, 0, width, height, depth
0..1) and one scissor covering the extents; one draw of 3 vertices, 1 instance, first
vertex 0, first instance 0; end render pass; they are recorded between
`vkBeginCommandBuffer` and `vkEndCommandBuffer`.  An iteration that stops earlier records
nothing.  The recorded sequence depends on the iteration only through `imageIndex`. -/
theorem C15_frame_loop_recorded_commands (c : FrameContext) (imageIndex : Option Nat)
    (r : FrameResponses) :
    (∀ index framebuffer, main.acquired c imageIndex r index framebuffer →
      r.beginCommandBuffer = VK_SUCCESS →
      (main.frameIteration c imageIndex r).1.filter Call.isCommand =
          specRecordedCommands c framebuffer ∧
        ((main.frameIteration c imageIndex r).1.drop 5).take 8 =
          .vkBeginCommandBuffer c.commandBuffer { flags := 0 } ::
            specRecordedCommands c framebuffer ++ [.vkEndCommandBuffer c.commandBuffer]) ∧
      (∀ index framebuffer, main.acquired c imageIndex r index framebuffer →
        r.beginCommandBuffer ≠ VK_SUCCESS →
        (main.frameIteration c imageIndex r).1.filter Call.isCommand = []) ∧
      ((¬ ∃ index framebuffer, main.acquired c imageIndex r index framebuffer) →
        (main.frameIteration c imageIndex r).1.filter Call.isCommand = []) ∧
      (∀ index, (main.frameIteration c imageIndex r).2 = .completed index →
        ∃ framebuffer, c.framebuffers.get? index = some framebuffer ∧
          (main.frameIteration c imageIndex r).1.filter Call.isCommand =
            specRecordedCommands c framebuffer) ∧
      (∀ (otherIndex : Option Nat) (other : FrameResponses) index framebuffer,
        main.acquired c imageIndex r index framebuffer →
        main.acquired c otherIndex other index framebuffer →
        r.beginCommandBuffer = VK_SUCCESS → other.beginCommandBuffer = VK_SUCCESS →
        (main.frameIteration c otherIndex other).1.filter Call.isCommand =
          (main.frameIteration c imageIndex r).1.filter Call.isCommand) := by
  have hrec : ∀ (i : Option Nat) (q : FrameResponses) index framebuffer,
      main.acquired c i q index framebuffer → q.beginCommandBuffer = VK_SUCCESS →
      (main.frameIteration c i q).1.filter Call.isCommand =
          specRecordedCommands c framebuffer ∧
        ((main.frameIteration c i q).1.drop 5).take 8 =
          .vkBeginCommandBuffer c.commandBuffer { flags := 0 } ::
            specRecordedCommands c framebuffer ++ [.vkEndCommandBuffer c.commandBuffer] := by
    intro i q index framebuffer hacq hbegin
    rw [frameIteration_of_acquired c i q index framebuffer hacq]
    simp only [hbegin, ne_eq, not_true_eq_false, if_false]
    split_ifs <;> exact ⟨rfl, rfl⟩
  refine ⟨hrec imageIndex r, ?_, ?_, ?_, ?_⟩
  · intro index framebuffer hacq hbegin
    rw [frameIteration_of_acquired c imageIndex r index framebuffer hacq, if_pos hbegin]
    rfl
  · intro hnot
    rw [frameIteration_of_not_acquired c imageIndex r hnot]
    rfl
  · intro index hdone
    obtain ⟨fb, hfb, hcalls, -⟩ := frameIteration_completed c imageIndex r index hdone
    exact ⟨fb, hfb, by rw [hcalls]; rfl⟩
  · intro otherIndex other index framebuffer hacq hother hbegin hbegin'
    rw [(hrec imageIndex r index framebuffer hacq hbegin).1,
      (hrec otherIndex other index framebuffer hother hbegin').1]

/-- Witness for C15: a successful iteration of `sampleContext` on image 1 records the six
commands on framebuffer 21. -/
theorem C15_frame_loop_recorded_commands_witness :
    (main.frameIteration sampleContext none (successResponses 1)).1.filter Call.isCommand =
      specRecordedCommands sampleContext 21 :=
  ((C15_frame_loop_recorded_commands sampleContext none (successResponses 1)).1 1 21
    ⟨Or.inl rfl, by decide⟩ rfl).1

/-- C16: in every iteration of the frame loop, the iteration throws `std::runtime_error`
if and only if `vkBeginCommandBuffer`, `vkEndCommandBuffer` or `vkQueueSubmit` is called
and returns a code other than `VK_SUCCESS`; the first such failure, in this order, ends
the iteration with the failing call as its last call; the result codes of
`vkWaitForFences`, `vkResetFences`, `vkAcquireNextImageKHR`, `vkResetCommandBuffer` and
`vkQueuePresentKHR` do not influence the iteration.  (An iteration whose image index is
indeterminate or out of range stops at `framebuffers[imageIndex]`, makes none of the three
checked calls and does not throw.) -/
theorem C16_frame_loop_error_handling (c : FrameContext) (imageIndex : Option Nat)
    (r : FrameResponses) :
    ((∃ what, (main.frameIteration c imageIndex r).2 = .thrown what) ↔
        ((.vkBeginCommandBuffer c.commandBuffer main.beginInfo ∈
              (main.frameIteration c imageIndex r).1 ∧
            r.beginCommandBuffer ≠ VK_SUCCESS) ∨
          (.vkEndCommandBuffer c.commandBuffer ∈ (main.frameIteration c imageIndex r).1 ∧
            r.endCommandBuffer ≠ VK_SUCCESS) ∨
          (.vkQueueSubmit c.graphicsQueue [main.submitInfo c] c.inFlightFence ∈
              (main.frameIteration c imageIndex r).1 ∧
            r.queueSubmit ≠ VK_SUCCESS))) ∧
      ((∃ what, (main.frameIteration c imageIndex r).2 = .thrown what) ↔
        (∃ index framebuffer, main.acquired c imageIndex r index framebuffer) ∧
          (r.beginCommandBuffer ≠ VK_SUCCESS ∨ r.endCommandBuffer ≠ VK_SUCCESS ∨
            r.queueSubmit ≠ VK_SUCCESS)) ∧
      (∀ index framebuffer, main.acquired c imageIndex r index framebuffer →
        (r.beginCommandBuffer ≠ VK_SUCCESS →
          main.frameIteration c imageIndex r =
            ((specFrameCalls c index framebuffer).take 6,
              .thrown "failed to begin recording command buffer!") ∧
          (main.frameIteration c imageIndex r).1.getLast? =
            some (.vkBeginCommandBuffer c.commandBuffer { flags := 0 })) ∧
        (r.beginCommandBuffer = VK_SUCCESS → r.endCommandBuffer ≠ VK_SUCCESS →
          main.frameIteration c imageIndex r =
            ((specFrameCalls c index framebuffer).take 13,
              .thrown "failed to record command buffer!") ∧
          (main.frameIteration c imageIndex r).1.getLast? =
            some (.vkEndCommandBuffer c.commandBuffer)) ∧
        (r.beginCommandBuffer = VK_SUCCESS → r.endCommandBuffer = VK_SUCCESS →
          r.queueSubmit ≠ VK_SUCCESS →
          main.frameIteration c imageIndex r =
            ((specFrameCalls c index framebuffer).take 14,
              .thrown "failed to submit draw command buffer!") ∧
          (main.frameIteration c imageIndex r).1.getLast? =
            some (.vkQueueSubmit c.graphicsQueue
              [{ waitSemaphores := [c.imageAvailableSemaphore]
                 waitDstStageMask := [1024]
                 commandBuffers := [c.commandBuffer]
                 signalSemaphores := [c.renderFinishedSemaphore] }] c.inFlightFence)) ∧
        (r.beginCommandBuffer = VK_SUCCESS → r.endCommandBuffer = VK_SUCCESS →
          r.queueSubmit = VK_SUCCESS →
          main.frameIteration c imageIndex r =
            (specFrameCalls c index framebuffer, .completed index))) ∧
      (∀ waitForFences resetFences acquireNextImage resetCommandBuffer queuePresent : Int,
        main.frameIteration c imageIndex
            { r with
              waitForFences := waitForFences, resetFences := resetFences
              acquireNextImage := acquireNextImage
              resetCommandBuffer := resetCommandBuffer, queuePresent := queuePresent } =
          main.frameIteration c imageIndex r) := by
  refine ⟨?_, ?_, ?_, ?_⟩
  · by_cases hacq : ∃ index framebuffer, main.acquired c imageIndex r index framebuffer
    · obtain ⟨index, fb, h⟩ := hacq
      rw [frameIteration_of_acquired c imageIndex r index fb h]
      split_ifs <;>
        simp_all [specFrameCalls, main.beginInfo, main.submitInfo, main.waitSemaphores,
          main.waitStages, main.signalSemaphores,
          VK_PIPELINE_STAGE_COLOR_ATTACHMENT_OUTPUT_BIT]
    · rw [frameIteration_of_not_acquired c imageIndex r hacq]
      simp [specFrameCalls]
  · constructor
    · rintro ⟨what, hthrown⟩
      by_cases hacq : ∃ index framebuffer, main.acquired c imageIndex r index framebuffer
      · refine ⟨hacq, ?_⟩
        obtain ⟨index, fb, h⟩ := hacq
        rw [frameIteration_of_acquired c imageIndex r index fb h] at hthrown
        by_contra hall
        simp only [not_or, not_not] at hall
        obtain ⟨h1, h2, h3⟩ := hall
        simp [h1, h2, h3] at hthrown
      · rw [frameIteration_of_not_acquired c imageIndex r hacq] at hthrown
        exact absurd hthrown (by simp)
    · rintro ⟨⟨index, fb, h⟩, hfail⟩
      rw [frameIteration_of_acquired c imageIndex r index fb h]
      split_ifs with h1 h2 h3
      · exact ⟨_, rfl⟩
      · exact ⟨_, rfl⟩
      · exact ⟨_, rfl⟩
      · rcases hfail with hf | hf | hf
        · exact absurd hf h1
        · exact absurd hf h2
        · exact absurd hf h3
  · intro index fb h
    rw [frameIteration_of_acquired c imageIndex r index fb h]
    refine ⟨?_, ?_, ?_, ?_⟩
    · intro h1
      rw [if_pos h1]
      exact ⟨rfl, rfl⟩
    · intro h1 h2
      rw [if_neg (not_not.mpr h1), if_pos h2]
      exact ⟨rfl, rfl⟩
    · intro h1 h2 h3
      rw [if_neg (not_not.mpr h1), if_neg (not_not.mpr h2), if_pos h3]
      exact ⟨rfl, rfl⟩
    · intro h1 h2 h3
      rw [if_neg (not_not.mpr h1), if_neg (not_not.mpr h2), if_neg (not_not.mpr h3)]
  · intro _ _ _ _ _
    rfl

/-- Witness for C16: with a valid image index and a failing `vkEndCommandBuffer` the
iteration throws after thirteen calls, whatever the five unchecked result codes are. -/
theorem C16_frame_loop_error_handling_witness :
    (∃ what, (main.frameIteration sampleContext none
endFailureResponses).2 = .thrown what) ∧
      (main.frameIteration sampleContext none
endFailureResponses).1.length = 13 := by
  have h := C16_frame_loop_error_handling sampleContext none
    endFailureResponses
  refine ⟨h.2.1.mpr ⟨⟨1, 21, Or.inl rfl, by decide⟩, Or.inr (Or.inl (by decide))⟩, ?_⟩
  rw [((h.2.2.1 1 21 ⟨Or.inl rfl, by decide⟩).2.1 rfl (by decide)).1]
  rfl

/-! ### The creation functions -/

/-- The check on the answer of an entry point throws exactly when the result code is not
`VK_SUCCESS`, and otherwise returns the handle of the answer. -/
theorem throwUnlessSuccess_spec (what : String) (answer : Int × Handle) :
    ((∃ w, throwUnlessSuccess what answer = .error w) ↔ answer.1 ≠ VK_SUCCESS) ∧
      (answer.1 ≠ VK_SUCCESS → throwUnlessSuccess what answer = .error what) ∧
      (answer.1 = VK_SUCCESS → throwUnlessSuccess what answer = .ok answer.2) := by
  by_cases h : answer.1 = VK_SUCCESS
  · simp [throwUnlessSuccess, h]
  · simp [throwUnlessSuccess, h]

/-- The loop of `createImageViews` is `createEach` on the create infos of the images. -/
theorem createImageViews_loop_eq (vk : Nat → Handle → VkImageViewCreateInfo → Int × Handle)
    (logicalDevice : Handle) (surfaceFormat : VkSurfaceFormatKHR) (images : List Handle)
    (callNumber index : Nat) (result : List Handle) (calls : List VkImageViewCreateInfo) :
    api.createImageViews.loop vk logicalDevice surfaceFormat images callNumber index result
        calls =
      createEach "failed to create image view!" (fun n info => vk n logicalDevice info)
        (images.map (api.createImageViews.viewCreateInfo surfaceFormat)) callNumber index
        result calls := by
  induction images generalizing callNumber index result calls with
  | nil => rfl
  | cons image rest ih =>
    simp only [api.createImageViews.loop, List.map_cons, createEach]
    split_ifs
    · rfl
    · exact ih _ _ _ _

/-- The loop of `createFramebuffers` is `createEach` on the create infos of the views. -/
theorem createFramebuffers_loop_eq
    (vk : Nat → Handle → VkFramebufferCreateInfo → Int × Handle) (logicalDevice : Handle)
    (extents : VkExtent2D) (renderPass : Handle) (views : List Handle)
    (callNumber index : Nat) (result : List Handle) (calls : List VkFramebufferCreateInfo) :
    api.createFramebuffers.loop vk logicalDevice extents renderPass views callNumber index
        result calls =
      createEach "failed to create framebuffer!" (fun n info => vk n logicalDevice info)
        (views.map (api.createFramebuffers.framebufferInfo extents renderPass)) callNumber
        index result calls := by
  induction views generalizing callNumber index result calls with
  | nil => rfl
  | cons view rest ih =>
    simp only [api.createFramebuffers.loop, List.map_cons, createEach]
    split_ifs
    · rfl
    · exact ih _ _ _ _

/-- When every call succeeds, `createEach` has called the entry point on every element, in
order, and returns. -/
theorem createEach_all_succeed {Info : Type} (what : String)
    (create : Nat → Info → Int × Handle) (infos : List Info) (callNumber index : Nat)
    (result : List Handle) (calls : List Info)
    (hall : ∀ k (hk : k < infos.length),
      (create (callNumber + k) (infos.get ⟨k, hk⟩)).1 = VK_SUCCESS) :
    ∃ handles, createEach what create infos callNumber index result calls =
      (calls ++ infos, .ok handles) := by
  induction infos generalizing callNumber index result calls with
  | nil => exact ⟨result, by simp [createEach]⟩
  | cons info rest ih =>
    have h0 : (create callNumber info).1 = VK_SUCCESS := by
      simpa using hall 0 (Nat.succ_pos _)
    have hrest : ∀ k (hk : k < rest.length),
        (create (callNumber + 1 + k) (rest.get ⟨k, hk⟩)).1 = VK_SUCCESS := by
      intro k hk
      have := hall (k + 1) (by simpa using hk)
      have he : callNumber + (k + 1) = callNumber + 1 + k := by omega
      rw [he] at this
      simpa using this
    obtain ⟨handles, hh⟩ := ih (callNumber + 1) ((index + 1) % UINT32_RANGE)
      (result.set index (create callNumber info).2) (calls ++ [info]) hrest
    refine ⟨handles, ?_⟩
    simp only [createEach, h0, ne_eq, not_true_eq_false, if_false, hh, List.append_assoc,
      List.singleton_append]

/-- When the call on element `k` is the first that fails, `createEach` has called the
entry point on the elements up to `k` only, and throws. -/
theorem createEach_first_failure {Info : Type} (what : String)
    (create : Nat → Info → Int × Handle) (infos : List Info) (callNumber index : Nat)
    (result : List Handle) (calls : List Info) (k : Nat) (hk : k < infos.length)
    (hfail : (create (callNumber + k) (infos.get ⟨k, hk⟩)).1 ≠ VK_SUCCESS)
    (hbefore : ∀ j (hj : j < infos.length), j < k →
      (create (callNumber + j) (infos.get ⟨j, hj⟩)).1 = VK_SUCCESS) :
    createEach what create infos callNumber index result calls =
      (calls ++ infos.take (k + 1), .error what) := by
  induction infos generalizing callNumber index result calls k with
  | nil => simp at hk
  | cons info rest ih =>
    cases k with
    | zero =>
      have h0 : (create callNumber info).1 ≠ VK_SUCCESS := by simpa using hfail
      simp [createEach, h0]
    | succ k' =>
      have h0 : (create callNumber info).1 = VK_SUCCESS := by
        simpa using hbefore 0 (Nat.succ_pos _) (Nat.succ_pos _)
      have hk' : k' < rest.length := by simpa using hk
      have hfail' : (create (callNumber + 1 + k') (rest.get ⟨k', hk'⟩)).1 ≠ VK_SUCCESS := by
        have he : callNumber + (k' + 1) = callNumber + 1 + k' := by omega
        rw [he] at hfail
        simpa using hfail
      have hbefore' : ∀ j (hj : j < rest.length), j < k' →
          (create (callNumber + 1 + j) (rest.get ⟨j, hj⟩)).1 = VK_SUCCESS := by
        intro j hj hjk
        have := hbefore (j + 1) (by simpa using hj) (by omega)
        have he : callNumber + (j + 1) = callNumber + 1 + j := by omega
        rw [he] at this
        simpa using this
      have := ih (callNumber + 1) ((index + 1) % UINT32_RANGE)
        (result.set index (create callNumber info).2) (calls ++ [info]) k' hk' hfail' hbefore'
      simp only [createEach, h0, ne_eq, not_true_eq_false, if_false, this, List.append_assoc,
        List.singleton_append, List.take_succ_cons]

/-- A function that applies the check to one call on the entry point meets the
single-call contract. -/
theorem singleCallContract_of_eq {Entry : Type} (what : String) (call : Entry → Int × Handle)
    (f : Entry → Except String Handle)
    (h : ∀ vk, f vk = throwUnlessSuccess what (call vk)) : singleCallContract call f := by
  intro vk
  rw [h vk]
  exact ⟨(throwUnlessSuccess_spec what (call vk)).1, (throwUnlessSuccess_spec what (call vk)).2.2⟩

/-- `createEach`, started as the two creation loops start it, meets the per-element
contract. -/
theorem createEach_contract {Info : Type} (what : String) (create : Nat → Info → Int × Handle)
    (infos : List Info) (result : List Handle) :
    perElementContract create infos (createEach what create infos 0 0 result []) := by
  have hfirst : ∀ k (hk : k < infos.length),
      (create k (infos.get ⟨k, hk⟩)).1 ≠ VK_SUCCESS →
      (∀ j (hj : j < infos.length), j < k →
        (create j (infos.get ⟨j, hj⟩)).1 = VK_SUCCESS) →
      createEach what create infos 0 0 result [] = (infos.take (k + 1), .error what) := by
    intro k hk hfail hbefore
    have := createEach_first_failure what create infos 0 0 result [] k hk
      (by simpa using hfail) (fun j hj hjk => by simpa using hbefore j hj hjk)
    simpa using this
  have hall : (∀ k (hk : k < infos.length), (create k (infos.get ⟨k, hk⟩)).1 = VK_SUCCESS) →
      ∃ handles, createEach what create infos 0 0 result [] = (infos, .ok handles) := by
    intro h
    obtain ⟨handles, hh⟩ := createEach_all_succeed what create infos 0 0 result []
      (fun k hk => by simpa using h k hk)
    exact ⟨handles, by simpa using hh⟩
  refine ⟨⟨?_, ?_⟩, ?_, ?_⟩
  · rintro ⟨w, hw⟩
    by_contra hnone
    have hsucc : ∀ k (hk : k < infos.length),
        (create k (infos.get ⟨k, hk⟩)).1 = VK_SUCCESS := by
      intro k hk
      by_contra hne
      exact hnone ⟨k, hk, hne⟩
    obtain ⟨handles, hh⟩ := hall hsucc
    rw [hh] at hw
    exact absurd hw (by simp)
  · intro hex
    classical
    have hex' : ∃ k, ∃ hk : k < infos.length,
        (create k (infos.get ⟨k, hk⟩)).1 ≠ VK_SUCCESS := hex
    obtain ⟨hk, hfail⟩ := Nat.find_spec hex'
    have hbefore : ∀ j (hj : j < infos.length), j < Nat.find hex' →
        (create j (infos.get ⟨j, hj⟩)).1 = VK_SUCCESS := by
      intro j hj hjk
      by_contra hne
      exact Nat.find_min hex' hjk ⟨hj, hne⟩
    rw [hfirst (Nat.find hex') hk hfail hbefore]
    exact ⟨what, rfl⟩
  · intro k hk hfail hbefore
    rw [hfirst k hk hfail hbefore]
    exact ⟨rfl, what, rfl⟩
  · intro h
    obtain ⟨handles, hh⟩ := hall h
    rw [hh]
    exact ⟨rfl, handles, rfl⟩

/-- C11: each of `createInstance`, `createLogicalDevice`, `createSwapchain`,
`createShaderModule`, `createRenderPass`, `createPipelineLayout`, `createCommandPool`,
`createCommandBuffer`, `createSemaphore` and `createFence` throws if and only if its single
creation call returns a code other than `VK_SUCCESS`, and otherwise returns exactly the
handle that call produced; `createImageViews` and `createFramebuffers` throw if and only
if at least one per-element creation call returns a code other than `VK_SUCCESS`, and then
have made the calls up to the first failing element and none for the remaining ones. -/
theorem C11_creation_functions_throw_iff_failure :
    (∀ extensions : List String,
      singleCallContract
        (fun vk => vk { enabledLayerCount := 0, enabledExtensionNames := extensions })
        (fun vk => api.createInstance extensions vk)) ∧
      (∀ drv indeterminate physicalDevice surface, ∃ info,
        singleCallContract (fun vk => vk physicalDevice info)
          (fun vk => api.createLogicalDevice drv vk indeterminate physicalDevice surface)) ∧
      (∀ drv capabilities physicalDevice logicalDevice surface surfaceFormat presentMode
          extents, ∃ info,
        singleCallContract (fun vk => vk logicalDevice info)
          (fun vk => api.createSwapchain drv capabilities vk physicalDevice logicalDevice
            surface surfaceFormat presentMode extents)) ∧
      (∀ logicalDevice shaderBytecode,
        singleCallContract
          (fun vk => vk logicalDevice
            { codeSize := shaderBytecode.length * 4, code := shaderBytecode })
          (fun vk => api.createShaderModule vk logicalDevice shaderBytecode)) ∧
      (∀ logicalDevice surfaceFormat,
        singleCallContract
          (fun vk => vk logicalDevice (api.createRenderPass.renderPassInfo surfaceFormat))
          (fun vk => api.createRenderPass vk logicalDevice surfaceFormat)) ∧
      (∀ logicalDevice,
        singleCallContract
          (fun vk => vk logicalDevice { setLayouts := [], pushConstantRanges := [] })
          (fun vk => api.createPipelineLayout vk logicalDevice)) ∧
      (∀ logicalDevice graphicsFamily,
        singleCallContract
          (fun vk => vk logicalDevice
            { flags := VK_COMMAND_POOL_CREATE_RESET_COMMAND_BUFFER_BIT,
              queueFamilyIndex := graphicsFamily })
          (fun vk => api.createCommandPool vk logicalDevice graphicsFamily)) ∧
      (∀ logicalDevice commandPool,
        singleCallContract
          (fun vk => vk logicalDevice
            { commandPool := commandPool, level := VK_COMMAND_BUFFER_LEVEL_PRIMARY,
              commandBufferCount := 1 })
          (fun vk => api.createCommandBuffer vk logicalDevice commandPool)) ∧
      (∀ logicalDevice,
        singleCallContract (fun vk => vk logicalDevice { flags := 0 })
          (fun vk => api.createSemaphore vk logicalDevice)) ∧
      (∀ logicalDevice,
        singleCallContract
          (fun vk => vk logicalDevice { flags := VK_FENCE_CREATE_SIGNALED_BIT })
          (fun vk => api.createFence vk logicalDevice)) ∧
      (∀ images vk logicalDevice swapchain surfaceFormat,
        perElementContract (fun n info => vk n logicalDevice info)
          ((images logicalDevice swapchain).map
            (api.createImageViews.viewCreateInfo surfaceFormat))
          (api.createImageViews images vk logicalDevice swapchain surfaceFormat)) ∧
      (∀ vk logicalDevice extents imageViews renderPass,
        perElementContract (fun n info => vk n logicalDevice info)
          (imageViews.map (api.createFramebuffers.framebufferInfo extents renderPass))
          (api.createFramebuffers vk logicalDevice extents imageViews renderPass)) := by
  refine ⟨?_, ?_, ?_, ?_, ?_, ?_, ?_, ?_, ?_, ?_, ?_, ?_⟩
  · intro extensions
    exact singleCallContract_of_eq "failed to create instance!" _ _ (fun _ => rfl)
  · intro drv indeterminate physicalDevice surface
    exact ⟨_, singleCallContract_of_eq "failed to create logical device!" _ _ (fun _ => rfl)⟩
  · intro drv capabilities physicalDevice logicalDevice surface surfaceFormat presentMode
      extents
    exact ⟨_, singleCallContract_of_eq "failed to create swapchain!" _ _ (fun _ => rfl)⟩
  · intro logicalDevice shaderBytecode
    exact singleCallContract_of_eq "failed to create shader module!" _ _ (fun _ => rfl)
  · intro logicalDevice surfaceFormat
    exact singleCallContract_of_eq "failed to create render pass!" _ _ (fun _ => rfl)
  · intro logicalDevice
    exact singleCallContract_of_eq "failed to create pipeline layout!" _ _ (fun _ => rfl)
  · intro logicalDevice graphicsFamily
    exact singleCallContract_of_eq "failed to create command pool!" _ _ (fun _ => rfl)
  · intro logicalDevice commandPool
    exact singleCallContract_of_eq "failed to allocate command buffers!" _ _ (fun _ => rfl)
  · intro logicalDevice
    exact singleCallContract_of_eq "failed to create semaphore!" _ _ (fun _ => rfl)
  · intro logicalDevice
    exact singleCallContract_of_eq "failed to create fence!" _ _ (fun _ => rfl)
  · intro images vk logicalDevice swapchain surfaceFormat
    simp only [api.createImageViews, api.enumerateSwapchainImages, createImageViews_loop_eq]
    exact createEach_contract _ _ _ _
  · intro vk logicalDevice extents imageViews renderPass
    simp only [api.createFramebuffers, createFramebuffers_loop_eq]
    exact createEach_contract _ _ _ _

/-- Witness for C11: with four swapchain images and an entry point whose third call fails,
`createImageViews` makes three calls and throws. -/
theorem C11_creation_functions_throw_iff_failure_witness :
    (api.createImageViews (fun _ _ => [31, 32, 33, 34]) thirdCallFails 2 3 ⟨50, 0⟩).1 =
        (([31, 32, 33, 34] : List Handle).map
          (api.createImageViews.viewCreateInfo ⟨50, 0⟩)).take 3 ∧
      ∃ what,
        (api.createImageViews (fun _ _ => [31, 32, 33, 34]) thirdCallFails 2 3 ⟨50, 0⟩).2 =
          .error what :=
  (C11_creation_functions_throw_iff_failure.2.2.2.2.2.2.2.2.2.2.1
    (fun _ _ => [31, 32, 33, 34]) thirdCallFails 2 3 ⟨50, 0⟩).2.1 2 (by decide) (by decide)
    (fun j _ hjk => by
      simp only [thirdCallFails]
      rw [if_neg (by omega)]
      rfl)

/-- C13: for every surface format, the render pass description that `createRenderPass`
passes to `vkCreateRenderPass` has exactly one attachment and exactly one subpass: the
attachment has the format of the surface format, one sample, load op `CLEAR`, store op
`STORE`, initial layout `UNDEFINED` and final layout `PRESENT_SRC_KHR`; the subpass is a
graphics subpass with exactly one colour attachment reference (attachment 0, layout
`COLOR_ATTACHMENT_OPTIMAL`) and no depth/stencil attachment. -/
theorem C13_createRenderPass_description (surfaceFormat : VkSurfaceFormatKHR) :
    (∀ (vk : Handle → VkRenderPassCreateInfo → Int × Handle) (logicalDevice : Handle),
      api.createRenderPass vk logicalDevice surfaceFormat =
        throwUnlessSuccess "failed to create render pass!"
          (vk logicalDevice (api.createRenderPass.renderPassInfo surfaceFormat))) ∧
      (api.createRenderPass.renderPassInfo surfaceFormat).attachments.length = 1 ∧
      (api.createRenderPass.renderPassInfo surfaceFormat).subpasses.length = 1 ∧
      (api.createRenderPass.renderPassInfo surfaceFormat).attachments =
        [{ flags := 0
           format := surfaceFormat.format
           samples := 1
           loadOp := VK_ATTACHMENT_LOAD_OP_CLEAR
           storeOp := VK_ATTACHMENT_STORE_OP_STORE
           stencilLoadOp := VK_ATTACHMENT_LOAD_OP_DONT_CARE
           stencilStoreOp := VK_ATTACHMENT_STORE_OP_DONT_CARE
           initialLayout := VK_IMAGE_LAYOUT_UNDEFINED
           finalLayout := VK_IMAGE_LAYOUT_PRESENT_SRC_KHR }] ∧
      (api.createRenderPass.renderPassInfo surfaceFormat).subpasses =
        [{ flags := 0
           pipelineBindPoint := VK_PIPELINE_BIND_POINT_GRAPHICS
           inputAttachments := []
           colorAttachments :=
             [{ attachment := 0, layout := VK_IMAGE_LAYOUT_COLOR_ATTACHMENT_OPTIMAL }]
           resolveAttachments := []
           depthStencilAttachment := none
           preserveAttachments := [] }] :=
  ⟨fun _ _ => rfl, rfl, rfl, rfl, rfl⟩

/-- C14: for every input, the graphics pipeline description that `createPipeline` passes
to `vkCreateGraphicsPipelines` (once its pipeline layout is created) has exactly two
shader stages, vertex then fragment, on the given modules with entry point "main"; zero
vertex binding and zero vertex attribute descriptions; triangle-list topology without
primitive restart; no depth-stencil state; one colour-blend attachment with blending
disabled and all four colour components written; subpass 0 of the given render pass; and
exactly the two dynamic states `VIEWPORT` and `SCISSOR`.  The description does not depend
on the surface format or the device. -/
theorem C14_createPipeline_description (extents : VkExtent2D)
    (renderPass vertShaderModule fragShaderModule : Handle) :
    (∀ (vkLayout : Handle → VkPipelineLayoutCreateInfo → Int × Handle)
        (vkPipelines : Handle → Handle → List VkGraphicsPipelineCreateInfo → Int × Handle)
        (logicalDevice : Handle) (surfaceFormat : VkSurfaceFormatKHR),
      api.createPipeline vkLayout vkPipelines logicalDevice surfaceFormat extents renderPass
          vertShaderModule fragShaderModule =
        match api.createPipelineLayout vkLayout logicalDevice with
        | .error what => .error what
        | .ok pipelineLayout =>
          throwUnlessSuccess "failed to create graphics pipeline!"
            (vkPipelines logicalDevice VK_NULL_HANDLE
              [api.createPipeline.pipelineInfo extents renderPass vertShaderModule
                fragShaderModule pipelineLayout])) ∧
      (∀ pipelineLayout : Handle,
        (api.createPipeline.pipelineInfo extents renderPass vertShaderModule
            fragShaderModule pipelineLayout).stages =
          [ { stage := VK_SHADER_STAGE_VERTEX_BIT, module := vertShaderModule,
              name := "main" },
            { stage := VK_SHADER_STAGE_FRAGMENT_BIT, module := fragShaderModule,
              name := "main" } ] ∧
        (api.createPipeline.pipelineInfo extents renderPass vertShaderModule
            fragShaderModule pipelineLayout).vertexInputState =
          some { vertexBindingDescriptionCount := 0, vertexAttributeDescriptionCount := 0 } ∧
        (api.createPipeline.pipelineInfo extents renderPass vertShaderModule
            fragShaderModule pipelineLayout).inputAssemblyState =
          some { topology := VK_PRIMITIVE_TOPOLOGY_TRIANGLE_LIST,
                 primitiveRestartEnable := VK_FALSE } ∧
        (api.createPipeline.pipelineInfo extents renderPass vertShaderModule
            fragShaderModule pipelineLayout).depthStencilState = none ∧
        (∃ blend attachment,
          (api.createPipeline.pipelineInfo extents renderPass vertShaderModule
              fragShaderModule pipelineLayout).colorBlendState = some blend ∧
            blend.attachments = [attachment] ∧
            attachment.blendEnable = VK_FALSE ∧
            attachment.colorWriteMask = 15 ∧
            attachment.colorWriteMask &&& VK_COLOR_COMPONENT_R_BIT ≠ 0 ∧
            attachment.colorWriteMask &&& VK_COLOR_COMPONENT_G_BIT ≠ 0 ∧
            attachment.colorWriteMask &&& VK_COLOR_COMPONENT_B_BIT ≠ 0 ∧
            attachment.colorWriteMask &&& VK_COLOR_COMPONENT_A_BIT ≠ 0) ∧
        (api.createPipeline.pipelineInfo extents renderPass vertShaderModule
            fragShaderModule pipelineLayout).renderPass = renderPass ∧
        (api.createPipeline.pipelineInfo extents renderPass vertShaderModule
            fragShaderModule pipelineLayout).subpass = 0 ∧
        (api.createPipeline.pipelineInfo extents renderPass vertShaderModule
            fragShaderModule pipelineLayout).layout = pipelineLayout ∧
        (api.createPipeline.pipelineInfo extents renderPass vertShaderModule
            fragShaderModule pipelineLayout).dynamicState =
          some { dynamicStates := [VK_DYNAMIC_STATE_VIEWPORT, VK_DYNAMIC_STATE_SCISSOR] }) := by
  refine ⟨?_, ?_⟩
  · intro vkLayout vkPipelines logicalDevice surfaceFormat
    unfold api.createPipeline
    cases api.createPipelineLayout vkLayout logicalDevice <;> rfl
  · intro pipelineLayout
    refine ⟨rfl, rfl, rfl, rfl, ⟨_, _, rfl, rfl, rfl, by decide, by decide, by decide,
      by decide, by decide⟩, rfl, rfl, rfl, rfl⟩

/-! ### The whole of `main` -/

/-- A sequence that ends with a value ran both of its parts to a value. -/
theorem outcome_bind_eq_ok {α β : Type} (x : Outcome α) (f : α → Outcome β) (b : β)
    (h : (x >>= f) = .ok b) : ∃ a, x = .ok a ∧ f a = .ok b := by
  cases x with
  | ok a => exact ⟨a, rfl, h⟩
  | thrown what => exact absurd h (by simp [bind, Outcome.bind])
  | undefined => exact absurd h (by simp [bind, Outcome.bind])

/-- A creation function whose outcome is a value returned that value. -/
theorem outcome_ofExcept_eq_ok {α : Type} (e : Except String α) (a : α)
    (h : Outcome.ofExcept e = .ok a) : e = .ok a := by
  cases e with
  | ok v => simpa [Outcome.ofExcept] using h
  | error what => exact absurd h (by simp [Outcome.ofExcept])

/-- The image views that `main` holds are the vector returned by `createImageViews` on the
device, swapchain and surface format that `main` holds. -/
theorem createDeviceObjects_imageViews (env : Environment) (d : main.DeviceObjects)
    (h : main.createDeviceObjects env = .ok d) :
    (api.createImageViews env.vkGetSwapchainImagesKHR env.vkCreateImageView d.logicalDevice
      d.swapchain d.surfaceFormat).2 = .ok d.imageViews := by
  unfold main.createDeviceObjects at h
  obtain ⟨vulkanInstance, -, h⟩ := outcome_bind_eq_ok _ _ _ h
  obtain ⟨physicalDevice, -, h⟩ := outcome_bind_eq_ok _ _ _ h
  obtain ⟨logicalDevice, -, h⟩ := outcome_bind_eq_ok _ _ _ h
  obtain ⟨surfaceFormat, -, h⟩ := outcome_bind_eq_ok _ _ _ h
  obtain ⟨extents, -, h⟩ := outcome_bind_eq_ok _ _ _ h
  obtain ⟨swapchain, -, h⟩ := outcome_bind_eq_ok _ _ _ h
  obtain ⟨imageViews, hviews, h⟩ := outcome_bind_eq_ok _ _ _ h
  have hd : d = _ := (Outcome.ok.inj h).symm
  subst hd
  exact outcome_ofExcept_eq_ok _ _ hviews

/-- When every call succeeds and the running index does not wrap, `createEach` returns the
handles written by its calls, in the order of the calls. -/
theorem createEach_handles {Info : Type} (what : String) (create : Nat → Info → Int × Handle)
    (infos : List Info) (callNumber index : Nat) (done : List Handle) (calls : List Info)
    (hdone : done.length = index) (hbound : index + infos.length < UINT32_RANGE)
    (hall : ∀ k (hk : k < infos.length),
      (create (callNumber + k) (infos.get ⟨k, hk⟩)).1 = VK_SUCCESS) :
    createEach what create infos callNumber index
        (done ++ List.replicate infos.length VK_NULL_HANDLE) calls =
      (calls ++ infos, .ok (done ++ handlesFrom create callNumber infos)) := by
  induction infos generalizing callNumber index done calls with
  | nil => simp [createEach, handlesFrom]
  | cons info rest ih =>
    have h0 : (create callNumber info).1 = VK_SUCCESS := by
      simpa using hall 0 (Nat.succ_pos _)
    have hrest : ∀ k (hk : k < rest.length),
        (create (callNumber + 1 + k) (rest.get ⟨k, hk⟩)).1 = VK_SUCCESS := by
      intro k hk
      have := hall (k + 1) (by simpa using hk)
      have he : callNumber + (k + 1) = callNumber + 1 + k := by omega
      rw [he] at this
      simpa using this
    have hlen : (info :: rest).length = rest.length + 1 := rfl
    have hstep : (index + 1) % UINT32_RANGE = index + 1 := Nat.mod_eq_of_lt (by omega)
    have hset : (done ++ List.replicate (rest.length + 1) VK_NULL_HANDLE).set index
        (create callNumber info).2 =
        (done ++ [(create callNumber info).2]) ++ List.replicate rest.length VK_NULL_HANDLE := by
      rw [List.set_append_right index _ (Nat.le_of_eq hdone), hdone, Nat.sub_self,
        List.replicate_succ, List.set_cons_zero]
      simp
    have := ih (callNumber + 1) (index + 1) (done ++ [(create callNumber info).2])
      (calls ++ [info]) (by simp [hdone]) (by omega) hrest
    simp only [List.append_assoc, List.singleton_append] at this hset
    simp only [createEach, h0, ne_eq, not_true_eq_false, if_false, hlen, hstep, hset,
      handlesFrom]
    exact this

/-- The loop over the image views appends one `vkDestroyImageView` for each view, in the
order of the vector. -/
theorem teardown_loop_eq (logicalDevice : Handle) (views : List Handle)
    (calls : List DestroyCall) :
    main.teardown.loop logicalDevice views calls =
      calls ++ views.map (fun view => DestroyCall.vkDestroyImageView logicalDevice view) := by
  induction views generalizing calls with
  | nil => simp [main.teardown.loop]
  | cons view rest ih => simp [main.teardown.loop, ih]

/-- A run of `main` returns exactly when the creation part succeeds and the frame loop is
left because the window should close; it then returns 0 after the calls of
`main.teardown`. -/
theorem run_returned (env : Environment) (code : Int)
    (h : (main.run env).exit = .returned code) :
    code = 0 ∧ ∃ r, main.setup env = .ok r ∧
      (main.frameLoop r.context none env.steps).2 = .closed ∧
      (main.run env).destroyCalls = main.teardown r := by
  unfold main.run at h ⊢
  cases hsetup : main.setup env with
  | thrown what => simp [hsetup] at h
  | undefined => simp [hsetup] at h
  | ok r =>
    simp only [hsetup] at h ⊢
    rcases hloop : main.frameLoop r.context none env.steps with ⟨calls, exit⟩
    cases exit with
    | closed =>
      simp only [hloop] at h
      refine ⟨(MainExit.returned.inj h).symm, r, rfl, by rw [hloop], ?_⟩
      simp only [hloop]
    | thrown what => simp [hloop] at h
    | undefined => simp [hloop] at h
    | running => simp [hloop] at h

/-- When `createImageViews` returns and the swapchain has fewer than `2 ^ 32` images, the
vector it returns holds the handles written by its calls, in the order of the calls. -/
theorem createImageViews_returns_handles
    (images : Handle → Handle → List Handle)
    (vk : Nat → Handle → VkImageViewCreateInfo → Int × Handle)
    (logicalDevice swapchain : Handle) (surfaceFormat : VkSurfaceFormatKHR)
    (views : List Handle)
    (hok : (api.createImageViews images vk logicalDevice swapchain surfaceFormat).2 =
      .ok views)
    (hcount : (images logicalDevice swapchain).length < UINT32_RANGE) :
    views = handlesFrom (fun n info => vk n logicalDevice info) 0
      ((images logicalDevice swapchain).map
        (api.createImageViews.viewCreateInfo surfaceFormat)) := by
  simp only [api.createImageViews, api.enumerateSwapchainImages,
    createImageViews_loop_eq] at hok
  have hcontract := createEach_contract "failed to create image view!"
    (fun n info => vk n logicalDevice info)
    ((images logicalDevice swapchain).map (api.createImageViews.viewCreateInfo surfaceFormat))
    (List.replicate (images logicalDevice swapchain).length VK_NULL_HANDLE)
  have hall : ∀ k (hk : k < ((images logicalDevice swapchain).map
      (api.createImageViews.viewCreateInfo surfaceFormat)).length),
      ((fun n info => vk n logicalDevice info) (0 + k)
        (((images logicalDevice swapchain).map
          (api.createImageViews.viewCreateInfo surfaceFormat)).get ⟨k, hk⟩)).1 =
        VK_SUCCESS := by
    intro k hk
    by_contra hne
    obtain ⟨w, hw⟩ := hcontract.1.mpr ⟨k, hk, by simpa using hne⟩
    rw [hok] at hw
    exact absurd hw (by simp)
  have hhandles := createEach_handles "failed to create image view!"
    (fun n info => vk n logicalDevice info)
    ((images logicalDevice swapchain).map (api.createImageViews.viewCreateInfo surfaceFormat))
    0 0 [] [] rfl (by simpa using hcount) hall
  simp only [List.length_map, List.nil_append] at hhandles
  rw [hhandles] at hok
  exact (Except.ok.inj hok).symm

/-- C12: on every run of `main` that leaves the frame loop normally, `main` returns 0 and
the sequence of destroy calls is exactly: `vkDestroyImageView` once for each image view
returned by `createImageViews`, in the order of creation, then `vkDestroySwapchainKHR`,
`vkDestroyDevice`, `vkDestroyInstance`, `glfwDestroyWindow`, `glfwTerminate`; no call
destroys a pipeline, a shader module, a framebuffer, a command pool, a semaphore, a fence
or a render pass. -/
theorem C12_main_destroy_sequence (env : Environment) (r : main.Resources)
    (hsetup : main.setup env = .ok r)
    (hclosed : (main.frameLoop r.context none env.steps).2 = .closed) :
    (main.run env).exit = .returned 0 ∧
      (main.run env).destroyCalls =
        r.device.imageViews.map
            (fun view => DestroyCall.vkDestroyImageView r.device.logicalDevice view) ++
          [ .vkDestroySwapchainKHR r.device.logicalDevice r.device.swapchain,
            .vkDestroyDevice r.device.logicalDevice,
            .vkDestroyInstance r.device.vulkanInstance,
            .glfwDestroyWindow r.device.window,
            .glfwTerminate ] ∧
      (∀ d ∈ (main.run env).destroyCalls, d.destroysLeakedKind = false) ∧
      (api.createImageViews env.vkGetSwapchainImagesKHR env.vkCreateImageView
        r.device.logicalDevice r.device.swapchain r.device.surfaceFormat).2 =
        .ok r.device.imageViews ∧
      ((env.vkGetSwapchainImagesKHR r.device.logicalDevice r.device.swapchain).length <
          UINT32_RANGE →
        r.device.imageViews =
          handlesFrom (fun n info => env.vkCreateImageView n r.device.logicalDevice info) 0
            ((env.vkGetSwapchainImagesKHR r.device.logicalDevice r.device.swapchain).map
              (api.createImageViews.viewCreateInfo r.device.surfaceFormat))) := by
  have hrun : main.run env =
      { frameCalls := (main.frameLoop r.context none env.steps).1
        destroyCalls := main.teardown r
        exit := .returned 0 } := by
    unfold main.run
    rw [hsetup]
    rcases hloop : main.frameLoop r.context none env.steps with ⟨calls, exit⟩
    rw [hloop] at hclosed
    simp only at hclosed
    subst hclosed
    simp only [hloop]
  have hteardown : main.teardown r =
      r.device.imageViews.map
          (fun view => DestroyCall.vkDestroyImageView r.device.logicalDevice view) ++
        [ .vkDestroySwapchainKHR r.device.logicalDevice r.device.swapchain,
          .vkDestroyDevice r.device.logicalDevice,
          .vkDestroyInstance r.device.vulkanInstance,
          .glfwDestroyWindow r.device.window,
          .glfwTerminate ] := by
    simp only [main.teardown, teardown_loop_eq, List.nil_append]
  have hviews : (api.createImageViews env.vkGetSwapchainImagesKHR env.vkCreateImageView
      r.device.logicalDevice r.device.swapchain r.device.surfaceFormat).2 =
      .ok r.device.imageViews := by
    unfold main.setup at hsetup
    obtain ⟨device, hdevice, hsetup⟩ := outcome_bind_eq_ok _ _ _ hsetup
    obtain ⟨pipeline, -, hsetup⟩ := outcome_bind_eq_ok _ _ _ hsetup
    obtain ⟨sync, -, hsetup⟩ := outcome_bind_eq_ok _ _ _ hsetup
    have hr : r = _ := (Outcome.ok.inj hsetup).symm
    subst hr
    exact createDeviceObjects_imageViews env device hdevice
  refine ⟨by rw [hrun], by rw [hrun]; exact hteardown, ?_, hviews, ?_⟩
  · intro d hd
    rw [hrun] at hd
    simp only [hteardown, List.mem_append, List.mem_map, List.mem_cons, List.mem_singleton,
      List.not_mem_nil, or_false] at hd
    rcases hd with ⟨view, -, rfl⟩ | rfl | rfl | rfl | rfl | rfl <;> rfl
  · intro hcount
    exact createImageViews_returns_handles _ _ _ _ _ _ hviews hcount

/-- Witness for C12: in `sampleEnvironment` every creation succeeds and the window closes
after two frames; the three image views 60, 61, 62 are destroyed in this order, then the
swapchain, the device, the instance and the window. -/
theorem C12_main_destroy_sequence_witness :
    (main.run sampleEnvironment).exit = .returned 0 ∧
      (main.run sampleEnvironment).destroyCalls =
        [ .vkDestroyImageView 4 60, .vkDestroyImageView 4 61, .vkDestroyImageView 4 62,
          .vkDestroySwapchainKHR 4 5, .vkDestroyDevice 4, .vkDestroyInstance 2,
          .glfwDestroyWindow 1, .glfwTerminate ] := by
  obtain ⟨hexit, hcalls, -⟩ := C12_main_destroy_sequence sampleEnvironment sampleResources
    (by decide) (by decide)
  exact ⟨hexit, hcalls⟩

/-! ### The frame loop: one frame in flight, one semaphore pair -/

/-- A `createFence` that returns a fence called `vkCreateFence` on a create info with
`VK_FENCE_CREATE_SIGNALED_BIT`, which answered `VK_SUCCESS` and wrote that fence. -/
theorem createFence_ok (vkCreateFence : Handle → VkFenceCreateInfo → Int × Handle)
    (logicalDevice fence : Handle)
    (h : api.createFence vkCreateFence logicalDevice = .ok fence) :
    vkCreateFence logicalDevice { flags := VK_FENCE_CREATE_SIGNALED_BIT } =
      (VK_SUCCESS, fence) := by
  have e : api.createFence vkCreateFence logicalDevice =
      throwUnlessSuccess "failed to create fence!"
        (vkCreateFence logicalDevice { flags := VK_FENCE_CREATE_SIGNALED_BIT }) := rfl
  rw [e] at h
  unfold throwUnlessSuccess at h
  split_ifs at h with hcode
  · exact Prod.ext (not_not.mp hcode) (Except.ok.inj h)

/-- A `createSemaphore` that returns a semaphore called `vkCreateSemaphore`, which
answered `VK_SUCCESS` and wrote that semaphore. -/
theorem createSemaphore_ok (vkCreateSemaphore : Handle → VkSemaphoreCreateInfo → Int × Handle)
    (logicalDevice semaphore : Handle)
    (h : api.createSemaphore vkCreateSemaphore logicalDevice = .ok semaphore) :
    vkCreateSemaphore logicalDevice { flags := 0 } = (VK_SUCCESS, semaphore) := by
  have e : api.createSemaphore vkCreateSemaphore logicalDevice =
      throwUnlessSuccess "failed to create semaphore!"
        (vkCreateSemaphore logicalDevice { flags := 0 }) := rfl
  rw [e] at h
  unfold throwUnlessSuccess at h
  split_ifs at h with hcode
  · exact Prod.ext (not_not.mp hcode) (Except.ok.inj h)

/-- The synchronisation objects that `main` holds when it enters the loop are the handles
returned by its two `createSemaphore` calls and by `createFence` on its logical device. -/
theorem setup_sync_objects (env : Environment) (r : main.Resources)
    (h : main.setup env = .ok r) :
    api.createSemaphore (env.vkCreateSemaphore 0) r.device.logicalDevice =
        .ok r.sync.imageAvailableSemaphore ∧
      api.createSemaphore (env.vkCreateSemaphore 1) r.device.logicalDevice =
        .ok r.sync.renderFinishedSemaphore ∧
      api.createFence env.vkCreateFence r.device.logicalDevice =
        .ok r.sync.inFlightFence := by
  unfold main.setup at h
  obtain ⟨device, -, h⟩ := outcome_bind_eq_ok _ _ _ h
  obtain ⟨pipeline, -, h⟩ := outcome_bind_eq_ok _ _ _ h
  obtain ⟨sync, hsync, h⟩ := outcome_bind_eq_ok _ _ _ h
  have hr : r = _ := (Outcome.ok.inj h).symm
  subst hr
  unfold main.createSyncObjects at hsync
  obtain ⟨s1, h1, hsync⟩ := outcome_bind_eq_ok _ _ _ hsync
  obtain ⟨s2, h2, hsync⟩ := outcome_bind_eq_ok _ _ _ hsync
  obtain ⟨f, h3, hsync⟩ := outcome_bind_eq_ok _ _ _ hsync
  have hs : sync = _ := (Outcome.ok.inj hsync).symm
  subst hs
  exact ⟨outcome_ofExcept_eq_ok _ _ h1, outcome_ofExcept_eq_ok _ _ h2,
    outcome_ofExcept_eq_ok _ _ h3⟩

/-- An iteration that does not run to its end made fewer calls than the fixed order has. -/
theorem frameIteration_stopped_length (c : FrameContext) (imageIndex : Option Nat)
    (r : FrameResponses)
    (hnot : ∀ index, (main.frameIteration c imageIndex r).2 ≠ .completed index) :
    (main.frameIteration c imageIndex r).1.length < 15 := by
  by_cases hacq : ∃ i f, main.acquired c imageIndex r i f
  · obtain ⟨i, f, hacq⟩ := hacq
    have hfull := frameIteration_of_acquired c imageIndex r i f hacq
    rw [hfull] at hnot ⊢
    split_ifs at hnot ⊢
    · simp [specFrameCalls]
    · simp [specFrameCalls]
    · simp [specFrameCalls]
    · exact absurd rfl (hnot i)
  · rw [frameIteration_of_not_acquired c imageIndex r hacq]
    simp [specFrameCalls]

/-- The calls of an iteration are an initial segment of the fixed order on the image index
that `imageIndex` holds after the acquisition. -/
theorem frameIteration_initial_segment_of_index (c : FrameContext) (imageIndex : Option Nat)
    (r : FrameResponses) (index : Nat)
    (h : r.acquiredImageIndex = some index ∨
      (r.acquiredImageIndex = none ∧ imageIndex = some index)) :
    ∃ framebuffer,
      (main.frameIteration c imageIndex r).1 <+: specFrameCalls c index framebuffer := by
  cases hfb : c.framebuffers.get? index with
  | some fb =>
    refine ⟨fb, ?_⟩
    rw [frameIteration_of_acquired c imageIndex r index fb ⟨h, hfb⟩]
    split_ifs
    · exact List.take_prefix _ _
    · exact List.take_prefix _ _
    · exact List.take_prefix _ _
    · exact List.prefix_refl _
  | none =>
    refine ⟨0, ?_⟩
    have hstop : main.frameIteration c imageIndex r =
        ((specFrameCalls c 0 0).take 5, .undefined) := by
      apply frameIteration_of_not_acquired
      rintro ⟨i, f, hi, hf⟩
      have hidx : i = index := by
        rcases h with h | ⟨h, hprev⟩ <;> rcases hi with hi | ⟨hi, hiprev⟩
        · rw [h] at hi; exact (Option.some.inj hi).symm
        · rw [h] at hi; exact absurd hi (by simp)
        · rw [h] at hi; exact absurd hi (by simp)
        · rw [hprev] at hiprev; exact (Option.some.inj hiprev).symm
      subst hidx
      rw [hfb] at hf
      exact absurd hf (by simp)
    rw [hstop]
    exact ⟨(specFrameCalls c index 0).drop 5, rfl⟩

/-- The only presentation of the fixed order passes the one image index of the order. -/
theorem specFrameCalls_presented (c : FrameContext) (index : Nat) (framebuffer : Handle)
    (x : Call) (indices : List Nat) (hx : x ∈ specFrameCalls c index framebuffer)
    (hind : x.presentedIndices = some indices) : indices = [index] := by
  simp only [specFrameCalls, List.mem_cons, List.mem_singleton, List.not_mem_nil,
    or_false] at hx
  rcases hx with rfl | rfl | rfl | rfl | rfl | rfl | rfl | rfl | rfl | rfl | rfl | rfl |
    rfl | rfl | rfl <;>
    simp [Call.presentedIndices] at hind
  exact hind.symm

/-- C9 (counterexample): an iteration of `sampleContext` that acquires image 1 and in which
`vkEndCommandBuffer` fails throws after thirteen calls.  It makes no queue submission and
no presentation, so its calls are not the fixed order of the specification, whatever the
image index and framebuffer. -/
theorem C9_frame_loop_iteration_stops_at_throw :
    (main.frameIteration sampleContext none endFailureResponses).2 =
        .thrown "failed to record command buffer!" ∧
      (main.frameIteration sampleContext none endFailureResponses).1 =
        (specFrameCalls sampleContext 1 21).take 13 ∧
      (∀ x ∈ (main.frameIteration sampleContext none endFailureResponses).1,
        x.submitsWith sampleContext.inFlightFence = false ∧ x.presentedIndices = none) ∧
      ¬ ∃ index framebuffer,
        (main.frameIteration sampleContext none endFailureResponses).1 =
          specFrameCalls sampleContext index framebuffer := by
  refine ⟨by decide, by decide, by decide, ?_⟩
  rintro ⟨index, framebuffer, h⟩
  have hlen := congrArg List.length h
  have h13 : (main.frameIteration sampleContext none endFailureResponses).1.length = 13 := by
    decide
  rw [h13] at hlen
  simp [specFrameCalls] at hlen

/-- C9 (amended): the frame loop keeps one frame in flight, guarded by one fence.
(1) `createFence` calls `vkCreateFence` on a create info whose flags are
`VK_FENCE_CREATE_SIGNALED_BIT` and returns the fence that call wrote; the fence that the
loop of `main` waits on is the fence so created; a fence created with that bit starts
signaled.  (2) Every iteration that runs to its end makes exactly the calls of the fixed
order poll, wait(fence), reset(fence), acquire, reset command buffer, begin, record, end,
submit with the fence, present; an iteration with a valid image index and three successful
checks does run to its end; every other iteration makes a proper initial segment of that
order; the trace of the loop is the loop test and the calls of each iteration, one
iteration after the other.  (3) In the trace of any number of iterations, at every call at most one submission
is outstanding, none is outstanding at a reset or record of the command buffer, every wait
finds the fence signaled or about to be signaled, and the first wait finds it signaled.
(4) Consequently a wait on the fence lies between any submission and any later reset or
record of the command buffer, and at most one submission is outstanding at the end of the
trace. -/
theorem C9_frame_loop_single_frame_in_flight (c : FrameContext) :
    ((∀ (vkCreateFence : Handle → VkFenceCreateInfo → Int × Handle) (logicalDevice : Handle),
          api.createFence vkCreateFence logicalDevice =
            throwUnlessSuccess "failed to create fence!"
              (vkCreateFence logicalDevice { flags := VK_FENCE_CREATE_SIGNALED_BIT })) ∧
        (∀ env r, main.setup env = .ok r →
          env.vkCreateFence r.context.logicalDevice
              { flags := VK_FENCE_CREATE_SIGNALED_BIT } =
            (VK_SUCCESS, r.context.inFlightFence)) ∧
        FenceState.created { flags := VK_FENCE_CREATE_SIGNALED_BIT } = FenceState.signaled ∧
        SyncState.initial.fence = FenceState.signaled) ∧
      (∀ imageIndex r index, (main.frameIteration c imageIndex r).2 = .completed index →
        ∃ framebuffer, c.framebuffers.get? index = some framebuffer ∧
          (main.frameIteration c imageIndex r).1 = specFrameCalls c index framebuffer) ∧
      (∀ imageIndex r index framebuffer, main.acquired c imageIndex r index framebuffer →
        r.beginCommandBuffer = VK_SUCCESS → r.endCommandBuffer = VK_SUCCESS →
        r.queueSubmit = VK_SUCCESS →
        main.frameIteration c imageIndex r =
          (specFrameCalls c index framebuffer, .completed index)) ∧
      (∀ imageIndex r, ∃ index framebuffer,
        (main.frameIteration c imageIndex r).1 <+: specFrameCalls c index framebuffer) ∧
      (∀ imageIndex r,
        (∀ index, (main.frameIteration c imageIndex r).2 ≠ .completed index) →
        ∀ index framebuffer,
          (main.frameIteration c imageIndex r).1 ≠ specFrameCalls c index framebuffer) ∧
      (∀ imageIndex step rest index, step.shouldClose = false →
        (main.frameIteration c imageIndex step.responses).2 = .completed index →
        (main.frameLoop c imageIndex (step :: rest)).1 =
          .glfwWindowShouldClose c.window ::
            ((main.frameIteration c imageIndex step.responses).1 ++
              (main.frameLoop c (some index) rest).1)) ∧
      (∀ steps pre x post, (main.frameLoop c none steps).1 = pre ++ x :: post →
        (SyncState.initial.after c pre).outstanding ≤ 1 ∧
        (x.recordsInto c.commandBuffer = true →
          (SyncState.initial.after c pre).outstanding = 0) ∧
        (x.waitsOn c.inFlightFence = true →
          (SyncState.initial.after c pre).fence ≠ FenceState.unsignaled) ∧
        (x.waitsOn c.inFlightFence = true → (SyncState.initial.after c pre).waited = false →
          (SyncState.initial.after c pre).fence = FenceState.signaled)) ∧
      (∀ steps pre submit mid x post,
        (main.frameLoop c none steps).1 = pre ++ submit :: (mid ++ x :: post) →
        submit.submitsWith c.inFlightFence = true → x.recordsInto c.commandBuffer = true →
        ∃ w ∈ mid, w.waitsOn c.inFlightFence = true) ∧
      (∀ steps, (SyncState.initial.after c (main.frameLoop c none steps).1).outstanding ≤ 1) := by
  have hinit : SyncState.initial = { fence := .signaled, outstanding := 0, waited := false } := by
    decide
  have hhead : SyncState.initial.atLoopHead := Or.inl hinit
  refine ⟨⟨fun _ _ => rfl, ?_, by decide, by rw [hinit]⟩, ?_, ?_, ?_, ?_, ?_, ?_, ?_, ?_⟩
  · intro env r hsetup
    exact createFence_ok env.vkCreateFence r.device.logicalDevice r.sync.inFlightFence
      (setup_sync_objects env r hsetup).2.2
  · intro imageIndex r index h
    obtain ⟨fb, hfb, hcalls, -⟩ := frameIteration_completed c imageIndex r index h
    exact ⟨fb, hfb, hcalls⟩
  · intro imageIndex r index framebuffer hacq hbegin hend hsubmit
    rw [frameIteration_of_acquired c imageIndex r index framebuffer hacq,
      if_neg (not_not.mpr hbegin), if_neg (not_not.mpr hend), if_neg (not_not.mpr hsubmit)]
  · exact fun imageIndex r => frameIteration_initial_segment c imageIndex r
  · intro imageIndex r hnot index framebuffer heq
    have hlen := frameIteration_stopped_length c imageIndex r hnot
    rw [heq] at hlen
    simp [specFrameCalls] at hlen
  · intro imageIndex step rest index hopen hdone
    rw [frameLoop_completed c imageIndex step rest
      (main.frameIteration c imageIndex step.responses).1 index hopen (Prod.ext rfl hdone)]
    rfl
  · intro steps pre x post htrace
    have hall := frameLoop_admitsAll c steps none SyncState.initial hhead
    rw [htrace] at hall
    exact admits_of_admitsAll c SyncState.initial pre post x hall
  · intro steps pre submit mid x post htrace hsubmit hrecord
    by_contra hnone
    have hmid : ∀ w ∈ mid, w.waitsOn c.inFlightFence = false := by
      intro w hw
      cases hwait : w.waitsOn c.inFlightFence with
      | false => rfl
      | true => exact absurd ⟨w, hw, hwait⟩ hnone
    have hall := frameLoop_admitsAll c steps none SyncState.initial hhead
    have hsplit : (main.frameLoop c none steps).1 = (pre ++ submit :: mid) ++ x :: post := by
      rw [htrace]; simp
    rw [hsplit] at hall
    have hzero := (admits_of_admitsAll c SyncState.initial _ post x hall).2.1 hrecord
    have hstate : SyncState.initial.after c (pre ++ submit :: mid) =
        ((SyncState.initial.after c pre).step c submit).after c mid := by
      rw [syncAfter_append]; rfl
    rw [hstate] at hzero
    have h1 := step_outstanding_of_submit c (SyncState.initial.after c pre) submit hsubmit
    have h2 := after_outstanding_of_no_wait c
      ((SyncState.initial.after c pre).step c submit) mid hmid
    omega
  · intro steps
    exact outstanding_le_of_admitsAll c SyncState.initial _
      (frameLoop_admitsAll c steps none SyncState.initial hhead)

/-- Witness for C9 on `sampleRun` and `sampleEnvironment`: the fence of `main` is the one
`vkCreateFence` wrote for a create info with the signaled bit; the second iteration resets
the command buffer after the submission of the first iteration, with a wait on the fence
in between and no submission outstanding at the reset. -/
theorem C9_frame_loop_single_frame_in_flight_witness :
    sampleEnvironment.vkCreateFence 4 { flags := VK_FENCE_CREATE_SIGNALED_BIT } =
        (VK_SUCCESS, 11) ∧
      (main.frameLoop sampleContext none sampleRun).2 = LoopExit.closed ∧
      (∃ w ∈ ((main.frameLoop sampleContext none sampleRun).1.drop 15).take 6,
        w.waitsOn sampleContext.inFlightFence = true) ∧
      (SyncState.initial.after sampleContext
        ((main.frameLoop sampleContext none sampleRun).1.take 21)).outstanding = 0 := by
  have h := C9_frame_loop_single_frame_in_flight sampleContext
  refine ⟨?_, by decide, ?_, ?_⟩
  · exact h.1.2.1 sampleEnvironment sampleResources (by decide)
  · exact h.2.2.2.2.2.2.2.1 sampleRun
      ((main.frameLoop sampleContext none sampleRun).1.take 14)
      (.vkQueueSubmit 4 [main.submitInfo sampleContext] 11)
      (((main.frameLoop sampleContext none sampleRun).1.drop 15).take 6)
      (.vkResetCommandBuffer 8 0)
      ((main.frameLoop sampleContext none sampleRun).1.drop 22)
      (by decide) (by decide) (by decide)
  · exact (h.2.2.2.2.2.2.1 sampleRun
      ((main.frameLoop sampleContext none sampleRun).1.take 21)
      (.vkResetCommandBuffer 8 0)
      ((main.frameLoop sampleContext none sampleRun).1.drop 22)
      (by decide)).2.1 (by decide)

/-- C10 (counterexample): in `sampleContext`, with `imageIndex` holding 2 from an earlier
iteration, an iteration whose `vkAcquireNextImageKHR` fails and writes nothing runs to its
end and presents image index 2; in the run `staleRun` both presentations pass index 2.  The
index presented by that iteration was not written by the acquisition of the same
iteration. -/
theorem C10_frame_loop_presents_stale_index :
    acquireFailureResponses.acquiredImageIndex = none ∧
      (main.frameIteration sampleContext (some 2) acquireFailureResponses).2 =
        .completed 2 ∧
      (main.frameIteration sampleContext (some 2) acquireFailureResponses).1.filterMap
        Call.presentedIndices = [[2]] ∧
      (main.frameLoop sampleContext none staleRun).2 = .closed ∧
      (main.frameLoop sampleContext none staleRun).1.filterMap Call.presentedIndices =
        [[2], [2]] ∧
      ¬ ∃ written, acquireFailureResponses.acquiredImageIndex = some written ∧
        (main.frameIteration sampleContext (some 2) acquireFailureResponses).1.filterMap
          Call.presentedIndices = [[written]] := by
  refine ⟨rfl, by decide, by decide, by decide, by decide, ?_⟩
  rintro ⟨written, hw, -⟩
  simp [acquireFailureResponses] at hw

/-- C10 (amended): the frame loop is synchronised by one semaphore pair chained
acquire, submit, present.  (1) In every iteration each image acquisition signals
`imageAvailableSemaphore`, each queue submission has exactly one submit info whose only
wait semaphore is `imageAvailableSemaphore`, waited at the colour-attachment-output stage,
and whose only signal semaphore is `renderFinishedSemaphore`, and each presentation waits
on `renderFinishedSemaphore` only.  (2) An iteration that runs to its end makes exactly one
acquisition, one submission and one presentation, in this order.  (3) In every iteration
whose acquisition writes an image index, every presentation passes exactly that index, the
index left in `imageIndex` is that index, and when that index is valid and the three
checked calls succeed the iteration runs to its end and makes exactly one presentation, of
that index.  (4) In an iteration whose acquisition writes nothing, every presentation
passes the index that `imageIndex` held on entry.  (5) The two semaphores of `main` are
those written by its first and its second `vkCreateSemaphore` call. -/
theorem C10_frame_loop_semaphore_chain (c : FrameContext) (imageIndex : Option Nat)
    (r : FrameResponses) :
    (∀ x ∈ (main.frameIteration c imageIndex r).1,
      (∀ d sc t sem f, x = .vkAcquireNextImageKHR d sc t sem f →
        sem = c.imageAvailableSemaphore) ∧
      (∀ q submits f, x = .vkQueueSubmit q submits f →
        ∃ info, submits = [info] ∧
          info.waitSemaphores = [c.imageAvailableSemaphore] ∧
          info.waitDstStageMask = [VK_PIPELINE_STAGE_COLOR_ATTACHMENT_OUTPUT_BIT] ∧
          info.signalSemaphores = [c.renderFinishedSemaphore]) ∧
      (∀ q info, x = .vkQueuePresentKHR q info →
        info.waitSemaphores = [c.renderFinishedSemaphore])) ∧
      (∀ index, (main.frameIteration c imageIndex r).2 = .completed index →
        (main.frameIteration c imageIndex r).1.filter Call.usesSemaphore =
          [ .vkAcquireNextImageKHR c.logicalDevice c.swapchain UINT64_MAX
              c.imageAvailableSemaphore VK_NULL_HANDLE,
            .vkQueueSubmit c.graphicsQueue
              [{ waitSemaphores := [c.imageAvailableSemaphore]
                 waitDstStageMask := [VK_PIPELINE_STAGE_COLOR_ATTACHMENT_OUTPUT_BIT]
                 commandBuffers := [c.commandBuffer]
                 signalSemaphores := [c.renderFinishedSemaphore] }] c.inFlightFence,
            .vkQueuePresentKHR c.presentQueue
              { waitSemaphores := [c.renderFinishedSemaphore]
                swapchains := [c.swapchain]
                imageIndices := [index] } ]) ∧
      (∀ written, r.acquiredImageIndex = some written →
        (∀ x ∈ (main.frameIteration c imageIndex r).1, ∀ indices,
          x.presentedIndices = some indices → indices = [written]) ∧
        (∀ index, (main.frameIteration c imageIndex r).2 = .completed index →
          index = written) ∧
        (∀ framebuffer, c.framebuffers.get? written = some framebuffer →
          r.beginCommandBuffer = VK_SUCCESS → r.endCommandBuffer = VK_SUCCESS →
          r.queueSubmit = VK_SUCCESS →
          (main.frameIteration c imageIndex r).2 = .completed written ∧
            (main.frameIteration c imageIndex r).1.filterMap Call.presentedIndices =
              [[written]])) ∧
      (r.acquiredImageIndex = none → ∀ stale, imageIndex = some stale →
        ∀ x ∈ (main.frameIteration c imageIndex r).1, ∀ indices,
          x.presentedIndices = some indices → indices = [stale]) ∧
      (∀ env res, main.setup env = .ok res →
        env.vkCreateSemaphore 0 res.context.logicalDevice { flags := 0 } =
            (VK_SUCCESS, res.context.imageAvailableSemaphore) ∧
          env.vkCreateSemaphore 1 res.context.logicalDevice { flags := 0 } =
            (VK_SUCCESS, res.context.renderFinishedSemaphore)) := by
  refine ⟨?_, ?_, ?_, ?_, ?_⟩
  · intro x hx
    obtain ⟨index, fb, t, ht⟩ := frameIteration_initial_segment c imageIndex r
    have hmem : x ∈ specFrameCalls c index fb := by
      rw [← ht]; exact List.mem_append_left t hx
    simp only [specFrameCalls, List.mem_cons, List.mem_singleton, List.not_mem_nil,
      or_false] at hmem
    rcases hmem with rfl | rfl | rfl | rfl | rfl | rfl | rfl | rfl | rfl | rfl | rfl | rfl |
      rfl | rfl | rfl <;>
      simp [VK_PIPELINE_STAGE_COLOR_ATTACHMENT_OUTPUT_BIT]
    intro d sc t sem f _ _ _ hsem _
    exact hsem.symm
  · intro index h
    obtain ⟨fb, -, hcalls, -⟩ := frameIteration_completed c imageIndex r index h
    rw [hcalls]; rfl
  · intro written hw
    refine ⟨?_, ?_, ?_⟩
    · intro x hx indices hind
      obtain ⟨fb, t, ht⟩ :=
        frameIteration_initial_segment_of_index c imageIndex r written (Or.inl hw)
      have hmem : x ∈ specFrameCalls c written fb := by
        rw [← ht]; exact List.mem_append_left t hx
      exact specFrameCalls_presented c written fb x indices hmem hind
    · intro index h
      obtain ⟨fb, -, -, hidx, -⟩ := frameIteration_completed c imageIndex r index h
      rcases hidx with hsome | ⟨hnone, -⟩
      · rw [hw] at hsome; exact (Option.some.inj hsome).symm
      · rw [hw] at hnone; exact absurd hnone (by simp)
    · intro framebuffer hfb hbegin hend hsubmit
      rw [frameIteration_of_acquired c imageIndex r written framebuffer ⟨Or.inl hw, hfb⟩,
        if_neg (not_not.mpr hbegin), if_neg (not_not.mpr hend), if_neg (not_not.mpr hsubmit)]
      exact ⟨rfl, rfl⟩
  · intro hnone stale hstale x hx indices hind
    obtain ⟨fb, t, ht⟩ :=
      frameIteration_initial_segment_of_index c imageIndex r stale (Or.inr ⟨hnone, hstale⟩)
    have hmem : x ∈ specFrameCalls c stale fb := by
      rw [← ht]; exact List.mem_append_left t hx
    exact specFrameCalls_presented c stale fb x indices hmem hind
  · intro env res hsetup
    obtain ⟨h1, h2, -⟩ := setup_sync_objects env res hsetup
    exact ⟨createSemaphore_ok _ _ _ h1, createSemaphore_ok _ _ _ h2⟩

/-- Witness for C10: a successful iteration of `sampleContext` that acquires image 1 makes
one acquisition, one submission and one presentation chained by semaphores 9 and 10, and
presents image index 1. -/
theorem C10_frame_loop_semaphore_chain_witness :
    (main.frameIteration sampleContext none (successResponses 1)).1.filter
          Call.usesSemaphore =
        [ .vkAcquireNextImageKHR 2 3 UINT64_MAX 9 VK_NULL_HANDLE,
          .vkQueueSubmit 4
            [{ waitSemaphores := [9]
               waitDstStageMask := [VK_PIPELINE_STAGE_COLOR_ATTACHMENT_OUTPUT_BIT]
               commandBuffers := [8]
               signalSemaphores := [10] }] 11,
          .vkQueuePresentKHR 5
            { waitSemaphores := [10], swapchains := [3], imageIndices := [1] } ] ∧
      (main.frameIteration sampleContext none (successResponses 1)).2 = .completed 1 ∧
      (main.frameIteration sampleContext none (successResponses 1)).1.filterMap
        Call.presentedIndices = [[1]] :=
  ⟨(C10_frame_loop_semaphore_chain sampleContext none (successResponses 1)).2.1 1
      (by decide),
    ((C10_frame_loop_semaphore_chain sampleContext none (successResponses 1)).2.2.1 1
      rfl).2.2 21 (by decide) rfl rfl rfl⟩

end VulkanBootstrap
